import Mathlib

/-!
# Joystick camera interaction core (`src/interaction/joystickcamerastates.cpp`)

A shallow embedding of `openspace::interaction::JoystickCameraStates`.

Modelling conventions.

* `float` and `double` values are exact rationals (`ℚ`): rounding, infinities and NaN are
  not modelled, and `static_cast<float>` is the identity.
* A pointer into `_joystickCameraStates` is the position of the record in the vector.
* `std::array<T, MaxAxes>` is a total function on indices, of which only `0 .. MaxAxes-1`
  are array slots.  An access outside that range is undefined behaviour in the source and
  is a `Fault.outOfBounds` here.
* `std::multimap<int, ButtonInformation>` is a list of pairs kept sorted by key, equal keys
  in insertion order.
* The external collaborators are recorded, not executed: scripts handed to
  `ScriptEngine::queueScript` are appended to a queue, and the calls on the five
  `velocity` members are returned as a list of operations in source order.
* Log output (`LWARNING`) is not modelled.
-/

namespace OpenSpace

/-- The enumeration `AxisType` of an axis mapping, as used by the `switch` in
`updateStateFromInput`. -/
inductive AxisType where
  | None
  | OrbitX
  | OrbitY
  | Zoom
  | ZoomIn
  | ZoomOut
  | LocalRollX
  | LocalRollY
  | GlobalRollX
  | GlobalRollY
  | PanX
  | PanY
  | Property
  deriving DecidableEq, Repr

/-- Modelled from the spec: the enumeration `JoystickAction` is declared in a header that
is not part of the sources.  The spec lists it as `enum{Press,Release,Repeat,...}`; the
open tail is `Other`. -/
inductive JoystickAction where
  | Press
  | Release
  | Repeat
  | Other (code : Nat)
  deriving DecidableEq, Repr

/-- The record `AxisInformation`, with the fields the source reads and writes. -/
structure AxisInformation where
  type : AxisType
  invert : Bool
  normalize : Bool
  isSticky : Bool
  deadzone : ℚ
  sensitivity : ℚ
  propertyUri : String
  minValue : ℚ
  maxValue : ℚ
  isRemote : Bool
  deriving DecidableEq, Repr

/-- The value type of `buttonMapping`: one command bound to one button and action. -/
structure ButtonInformation where
  command : String
  action : JoystickAction
  synchronization : Bool
  documentation : String
  deriving DecidableEq, Repr

/-- The per-device record `JoystickCameraState`. -/
structure JoystickCameraState where
  joystickName : String
  axisMapping : Nat → AxisInformation
  prevAxisValues : Nat → ℚ
  buttonMapping : List (Int × ButtonInformation)

/-- The declarations of `joystickcamerastates.h` and `joystickinputstate.h` that the code
uses and that are not part of the sources: the three size constants and what a
default-constructed `AxisInformation` and a value-initialised `prevAxisValues` slot hold. -/
structure Declarations where
  MaxAxes : Nat
  MaxButtons : Nat
  MaxNumJoysticks : Nat
  defaultAxisInformation : AxisInformation
  defaultPrevAxisValue : ℚ

/-- Modelled from the spec: the input snapshot `JoystickInputStates`, whose member
functions are not part of the sources.  "For a given device name and axis index, returns
current raw axis value; for a given device name, button index, and action, returns whether
that action is currently active."  `names` lists the `name` of every entry in iteration
order (an unconnected entry has the empty name). -/
structure JoystickInputStates where
  names : List String
  axis : String → Int → ℚ
  button : String → Int → JoystickAction → Bool

/-- The text handed to `ScriptEngine::queueScript`: either the string
`"openspace.setPropertyValue(\"" + uri + "\", " + std::to_string(value) + ");"`, kept as
its two variable parts, or the `command` of a button binding. -/
inductive Script where
  | setPropertyValue (uri : String) (value : ℚ)
  | command (text : String)
  deriving DecidableEq, Repr

/-- One call of `global::scriptEngine->queueScript(script, RemoteScripting(remote))`. -/
structure QueuedScript where
  script : Script
  remote : Bool
  deriving DecidableEq, Repr

/-- A `glm::dvec2`. -/
structure DVec2 where
  x : ℚ
  y : ℚ
  deriving DecidableEq, Repr

/-- A `std::pair<bool, T>` as used for the five contribution accumulators. -/
structure Pair (α : Type) where
  first : Bool
  second : α
  deriving DecidableEq, Repr

/-- The five local accumulators declared at the top of `updateStateFromInput`. -/
structure Accumulators where
  globalRotation : Pair DVec2
  zoom : Pair ℚ
  localRoll : Pair DVec2
  globalRoll : Pair DVec2
  localRotation : Pair DVec2
  deriving DecidableEq, Repr

/-- The five motion channels of `CameraInteractionStates`, in the order in which
`updateStateFromInput` updates them. -/
inductive Channel where
  | globalRotation
  | truckMovement
  | localRoll
  | globalRoll
  | localRotation
  deriving DecidableEq, Repr

/-- A call on a channel's `velocity` member. -/
inductive VelocityOp where
  | set (value : DVec2) (deltaTime : ℚ)
  | decelerate (deltaTime : ℚ)
  deriving DecidableEq, Repr

/-- The coordinator `JoystickCameraStates`: the inherited `_sensitivity` and the vector
`_joystickCameraStates`. -/
structure JoystickCameraStates where
  _sensitivity : ℚ
  _joystickCameraStates : List JoystickCameraState

/-- How a call can end without returning: a failed `ghoul_assert`, or an array access
outside `0 .. MaxAxes-1`. -/
inductive Fault where
  | assertion
  | outOfBounds
  deriving DecidableEq, Repr

/-- The constant `std::numeric_limits<double>::epsilon()`. -/
def epsilon : ℚ := 1 / 2 ^ 52

/-- Initial value of the accumulators (lines 48-52). -/
def Accumulators.init : Accumulators :=
  { globalRotation := ⟨false, ⟨0, 0⟩⟩
    zoom := ⟨false, 0⟩
    localRoll := ⟨false, ⟨0, 0⟩⟩
    globalRoll := ⟨false, ⟨0, 0⟩⟩
    localRotation := ⟨false, ⟨0, 0⟩⟩ }

/-- The loop of `getJoystickCameraState`, started at position `k`: the position of the
first record whose `joystickName` equals `joystickName`. -/
def getJoystickCameraStateFrom (joystickName : String) :
    List JoystickCameraState → Nat → Option Nat
  | [], _ => none
  | c :: cs, k =>
    if c.joystickName = joystickName then some k
    else getJoystickCameraStateFrom joystickName cs (k + 1)

/-- The function `getJoystickCameraState` (both overloads): a pointer to the first record
with the given name, or `nullptr`. -/
def getJoystickCameraState (S : JoystickCameraStates) (joystickName : String) :
    Option Nat :=
  getJoystickCameraStateFrom joystickName S._joystickCameraStates 0

/-- A value-initialised `JoystickCameraState()` whose `joystickName` has been assigned. -/
def JoystickCameraState.fresh (K : Declarations) (joystickName : String) :
    JoystickCameraState :=
  { joystickName := joystickName
    axisMapping := fun _ => K.defaultAxisInformation
    prevAxisValues := fun _ => K.defaultPrevAxisValue
    buttonMapping := [] }

/-- The function `findOrAddJoystickCameraState`: the coordinator after the call and the
returned pointer. -/
def findOrAddJoystickCameraState (K : Declarations) (S : JoystickCameraStates)
    (joystickName : String) : JoystickCameraStates × Option Nat :=
  match getJoystickCameraState S joystickName with
  | some k => (S, some k)
  | none =>
    if S._joystickCameraStates.length < K.MaxNumJoysticks then
      ({ S with _joystickCameraStates :=
            S._joystickCameraStates ++ [JoystickCameraState.fresh K joystickName] },
        some S._joystickCameraStates.length)
    else (S, none)

/-! ## The axis pipeline of `updateStateFromInput` (lines 66-157) -/

/-- The value that enters the deadzone test (lines 73-78): the raw value, or for a sticky
axis the raw value minus the stored previous one. -/
def stickyValue (t : AxisInformation) (rawValue prev : ℚ) : ℚ :=
  if t.isSticky then rawValue - prev else rawValue

/-- The store of line 77: a sticky axis records the raw value it has just read. -/
def stickyStore (t : AxisInformation) (i : Nat) (rawValue : ℚ) (c : JoystickCameraState) :
    JoystickCameraState :=
  if t.isSticky then
    { c with prevAxisValues := Function.update c.prevAxisValues i rawValue }
  else c

/-- Invert, normalise and rescale (lines 84-94). -/
def preSensitivity (t : AxisInformation) (value : ℚ) : ℚ :=
  let value := if t.invert then value * (-1) else value
  let value := if t.normalize || t.type == AxisType.Property then (value + 1) / 2 else value
  if t.type = AxisType.Property then value * (t.maxValue - t.minValue) + t.minValue
  else value

/-- The sensitivity step (lines 96-101). -/
def applySensitivity (t : AxisInformation) (_sensitivity value : ℚ) : ℚ :=
  if |t.sensitivity| > epsilon then value * t.sensitivity * _sensitivity
  else value * _sensitivity

/-- The state threaded through the two inner loops while one device is processed: the
record the pointer `joystickCameraState` refers to, the five accumulators and the scripts
queued so far. -/
structure DeviceLoop where
  cam : JoystickCameraState
  acc : Accumulators
  queue : List QueuedScript

/-- The `switch (t.type)` of lines 103-156 on the accumulators. -/
def switchAcc (type : AxisType) (value : ℚ) (a : Accumulators) : Accumulators :=
  match type with
  | .None => a
  | .OrbitX =>
    { a with globalRotation := ⟨true, ⟨a.globalRotation.second.x + value,
                                        a.globalRotation.second.y⟩⟩ }
  | .OrbitY =>
    { a with globalRotation := ⟨true, ⟨a.globalRotation.second.x,
                                        a.globalRotation.second.y + value⟩⟩ }
  | .Zoom => { a with zoom := ⟨true, a.zoom.second + value⟩ }
  | .ZoomIn => { a with zoom := ⟨true, a.zoom.second + value⟩ }
  | .ZoomOut => { a with zoom := ⟨true, a.zoom.second - value⟩ }
  | .LocalRollX =>
    { a with localRoll := ⟨true, ⟨a.localRoll.second.x + value, a.localRoll.second.y⟩⟩ }
  | .LocalRollY =>
    { a with localRoll := ⟨true, ⟨a.localRoll.second.x, a.localRoll.second.y + value⟩⟩ }
  | .GlobalRollX =>
    { a with globalRoll := ⟨true, ⟨a.globalRoll.second.x + value, a.globalRoll.second.y⟩⟩ }
  | .GlobalRollY =>
    { a with globalRoll := ⟨true, ⟨a.globalRoll.second.x, a.globalRoll.second.y + value⟩⟩ }
  | .PanX =>
    { a with localRotation := ⟨true, ⟨a.localRotation.second.x + value,
                                       a.localRotation.second.y⟩⟩ }
  | .PanY =>
    { a with localRotation := ⟨true, ⟨a.localRotation.second.x,
                                       a.localRotation.second.y + value⟩⟩ }
  | .Property => a

/-- The `switch (t.type)` of lines 103-156 on the script queue: only the `Property` case
queues a script. -/
def switchQueue (t : AxisInformation) (value : ℚ) (q : List QueuedScript) :
    List QueuedScript :=
  match t.type with
  | .Property => q ++ [⟨Script.setPropertyValue t.propertyUri value, t.isRemote⟩]
  | _ => q

/-- One iteration of the axis loop (lines 66-157) for axis `i` of the device `name`. -/
def axisBody (_sensitivity : ℚ) (joystickInputStates : JoystickInputStates)
    (name : String) (L : DeviceLoop) (i : Nat) : DeviceLoop :=
  let t := L.cam.axisMapping i
  if t.type = AxisType.None then L
  else
    let rawValue := joystickInputStates.axis name i
    let value := stickyValue t rawValue (L.cam.prevAxisValues i)
    let cam := stickyStore t i rawValue L.cam
    if |value| ≤ t.deadzone then { L with cam := cam }
    else
      let value := applySensitivity t _sensitivity (preSensitivity t value)
      { cam := cam
        acc := switchAcc t.type value L.acc
        queue := switchQueue t value L.queue }

/-- The axis loop `for (int i = 0; i < MaxAxes; ++i)`. -/
def axisLoop (K : Declarations) (_sensitivity : ℚ)
    (joystickInputStates : JoystickInputStates) (name : String) (L : DeviceLoop) :
    DeviceLoop :=
  (List.range K.MaxAxes).foldl (axisBody _sensitivity joystickInputStates name) L

/-- The result of `buttonMapping.equal_range(i)`: the bindings of button `i`, in order. -/
def equalRange (m : List (Int × ButtonInformation)) (i : Int) : List ButtonInformation :=
  (m.filter (fun kv => kv.1 = i)).map Prod.snd

/-- The body of the inner button loop (lines 161-174) for one binding of button `i`. -/
def bindingBody (globalInputs : JoystickInputStates) (name : String) (i : Int)
    (q : List QueuedScript) (b : ButtonInformation) : List QueuedScript :=
  if globalInputs.button name i b.action then
    q ++ [⟨Script.command b.command, b.synchronization⟩]
  else q

/-- One iteration of the button loop (lines 159-175) for button `i`. -/
def buttonBody (globalInputs : JoystickInputStates) (name : String)
    (L : DeviceLoop) (i : Nat) : DeviceLoop :=
  { L with queue :=
      (equalRange L.cam.buttonMapping i).foldl (bindingBody globalInputs name i) L.queue }

/-- The button loop `for (int i = 0; i < MaxButtons; ++i)`. -/
def buttonLoop (K : Declarations) (globalInputs : JoystickInputStates) (name : String)
    (L : DeviceLoop) : DeviceLoop :=
  (List.range K.MaxButtons).foldl (buttonBody globalInputs name) L

/-- The state threaded through the device loop. -/
structure TickLoop where
  states : List JoystickCameraState
  acc : Accumulators
  queue : List QueuedScript

/-- One iteration of the device loop (lines 54-176) for the snapshot entry called `name`.
The record found is processed through the pointer and therefore written back in place. -/
def deviceBody (K : Declarations) (_sensitivity : ℚ)
    (joystickInputStates globalInputs : JoystickInputStates)
    (T : TickLoop) (name : String) : TickLoop :=
  if name = "" then T
  else
    match getJoystickCameraState ⟨_sensitivity, T.states⟩ name with
    | none => T
    | some k =>
      match T.states[k]? with
      | none => T
      | some c =>
        let L := buttonLoop K globalInputs name
          (axisLoop K _sensitivity joystickInputStates name ⟨c, T.acc, T.queue⟩)
        { states := T.states.set k L.cam, acc := L.acc, queue := L.queue }

/-- The call made on a channel's `velocity` after the device loop (lines 178-211). -/
def velocityOp (p : Pair DVec2) (deltaTime : ℚ) : VelocityOp :=
  if p.first then VelocityOp.set p.second deltaTime else VelocityOp.decelerate deltaTime

/-- What one call of `updateStateFromInput` leaves behind: the coordinator, the scripts
handed to the script engine in order, and the calls made on the five `velocity` members
in order. -/
structure TickResult where
  states : JoystickCameraStates
  queue : List QueuedScript
  velocityOps : List (Channel × VelocityOp)

/-- The device loop of `updateStateFromInput` (lines 48-176), from the initial
accumulators and an empty queue. -/
def deviceLoop (K : Declarations) (S : JoystickCameraStates)
    (joystickInputStates globalInputs : JoystickInputStates) : TickLoop :=
  joystickInputStates.names.foldl
    (deviceBody K S._sensitivity joystickInputStates globalInputs)
    ⟨S._joystickCameraStates, Accumulators.init, []⟩

/-- The five velocity updates of lines 178-211, in source order. -/
def velocityOps (a : Accumulators) (deltaTime : ℚ) : List (Channel × VelocityOp) :=
  [ (Channel.globalRotation, velocityOp a.globalRotation deltaTime),
    (Channel.truckMovement,
      velocityOp ⟨a.zoom.first, ⟨a.zoom.second, a.zoom.second⟩⟩ deltaTime),
    (Channel.localRoll, velocityOp a.localRoll deltaTime),
    (Channel.globalRoll, velocityOp a.globalRoll deltaTime),
    (Channel.localRotation, velocityOp a.localRotation deltaTime) ]

/-- The function `updateStateFromInput`.  Its parameter is `joystickInputStates`; the
button loop reads `global::joystickInputStates`, here `globalInputs`. -/
def updateStateFromInput (K : Declarations) (S : JoystickCameraStates)
    (joystickInputStates globalInputs : JoystickInputStates) (deltaTime : ℚ) :
    TickResult :=
  let T := deviceLoop K S joystickInputStates globalInputs
  { states := { S with _joystickCameraStates := T.states }
    queue := T.queue
    velocityOps := velocityOps T.acc deltaTime }

/-! ## Configuration and query operations (lines 214-353) -/

/-- The array slot an `int axis` addresses, if it addresses one. -/
def slot (K : Declarations) (axis : Int) : Option Nat :=
  if 0 ≤ axis ∧ axis < K.MaxAxes then some axis.toNat else none

/-- A write through the pointer `k` returned by `findOrAddJoystickCameraState`. -/
def writeAt (S : JoystickCameraStates) (k : Nat)
    (f : JoystickCameraState → JoystickCameraState) : JoystickCameraStates :=
  match S._joystickCameraStates[k]? with
  | none => S
  | some c => { S with _joystickCameraStates := S._joystickCameraStates.set k (f c) }

/-- The function `setAxisMapping` (lines 214-236).  The current raw value is read from
`global::joystickInputStates`, here `globalInputs`. -/
def setAxisMapping (K : Declarations) (globalInputs : JoystickInputStates)
    (S : JoystickCameraStates) (joystickName : String) (axis : Int) (mapping : AxisType)
    (shouldInvert shouldNormalize isSticky : Bool) (sensitivity : ℚ) :
    Except Fault JoystickCameraStates :=
  if ¬ axis < K.MaxAxes then Except.error Fault.assertion
  else
    match findOrAddJoystickCameraState K S joystickName with
    | (S1, none) => Except.ok S1
    | (S1, some k) =>
      match slot K axis with
      | none => Except.error Fault.outOfBounds
      | some a =>
        Except.ok (writeAt S1 k fun c =>
          { c with
            axisMapping := Function.update c.axisMapping a
              { c.axisMapping a with
                type := mapping
                invert := shouldInvert
                normalize := shouldNormalize
                isSticky := isSticky
                sensitivity := sensitivity }
            prevAxisValues :=
              Function.update c.prevAxisValues a (globalInputs.axis joystickName axis) })

/-- The function `setAxisMappingProperty` (lines 238-264). -/
def setAxisMappingProperty (K : Declarations) (globalInputs : JoystickInputStates)
    (S : JoystickCameraStates) (joystickName : String) (axis : Int)
    (propertyUri : String) (min max : ℚ) (shouldInvert isSticky : Bool)
    (sensitivity : ℚ) (isRemote : Bool) : Except Fault JoystickCameraStates :=
  if ¬ axis < K.MaxAxes then Except.error Fault.assertion
  else
    match findOrAddJoystickCameraState K S joystickName with
    | (S1, none) => Except.ok S1
    | (S1, some k) =>
      match slot K axis with
      | none => Except.error Fault.outOfBounds
      | some a =>
        Except.ok (writeAt S1 k fun c =>
          { c with
            axisMapping := Function.update c.axisMapping a
              { c.axisMapping a with
                type := AxisType.Property
                invert := shouldInvert
                isSticky := isSticky
                sensitivity := sensitivity
                propertyUri := propertyUri
                minValue := min
                maxValue := max
                isRemote := isRemote }
            prevAxisValues :=
              Function.update c.prevAxisValues a (globalInputs.axis joystickName axis) })

/-- The function `axisMapping` (lines 266-277). -/
def axisMapping (K : Declarations) (S : JoystickCameraStates) (joystickName : String)
    (axis : Int) : Except Fault AxisInformation :=
  match getJoystickCameraState S joystickName with
  | none => Except.ok K.defaultAxisInformation
  | some k =>
    match S._joystickCameraStates[k]?, slot K axis with
    | some c, some a => Except.ok (c.axisMapping a)
    | _, _ => Except.error Fault.outOfBounds

/-- The function `setDeadzone` (lines 279-288); it has no assertion on `axis`. -/
def setDeadzone (K : Declarations) (S : JoystickCameraStates) (joystickName : String)
    (axis : Int) (deadzone : ℚ) : Except Fault JoystickCameraStates :=
  match findOrAddJoystickCameraState K S joystickName with
  | (S1, none) => Except.ok S1
  | (S1, some k) =>
    match slot K axis with
    | none => Except.error Fault.outOfBounds
    | some a =>
      Except.ok (writeAt S1 k fun c =>
        { c with
          axisMapping := Function.update c.axisMapping a
            { c.axisMapping a with deadzone := deadzone } })

/-- The function `deadzone` (lines 290-297). -/
def deadzone (K : Declarations) (S : JoystickCameraStates) (joystickName : String)
    (axis : Int) : Except Fault ℚ :=
  match getJoystickCameraState S joystickName with
  | none => Except.ok 0
  | some k =>
    match S._joystickCameraStates[k]?, slot K axis with
    | some c, some a => Except.ok (c.axisMapping a).deadzone
    | _, _ => Except.error Fault.outOfBounds

/-- The member `std::multimap::insert`: the new pair goes behind every pair whose key is
not greater than its own. -/
def multimapInsert (kv : Int × ButtonInformation) :
    List (Int × ButtonInformation) → List (Int × ButtonInformation)
  | [] => [kv]
  | x :: xs => if kv.1 < x.1 then kv :: x :: xs else x :: multimapInsert kv xs

/-- The function `bindButtonCommand` (lines 299-314). -/
def bindButtonCommand (K : Declarations) (S : JoystickCameraStates)
    (joystickName : String) (button : Int) (command : String) (action : JoystickAction)
    (remote : Bool) (documentation : String) : JoystickCameraStates :=
  match findOrAddJoystickCameraState K S joystickName with
  | (S1, none) => S1
  | (S1, some k) =>
    writeAt S1 k fun c =>
      { c with
        buttonMapping :=
          multimapInsert (button, ⟨command, action, remote, documentation⟩)
            c.buttonMapping }

/-- The function `clearButtonCommand` (lines 316-336): the erase loop keeps exactly the
pairs whose key differs from `button`, in order. -/
def clearButtonCommand (S : JoystickCameraStates) (joystickName : String)
    (button : Int) : JoystickCameraStates :=
  match getJoystickCameraState S joystickName with
  | none => S
  | some k =>
    writeAt S k fun c =>
      { c with buttonMapping := c.buttonMapping.filter (fun kv => ¬ kv.1 = button) }

/-- The function `buttonCommand` (lines 338-353). -/
def buttonCommand (S : JoystickCameraStates) (joystickName : String) (button : Int) :
    List String :=
  match getJoystickCameraState S joystickName with
  | none => []
  | some k =>
    match S._joystickCameraStates[k]? with
    | none => []
    | some c => (equalRange c.buttonMapping button).map ButtonInformation.command

/-! ## Notions used to state the claims -/

/-- The motion channel an axis type feeds in the `switch` of lines 103-156, if any. -/
def channelOf : AxisType → Option Channel
  | .OrbitX | .OrbitY => some Channel.globalRotation
  | .Zoom | .ZoomIn | .ZoomOut => some Channel.truckMovement
  | .LocalRollX | .LocalRollY => some Channel.localRoll
  | .GlobalRollX | .GlobalRollY => some Channel.globalRoll
  | .PanX | .PanY => some Channel.localRotation
  | .None | .Property => none

/-- The `touched` flag (`.first`) of a channel's accumulator. -/
def Accumulators.touched (a : Accumulators) : Channel → Bool
  | .globalRotation => a.globalRotation.first
  | .truckMovement => a.zoom.first
  | .localRoll => a.localRoll.first
  | .globalRoll => a.globalRoll.first
  | .localRotation => a.localRotation.first

/-- The aggregate (`.second`) of a channel's accumulator, the scalar `zoom` widened by
`glm::dvec2(zoom.second)` as in line 186. -/
def Accumulators.aggregate (a : Accumulators) : Channel → DVec2
  | .globalRotation => a.globalRotation.second
  | .truckMovement => ⟨a.zoom.second, a.zoom.second⟩
  | .localRoll => a.localRoll.second
  | .globalRoll => a.globalRoll.second
  | .localRotation => a.localRotation.second

/-- The component of the accumulators that an axis of the given channel type feeds. -/
def Accumulators.component (a : Accumulators) : AxisType → ℚ
  | .OrbitX => a.globalRotation.second.x
  | .OrbitY => a.globalRotation.second.y
  | .Zoom | .ZoomIn | .ZoomOut => a.zoom.second
  | .LocalRollX => a.localRoll.second.x
  | .LocalRollY => a.localRoll.second.y
  | .GlobalRollX => a.globalRoll.second.x
  | .GlobalRollY => a.globalRoll.second.y
  | .PanX => a.localRotation.second.x
  | .PanY => a.localRotation.second.y
  | .None | .Property => 0

/-- The factor of the sensitivity step (lines 96-101). -/
def sensitivityFactor (t : AxisInformation) (_sensitivity : ℚ) : ℚ :=
  if |t.sensitivity| > epsilon then t.sensitivity * _sensitivity else _sensitivity

/-- The sum of two sets of accumulators: a channel is touched if it is touched in either,
and the aggregates are added. -/
def Accumulators.add (a b : Accumulators) : Accumulators :=
  { globalRotation := ⟨a.globalRotation.first || b.globalRotation.first,
      ⟨a.globalRotation.second.x + b.globalRotation.second.x,
        a.globalRotation.second.y + b.globalRotation.second.y⟩⟩
    zoom := ⟨a.zoom.first || b.zoom.first, a.zoom.second + b.zoom.second⟩
    localRoll := ⟨a.localRoll.first || b.localRoll.first,
      ⟨a.localRoll.second.x + b.localRoll.second.x,
        a.localRoll.second.y + b.localRoll.second.y⟩⟩
    globalRoll := ⟨a.globalRoll.first || b.globalRoll.first,
      ⟨a.globalRoll.second.x + b.globalRoll.second.x,
        a.globalRoll.second.y + b.globalRoll.second.y⟩⟩
    localRotation := ⟨a.localRotation.first || b.localRotation.first,
      ⟨a.localRotation.second.x + b.localRotation.second.x,
        a.localRotation.second.y + b.localRotation.second.y⟩⟩ }

/-- The contribution of each snapshot entry in turn: what the entry marks and adds when
its iteration of the device loop starts from the initial accumulators, in the state of
the records that the entries before it have left. -/
def contributions (K : Declarations) (_sensitivity : ℚ)
    (joystickInputStates globalInputs : JoystickInputStates) :
    List JoystickCameraState → List String → List Accumulators
  | _, [] => []
  | states, n :: ns =>
    (deviceBody K _sensitivity joystickInputStates globalInputs
        ⟨states, Accumulators.init, []⟩ n).acc ::
      contributions K _sensitivity joystickInputStates globalInputs
        (deviceBody K _sensitivity joystickInputStates globalInputs
          ⟨states, Accumulators.init, []⟩ n).states ns

/-- The five channels in the order of lines 178-211. -/
def Channel.all : List Channel :=
  [Channel.globalRotation, Channel.truckMovement, Channel.localRoll, Channel.globalRoll,
    Channel.localRotation]

/-- The names of the device records, in order. -/
def names (l : List JoystickCameraState) : List String :=
  l.map JoystickCameraState.joystickName

/-- The states a coordinator can be in: it is constructed with an empty vector, and every
configuration call that returns and every update tick leads from a state to the next.
The snapshots read by the calls are arbitrary. -/
inductive Reachable (K : Declarations) : JoystickCameraStates → Prop where
  | construct (sensitivity : ℚ) : Reachable K ⟨sensitivity, []⟩
  | setAxisMapping {S S1 : JoystickCameraStates} (g : JoystickInputStates)
      (joystickName : String) (axis : Int) (mapping : AxisType)
      (shouldInvert shouldNormalize isSticky : Bool) (sensitivity : ℚ) :
      Reachable K S →
      OpenSpace.setAxisMapping K g S joystickName axis mapping shouldInvert shouldNormalize
        isSticky sensitivity = Except.ok S1 →
      Reachable K S1
  | setAxisMappingProperty {S S1 : JoystickCameraStates} (g : JoystickInputStates)
      (joystickName : String) (axis : Int) (propertyUri : String) (min max : ℚ)
      (shouldInvert isSticky : Bool) (sensitivity : ℚ) (isRemote : Bool) :
      Reachable K S →
      OpenSpace.setAxisMappingProperty K g S joystickName axis propertyUri min max
        shouldInvert isSticky sensitivity isRemote = Except.ok S1 →
      Reachable K S1
  | setDeadzone {S S1 : JoystickCameraStates} (joystickName : String) (axis : Int)
      (deadzone : ℚ) :
      Reachable K S →
      OpenSpace.setDeadzone K S joystickName axis deadzone = Except.ok S1 →
      Reachable K S1
  | bindButtonCommand {S : JoystickCameraStates} (joystickName : String) (button : Int)
      (command : String) (action : JoystickAction) (remote : Bool)
      (documentation : String) :
      Reachable K S →
      Reachable K
        (OpenSpace.bindButtonCommand K S joystickName button command action remote
          documentation)
  | clearButtonCommand {S : JoystickCameraStates} (joystickName : String) (button : Int) :
      Reachable K S → Reachable K (OpenSpace.clearButtonCommand S joystickName button)
  | updateStateFromInput {S : JoystickCameraStates}
      (joystickInputStates globalInputs : JoystickInputStates) (deltaTime : ℚ) :
      Reachable K S →
      Reachable K
        (OpenSpace.updateStateFromInput K S joystickInputStates globalInputs
          deltaTime).states

/-- The record of the device `joystickName`, if it has one: what the pointer returned by
`getJoystickCameraState` points to. -/
def record (S : JoystickCameraStates) (joystickName : String) :
    Option JoystickCameraState :=
  match getJoystickCameraState S joystickName with
  | none => none
  | some k => S._joystickCameraStates[k]?

/-- The representation invariant of a `std::multimap`: the pairs are ordered by key. -/
def sortedKeys (m : List (Int × ButtonInformation)) : Prop :=
  m.Pairwise (fun x y => x.1 ≤ y.1)

/-- The writes of `setAxisMapping` (lines 228-235) to the record behind the pointer, for
the array slot `a` and the raw value `raw` read from the global snapshot. -/
def axisWrite (a : Nat) (mapping : AxisType) (shouldInvert shouldNormalize isSticky : Bool)
    (sensitivity raw : ℚ) (c : JoystickCameraState) : JoystickCameraState :=
  { c with
    axisMapping := Function.update c.axisMapping a
      { c.axisMapping a with
        type := mapping
        invert := shouldInvert
        normalize := shouldNormalize
        isSticky := isSticky
        sensitivity := sensitivity }
    prevAxisValues := Function.update c.prevAxisValues a raw }

/-- The writes of `setAxisMappingProperty` (lines 253-263) to the record behind the
pointer. -/
def propertyWrite (a : Nat) (propertyUri : String) (min max : ℚ)
    (shouldInvert isSticky : Bool) (sensitivity : ℚ) (isRemote : Bool) (raw : ℚ)
    (c : JoystickCameraState) : JoystickCameraState :=
  { c with
    axisMapping := Function.update c.axisMapping a
      { c.axisMapping a with
        type := AxisType.Property
        invert := shouldInvert
        isSticky := isSticky
        sensitivity := sensitivity
        propertyUri := propertyUri
        minValue := min
        maxValue := max
        isRemote := isRemote }
    prevAxisValues := Function.update c.prevAxisValues a raw }

/-- The write of `setDeadzone` (line 287) to the record behind the pointer. -/
def deadzoneWrite (a : Nat) (deadzone : ℚ) (c : JoystickCameraState) :
    JoystickCameraState :=
  { c with
    axisMapping := Function.update c.axisMapping a
      { c.axisMapping a with deadzone := deadzone } }

/-- The record a configuration call works on: the record of the device, or a fresh one
when the device has none yet. -/
def recordOrFresh (K : Declarations) (S : JoystickCameraStates) (joystickName : String) :
    JoystickCameraState :=
  (record S joystickName).getD (JoystickCameraState.fresh K joystickName)

/-- The scripts that the bindings of button `i` of the record `c` hand to the script
engine in one tick: one per binding whose own action is active for that button in the
global snapshot, in binding order, tagged with the binding's `synchronization`. -/
def buttonScripts (globalInputs : JoystickInputStates) (name : String)
    (c : JoystickCameraState) (i : Nat) : List QueuedScript :=
  ((equalRange c.buttonMapping i).filter
      (fun b => globalInputs.button name i b.action)).map
    (fun b => ⟨Script.command b.command, b.synchronization⟩)

/-- The script that axis `i` of the record `c` hands to the script engine in one tick:
the `setPropertyValue` script of a `Property` axis that passes its deadzone, none
otherwise. -/
def axisScripts (_sensitivity : ℚ) (joystickInputStates : JoystickInputStates)
    (name : String) (c : JoystickCameraState) (i : Nat) : List QueuedScript :=
  if (c.axisMapping i).type = AxisType.Property ∧
      ¬ |stickyValue (c.axisMapping i) (joystickInputStates.axis name i)
          (c.prevAxisValues i)| ≤ (c.axisMapping i).deadzone then
    [⟨Script.setPropertyValue (c.axisMapping i).propertyUri
        (applySensitivity (c.axisMapping i) _sensitivity
          (preSensitivity (c.axisMapping i)
            (stickyValue (c.axisMapping i) (joystickInputStates.axis name i)
              (c.prevAxisValues i)))),
      (c.axisMapping i).isRemote⟩]
  else []

/-- The scripts of one device with record `c` in one tick: the axis scripts in ascending
axis index, then the button scripts in ascending button index. -/
def deviceScripts (K : Declarations) (_sensitivity : ℚ)
    (joystickInputStates globalInputs : JoystickInputStates) (name : String)
    (c : JoystickCameraState) : List QueuedScript :=
  (List.range K.MaxAxes).flatMap (axisScripts _sensitivity joystickInputStates name c) ++
    (List.range K.MaxButtons).flatMap (buttonScripts globalInputs name c)

/-- The scripts of one snapshot entry: none for an empty name or a device without a
record, the scripts of the device otherwise. -/
def entryScripts (K : Declarations) (_sensitivity : ℚ)
    (joystickInputStates globalInputs : JoystickInputStates)
    (states : List JoystickCameraState) (name : String) : List QueuedScript :=
  if name = "" then []
  else
    match record ⟨_sensitivity, states⟩ name with
    | none => []
    | some c => deviceScripts K _sensitivity joystickInputStates globalInputs name c

/-- The scripts of a tick, entry by entry in snapshot order, each entry in the state of
the records that the entries before it have left. -/
def tickScripts (K : Declarations) (_sensitivity : ℚ)
    (joystickInputStates globalInputs : JoystickInputStates) :
    List JoystickCameraState → List String → List QueuedScript
  | _, [] => []
  | states, n :: ns =>
    entryScripts K _sensitivity joystickInputStates globalInputs states n ++
      tickScripts K _sensitivity joystickInputStates globalInputs
        (deviceBody K _sensitivity joystickInputStates globalInputs
          ⟨states, Accumulators.init, []⟩ n).states ns

/-- The final value of axis `i` of the record `c` in a tick: the value with which the
`switch` is entered, after sticky, invert, normalise, rescale and sensitivity. -/
def finalValue (_sensitivity : ℚ) (joystickInputStates : JoystickInputStates)
    (name : String) (c : JoystickCameraState) (i : Nat) : ℚ :=
  applySensitivity (c.axisMapping i) _sensitivity
    (preSensitivity (c.axisMapping i)
      (stickyValue (c.axisMapping i) (joystickInputStates.axis name i)
        (c.prevAxisValues i)))

/-- Whether axis `i` of the record `c` passes its deadzone in a tick. -/
def passes (joystickInputStates : JoystickInputStates) (name : String)
    (c : JoystickCameraState) (i : Nat) : Bool :=
  decide (¬ |stickyValue (c.axisMapping i) (joystickInputStates.axis name i)
    (c.prevAxisValues i)| ≤ (c.axisMapping i).deadzone)

/-- Whether axis `i` of the record `c` is mapped to `Zoom` or `ZoomIn` and passes its
deadzone. -/
def zoomsIn (joystickInputStates : JoystickInputStates) (name : String)
    (c : JoystickCameraState) (i : Nat) : Bool :=
  (decide ((c.axisMapping i).type = AxisType.Zoom) ||
    decide ((c.axisMapping i).type = AxisType.ZoomIn)) &&
  passes joystickInputStates name c i

/-- Whether axis `i` of the record `c` is mapped to `ZoomOut` and passes its deadzone. -/
def zoomsOut (joystickInputStates : JoystickInputStates) (name : String)
    (c : JoystickCameraState) (i : Nat) : Bool :=
  decide ((c.axisMapping i).type = AxisType.ZoomOut) &&
  passes joystickInputStates name c i

/-- The truck contribution of one snapshot entry: for a configured device, the sum of the
final values of its contributing `Zoom` and `ZoomIn` axes minus the sum of the final
values of its contributing `ZoomOut` axes; 0 for an entry that is skipped. -/
def entryZoom (K : Declarations) (_sensitivity : ℚ)
    (joystickInputStates : JoystickInputStates)
    (states : List JoystickCameraState) (name : String) : ℚ :=
  if name = "" then 0
  else
    match record ⟨_sensitivity, states⟩ name with
    | none => 0
    | some c =>
      (((List.range K.MaxAxes).filter (zoomsIn joystickInputStates name c)).map
          (finalValue _sensitivity joystickInputStates name c)).sum -
        (((List.range K.MaxAxes).filter (zoomsOut joystickInputStates name c)).map
          (finalValue _sensitivity joystickInputStates name c)).sum

/-- Whether one snapshot entry has a `Zoom`, `ZoomIn` or `ZoomOut` axis that passes its
deadzone. -/
def entryZoomTouched (K : Declarations) (_sensitivity : ℚ)
    (joystickInputStates : JoystickInputStates)
    (states : List JoystickCameraState) (name : String) : Bool :=
  if name = "" then false
  else
    match record ⟨_sensitivity, states⟩ name with
    | none => false
    | some c =>
      (List.range K.MaxAxes).any (fun i =>
        zoomsIn joystickInputStates name c i || zoomsOut joystickInputStates name c i)

/-- The truck aggregate of a tick: the sum of the truck contributions of the snapshot
entries, each in the state of the records that the entries before it have left. -/
def tickZoom (K : Declarations) (_sensitivity : ℚ)
    (joystickInputStates globalInputs : JoystickInputStates) :
    List JoystickCameraState → List String → ℚ
  | _, [] => 0
  | states, n :: ns =>
    entryZoom K _sensitivity joystickInputStates states n +
      tickZoom K _sensitivity joystickInputStates globalInputs
        (deviceBody K _sensitivity joystickInputStates globalInputs
          ⟨states, Accumulators.init, []⟩ n).states ns

/-- Whether some snapshot entry of a tick has a zoom axis that passes its deadzone. -/
def tickZoomTouched (K : Declarations) (_sensitivity : ℚ)
    (joystickInputStates globalInputs : JoystickInputStates) :
    List JoystickCameraState → List String → Bool
  | _, [] => false
  | states, n :: ns =>
    entryZoomTouched K _sensitivity joystickInputStates states n ||
      tickZoomTouched K _sensitivity joystickInputStates globalInputs
        (deviceBody K _sensitivity joystickInputStates globalInputs
          ⟨states, Accumulators.init, []⟩ n).states ns

/-- What a tick may do to a device record: name, axis mappings and button bindings stay,
and a slot of `prevAxisValues` differs only if it belongs to a sticky axis below `MaxAxes`
with a type other than `None` of a device whose non-empty name is in the snapshot, in
which case it holds the raw value of that axis. -/
def framed (K : Declarations) (joystickInputStates : JoystickInputStates)
    (c c1 : JoystickCameraState) : Prop :=
  c1.joystickName = c.joystickName ∧
  c1.axisMapping = c.axisMapping ∧
  c1.buttonMapping = c.buttonMapping ∧
  ∀ i, c1.prevAxisValues i ≠ c.prevAxisValues i →
    (c.axisMapping i).isSticky = true ∧ (c.axisMapping i).type ≠ AxisType.None ∧
    i < K.MaxAxes ∧ c.joystickName ≠ "" ∧ c.joystickName ∈ joystickInputStates.names ∧
    c1.prevAxisValues i = joystickInputStates.axis c.joystickName i

/-- A call of `setAxisMapping` or of `setAxisMappingProperty`, with its arguments other
than device and axis and with the global snapshot it finds. -/
inductive MappingCall where
  | plain (g : JoystickInputStates) (mapping : AxisType)
      (shouldInvert shouldNormalize isSticky : Bool) (sensitivity : ℚ)
  | property (g : JoystickInputStates) (propertyUri : String) (min max : ℚ)
      (shouldInvert isSticky : Bool) (sensitivity : ℚ) (isRemote : Bool)

/-- One mapping call on the device `joystickName` and the axis `axis`. -/
def MappingCall.run (K : Declarations) (joystickName : String) (axis : Int)
    (S : JoystickCameraStates) : MappingCall → Except Fault JoystickCameraStates
  | .plain g mapping shouldInvert shouldNormalize isSticky sensitivity =>
    setAxisMapping K g S joystickName axis mapping shouldInvert shouldNormalize isSticky
      sensitivity
  | .property g propertyUri min max shouldInvert isSticky sensitivity isRemote =>
    setAxisMappingProperty K g S joystickName axis propertyUri min max shouldInvert
      isSticky sensitivity isRemote

/-- A sequence of mapping calls on one device and axis, one after the other. -/
def runCalls (K : Declarations) (joystickName : String) (axis : Int) :
    List MappingCall → JoystickCameraStates → Except Fault JoystickCameraStates
  | [], S => Except.ok S
  | call :: calls, S =>
    match call.run K joystickName axis S with
    | Except.ok S1 => runCalls K joystickName axis calls S1
    | Except.error e => Except.error e

/-- The dispatch rule in the spec's words: `OrbitX/Y` feed global rotation x/y, `Zoom`
and `ZoomIn` add to and `ZoomOut` subtracts from the truck channel (a scalar, widened to
both components), `LocalRollX/Y`, `GlobalRollX/Y` and `PanX/Y` feed local roll, global
roll and local rotation x/y.  The result is the channel fed and the direction in which
the axis value enters the channel's aggregate. -/
def feeds : AxisType → Option (Channel × DVec2)
  | .OrbitX => some (Channel.globalRotation, ⟨1, 0⟩)
  | .OrbitY => some (Channel.globalRotation, ⟨0, 1⟩)
  | .Zoom => some (Channel.truckMovement, ⟨1, 1⟩)
  | .ZoomIn => some (Channel.truckMovement, ⟨1, 1⟩)
  | .ZoomOut => some (Channel.truckMovement, ⟨-1, -1⟩)
  | .LocalRollX => some (Channel.localRoll, ⟨1, 0⟩)
  | .LocalRollY => some (Channel.localRoll, ⟨0, 1⟩)
  | .GlobalRollX => some (Channel.globalRoll, ⟨1, 0⟩)
  | .GlobalRollY => some (Channel.globalRoll, ⟨0, 1⟩)
  | .PanX => some (Channel.localRotation, ⟨1, 0⟩)
  | .PanY => some (Channel.localRotation, ⟨0, 1⟩)
  | .None => none
  | .Property => none

/-- Whether axis `i` of the record `c` marks the channel `ch` touched in a tick: its type
feeds `ch` and it passes its deadzone. -/
def axisTouches (joystickInputStates : JoystickInputStates) (name : String)
    (c : JoystickCameraState) (i : Nat) (ch : Channel) : Bool :=
  match feeds (c.axisMapping i).type with
  | some (ch1, _) => decide (ch1 = ch) && passes joystickInputStates name c i
  | none => false

/-- What axis `i` of the record `c` adds to the aggregate of the channel `ch` in a tick:
its final value in the direction of its type if it touches `ch`, nothing otherwise. -/
def axisAdds (_sensitivity : ℚ) (joystickInputStates : JoystickInputStates)
    (name : String) (c : JoystickCameraState) (i : Nat) (ch : Channel) : DVec2 :=
  match feeds (c.axisMapping i).type with
  | some (ch1, d) =>
    if ch1 = ch ∧ passes joystickInputStates name c i = true then
      ⟨d.x * finalValue _sensitivity joystickInputStates name c i,
        d.y * finalValue _sensitivity joystickInputStates name c i⟩
    else ⟨0, 0⟩
  | none => ⟨0, 0⟩

/-- Whether some axis below `MaxAxes` of the record `c` touches the channel `ch`. -/
def deviceTouched (K : Declarations) (joystickInputStates : JoystickInputStates)
    (name : String) (c : JoystickCameraState) (ch : Channel) : Bool :=
  (List.range K.MaxAxes).any (fun i => axisTouches joystickInputStates name c i ch)

/-- The sum of what the axes below `MaxAxes` of the record `c` add to the channel `ch`. -/
def deviceAggregate (K : Declarations) (_sensitivity : ℚ)
    (joystickInputStates : JoystickInputStates) (name : String)
    (c : JoystickCameraState) (ch : Channel) : DVec2 :=
  ⟨((List.range K.MaxAxes).map
      (fun i => (axisAdds _sensitivity joystickInputStates name c i ch).x)).sum,
    ((List.range K.MaxAxes).map
      (fun i => (axisAdds _sensitivity joystickInputStates name c i ch).y)).sum⟩

/-- The contribution of one device with record `c` to the five channels, from its axes:
per channel whether an axis touches it and the sum of what its axes add. -/
def deviceContribution (K : Declarations) (_sensitivity : ℚ)
    (joystickInputStates : JoystickInputStates) (name : String)
    (c : JoystickCameraState) : Accumulators :=
  { globalRotation :=
      ⟨deviceTouched K joystickInputStates name c Channel.globalRotation,
        deviceAggregate K _sensitivity joystickInputStates name c Channel.globalRotation⟩
    zoom :=
      ⟨deviceTouched K joystickInputStates name c Channel.truckMovement,
        (deviceAggregate K _sensitivity joystickInputStates name c
          Channel.truckMovement).x⟩
    localRoll :=
      ⟨deviceTouched K joystickInputStates name c Channel.localRoll,
        deviceAggregate K _sensitivity joystickInputStates name c Channel.localRoll⟩
    globalRoll :=
      ⟨deviceTouched K joystickInputStates name c Channel.globalRoll,
        deviceAggregate K _sensitivity joystickInputStates name c Channel.globalRoll⟩
    localRotation :=
      ⟨deviceTouched K joystickInputStates name c Channel.localRotation,
        deviceAggregate K _sensitivity joystickInputStates name c
          Channel.localRotation⟩ }

/-- The contribution of one snapshot entry: nothing for an empty name or a device without
a record, the contribution of the device's axes otherwise. -/
def entryContribution (K : Declarations) (_sensitivity : ℚ)
    (joystickInputStates : JoystickInputStates)
    (states : List JoystickCameraState) (name : String) : Accumulators :=
  if name = "" then Accumulators.init
  else
    match record ⟨_sensitivity, states⟩ name with
    | none => Accumulators.init
    | some c => deviceContribution K _sensitivity joystickInputStates name c

/-- The contributions of the snapshot entries of a tick in order, each computed from the
axes of its device in the state of the records (the sticky caches) that the entries
before it have left. -/
def tickContributions (K : Declarations) (_sensitivity : ℚ)
    (joystickInputStates globalInputs : JoystickInputStates) :
    List JoystickCameraState → List String → List Accumulators
  | _, [] => []
  | states, n :: ns =>
    entryContribution K _sensitivity joystickInputStates states n ::
      tickContributions K _sensitivity joystickInputStates globalInputs
        (deviceBody K _sensitivity joystickInputStates globalInputs
          ⟨states, Accumulators.init, []⟩ n).states ns

/-- The devices a tick processes, in snapshot order: for every snapshot entry with a
non-empty name and a record, the name together with the record as it is when the entry
is reached (the entries before it may have changed sticky caches). -/
def tickRecords (K : Declarations) (_sensitivity : ℚ)
    (joystickInputStates globalInputs : JoystickInputStates) :
    List JoystickCameraState → List String → List (String × JoystickCameraState)
  | _, [] => []
  | states, n :: ns =>
    (if n = "" then []
      else
        match record ⟨_sensitivity, states⟩ n with
        | none => []
        | some c => [(n, c)]) ++
      tickRecords K _sensitivity joystickInputStates globalInputs
        (deviceBody K _sensitivity joystickInputStates globalInputs
          ⟨states, Accumulators.init, []⟩ n).states ns

/-! ## Examples used as concrete inputs -/

/-- An axis slot that is not mapped. -/
def exampleAxis : AxisInformation :=
  { type := AxisType.None, invert := false, normalize := false, isSticky := false,
    deadzone := 0, sensitivity := 0, propertyUri := "", minValue := 0, maxValue := 1,
    isRemote := true }

/-- A device record called `"A"` whose axis 0 carries the mapping `t`. -/
def exampleCam (t : AxisInformation) : JoystickCameraState :=
  { joystickName := "A"
    axisMapping := fun i => if i = 0 then t else exampleAxis
    prevAxisValues := fun _ => 0
    buttonMapping := [] }

/-- A snapshot with the one device `"A"`, every axis of which reads `r`. -/
def exampleInputs (r : ℚ) : JoystickInputStates :=
  { names := ["A"], axis := fun _ _ => r, button := fun _ _ _ => false }

/-- The loop state in which the axis loop of the device `"A"` starts in a tick. -/
def exampleLoop (t : AxisInformation) : DeviceLoop :=
  ⟨exampleCam t, Accumulators.init, []⟩

/-- An instance of the absent declarations: 8 axes, 32 buttons, 16 joysticks. -/
def exampleK : Declarations := ⟨8, 32, 16, exampleAxis, 0⟩

/-- Declarations with room for a single joystick. -/
def exampleK1 : Declarations := ⟨8, 32, 1, exampleAxis, 0⟩

/-- An `OrbitX` axis with per-axis sensitivity 2. -/
def exampleOrbitX : AxisInformation :=
  { exampleAxis with type := AxisType.OrbitX, sensitivity := 2 }

/-- A normalised `OrbitX` axis, inverted or not. -/
def exampleNormalized (invert : Bool) : AxisInformation :=
  { exampleAxis with type := AxisType.OrbitX, normalize := true, invert := invert }

/-- A sticky `OrbitX` axis. -/
def exampleSticky : AxisInformation :=
  { exampleAxis with type := AxisType.OrbitX, isSticky := true }

/-- A `Property` axis that drives `"Scene.X"` over the range 10 .. 20. -/
def exampleProperty : AxisInformation :=
  { exampleAxis with
    type := AxisType.Property, propertyUri := "Scene.X", minValue := 10, maxValue := 20 }

/-- The record of device `"A"` after `setDeadzone("A", 0, -1)` on the empty coordinator. -/
def exampleNegativeDeadzone : JoystickCameraState :=
  deadzoneWrite 0 (-1) (JoystickCameraState.fresh exampleK "A")

/-- The record of device `"A"` after a following
`setAxisMapping("A", 0, OrbitX, invert = no, normalize = yes, sticky = yes, 0)` while axis
0 reads 1/2. -/
def exampleReseeded : JoystickCameraState :=
  axisWrite 0 AxisType.OrbitX false true true 0 (1 / 2) exampleNegativeDeadzone

/-- The record of device `"A"` after
`setAxisMappingProperty("A", 0, "Scene.X", 10, 20, invert = no, sticky = yes, 0, remote)`
on the empty coordinator while axis 0 reads -1. -/
def exampleStickyProperty : JoystickCameraState :=
  propertyWrite 0 "Scene.X" 10 20 false true 0 true (-1)
    (JoystickCameraState.fresh exampleK "A")

/-- A second device record, called `"B"`, whose axis 0 carries the mapping `t`. -/
def exampleCamB (t : AxisInformation) : JoystickCameraState :=
  { exampleCam t with joystickName := "B" }

/-- A snapshot with the two devices `"A"` and `"B"`; every axis of `"A"` reads `a`, every
axis of `"B"` reads `b`. -/
def exampleInputsAB (a b : ℚ) : JoystickInputStates :=
  { names := ["A", "B"]
    axis := fun n _ => if n = "A" then a else b
    button := fun _ _ _ => false }

/-! ## Lemmas on the axis pipeline -/

theorem applySensitivity_eq (t : AxisInformation) (s v : ℚ) :
    applySensitivity t s v = v * sensitivityFactor t s := by
  unfold applySensitivity sensitivityFactor
  split <;> ring

theorem axisBody_none (s : ℚ) (inp : JoystickInputStates) (name : String)
    (L : DeviceLoop) (i : Nat) (h : (L.cam.axisMapping i).type = AxisType.None) :
    axisBody s inp name L i = L := by
  simp [axisBody, h]

theorem axisBody_skip (s : ℚ) (inp : JoystickInputStates) (name : String)
    (L : DeviceLoop) (i : Nat) (h : (L.cam.axisMapping i).type ≠ AxisType.None)
    (hd : |stickyValue (L.cam.axisMapping i) (inp.axis name i) (L.cam.prevAxisValues i)|
      ≤ (L.cam.axisMapping i).deadzone) :
    axisBody s inp name L i =
      { L with cam := stickyStore (L.cam.axisMapping i) i (inp.axis name i) L.cam } := by
  simp [axisBody, h, hd]

theorem axisBody_pass (s : ℚ) (inp : JoystickInputStates) (name : String)
    (L : DeviceLoop) (i : Nat) (h : (L.cam.axisMapping i).type ≠ AxisType.None)
    (hd : ¬ |stickyValue (L.cam.axisMapping i) (inp.axis name i) (L.cam.prevAxisValues i)|
      ≤ (L.cam.axisMapping i).deadzone) :
    axisBody s inp name L i =
      { cam := stickyStore (L.cam.axisMapping i) i (inp.axis name i) L.cam
        acc := switchAcc (L.cam.axisMapping i).type
          (applySensitivity (L.cam.axisMapping i) s
            (preSensitivity (L.cam.axisMapping i)
              (stickyValue (L.cam.axisMapping i) (inp.axis name i)
                (L.cam.prevAxisValues i)))) L.acc
        queue := switchQueue (L.cam.axisMapping i)
          (applySensitivity (L.cam.axisMapping i) s
            (preSensitivity (L.cam.axisMapping i)
              (stickyValue (L.cam.axisMapping i) (inp.axis name i)
                (L.cam.prevAxisValues i)))) L.queue } := by
  simp [axisBody, h, hd]

theorem switchAcc_component (ty : AxisType) (v : ℚ) (a : Accumulators) (c : Channel)
    (h : channelOf ty = some c) :
    (switchAcc ty v a).component ty =
      if ty = AxisType.ZoomOut then a.component ty - v else a.component ty + v := by
  cases ty <;> simp [channelOf] at h <;> simp [switchAcc, Accumulators.component]

theorem switchAcc_touched (ty : AxisType) (v : ℚ) (a : Accumulators) (c : Channel)
    (h : channelOf ty = some c) : (switchAcc ty v a).touched c = true := by
  cases ty <;> simp [channelOf] at h <;> subst h <;> simp [switchAcc, Accumulators.touched]

theorem switchQueue_channel (t : AxisInformation) (v : ℚ) (q : List QueuedScript)
    (h : t.type ≠ AxisType.Property) : switchQueue t v q = q := by
  unfold switchQueue
  split
  · contradiction
  · rfl

theorem stickyStore_axisMapping (t : AxisInformation) (i : Nat) (r : ℚ)
    (c : JoystickCameraState) : (stickyStore t i r c).axisMapping = c.axisMapping := by
  unfold stickyStore; split <;> rfl

theorem stickyStore_joystickName (t : AxisInformation) (i : Nat) (r : ℚ)
    (c : JoystickCameraState) : (stickyStore t i r c).joystickName = c.joystickName := by
  unfold stickyStore; split <;> rfl

theorem stickyStore_buttonMapping (t : AxisInformation) (i : Nat) (r : ℚ)
    (c : JoystickCameraState) : (stickyStore t i r c).buttonMapping = c.buttonMapping := by
  unfold stickyStore; split <;> rfl

theorem stickyStore_prev_ne (t : AxisInformation) (i j : Nat) (r : ℚ)
    (c : JoystickCameraState) (h : j ≠ i) :
    (stickyStore t i r c).prevAxisValues j = c.prevAxisValues j := by
  unfold stickyStore; split
  · simp [Function.update, h]
  · rfl

theorem stickyStore_prev_self (t : AxisInformation) (i : Nat) (r : ℚ)
    (c : JoystickCameraState) (h : t.isSticky = true) :
    (stickyStore t i r c).prevAxisValues i = r := by
  simp [stickyStore, h]

theorem axisBody_cam (s : ℚ) (inp : JoystickInputStates) (name : String)
    (L : DeviceLoop) (i : Nat) :
    (axisBody s inp name L i).cam = L.cam ∨
      (axisBody s inp name L i).cam =
        stickyStore (L.cam.axisMapping i) i (inp.axis name i) L.cam := by
  unfold axisBody
  dsimp only
  split
  · exact Or.inl rfl
  · split <;> exact Or.inr rfl

theorem axisBody_axisMapping (s : ℚ) (inp : JoystickInputStates) (name : String)
    (L : DeviceLoop) (i : Nat) :
    (axisBody s inp name L i).cam.axisMapping = L.cam.axisMapping := by
  rcases axisBody_cam s inp name L i with h | h <;> rw [h]
  exact stickyStore_axisMapping _ _ _ _

theorem axisBody_joystickName (s : ℚ) (inp : JoystickInputStates) (name : String)
    (L : DeviceLoop) (i : Nat) :
    (axisBody s inp name L i).cam.joystickName = L.cam.joystickName := by
  rcases axisBody_cam s inp name L i with h | h <;> rw [h]
  exact stickyStore_joystickName _ _ _ _

theorem axisBody_buttonMapping (s : ℚ) (inp : JoystickInputStates) (name : String)
    (L : DeviceLoop) (i : Nat) :
    (axisBody s inp name L i).cam.buttonMapping = L.cam.buttonMapping := by
  rcases axisBody_cam s inp name L i with h | h <;> rw [h]
  exact stickyStore_buttonMapping _ _ _ _

theorem axisBody_prev_ne (s : ℚ) (inp : JoystickInputStates) (name : String)
    (L : DeviceLoop) (i j : Nat) (h : j ≠ i) :
    (axisBody s inp name L i).cam.prevAxisValues j = L.cam.prevAxisValues j := by
  rcases axisBody_cam s inp name L i with h1 | h1 <;> rw [h1]
  exact stickyStore_prev_ne _ _ _ _ _ h

/-- The axis loop over any list of indices keeps name, mappings and bindings. -/
theorem axisFold_frame (s : ℚ) (inp : JoystickInputStates) (name : String)
    (is : List Nat) (L : DeviceLoop) :
    ((is.foldl (axisBody s inp name) L).cam.joystickName = L.cam.joystickName ∧
      (is.foldl (axisBody s inp name) L).cam.axisMapping = L.cam.axisMapping) ∧
      (is.foldl (axisBody s inp name) L).cam.buttonMapping = L.cam.buttonMapping := by
  induction is generalizing L with
  | nil => simp
  | cons i is ih =>
    simp only [List.foldl_cons]
    rw [(ih _).1.1, (ih _).1.2, (ih _).2, axisBody_joystickName, axisBody_axisMapping,
      axisBody_buttonMapping]
    simp

theorem buttonFold_frame (g : JoystickInputStates) (name : String)
    (is : List Nat) (L : DeviceLoop) :
    (is.foldl (buttonBody g name) L).cam = L.cam ∧
      (is.foldl (buttonBody g name) L).acc = L.acc := by
  induction is generalizing L with
  | nil => simp
  | cons i is ih =>
    simp only [List.foldl_cons]
    rw [(ih _).1, (ih _).2]
    simp [buttonBody]

theorem buttonLoop_cam (K : Declarations) (g : JoystickInputStates) (name : String)
    (L : DeviceLoop) : (buttonLoop K g name L).cam = L.cam :=
  (buttonFold_frame g name _ L).1

theorem buttonLoop_acc (K : Declarations) (g : JoystickInputStates) (name : String)
    (L : DeviceLoop) : (buttonLoop K g name L).acc = L.acc :=
  (buttonFold_frame g name _ L).2

/-- A fold of the axis body over indices that are all unmapped does nothing. -/
theorem axisFold_unmapped (s : ℚ) (inp : JoystickInputStates) (name : String)
    (is : List Nat) (L : DeviceLoop)
    (h : ∀ i ∈ is, (L.cam.axisMapping i).type = AxisType.None) :
    is.foldl (axisBody s inp name) L = L := by
  induction is with
  | nil => rfl
  | cons i is ih =>
    simp only [List.foldl_cons]
    rw [axisBody_none s inp name L i (h i (by simp))]
    exact ih (fun j hj => h j (by simp [hj]))

theorem buttonFold_empty (g : JoystickInputStates) (name : String) (is : List Nat)
    (L : DeviceLoop) (h : L.cam.buttonMapping = []) :
    is.foldl (buttonBody g name) L = L := by
  induction is with
  | nil => rfl
  | cons i is ih =>
    rw [List.foldl_cons]
    have : buttonBody g name L i = L := by simp [buttonBody, equalRange, h]
    rw [this, ih]

/-- The device loop on the one-device example reduces to the body of axis 0. -/
theorem example_deviceLoop (s r : ℚ) (t : AxisInformation) (g : JoystickInputStates) :
    deviceLoop exampleK ⟨s, [exampleCam t]⟩ (exampleInputs r) g =
      ⟨[(axisBody s (exampleInputs r) "A" (exampleLoop t) 0).cam],
        (axisBody s (exampleInputs r) "A" (exampleLoop t) 0).acc,
        (axisBody s (exampleInputs r) "A" (exampleLoop t) 0).queue⟩ := by
  have h8 : List.range 8 = 0 :: [1, 2, 3, 4, 5, 6, 7] := by decide
  have hrest : [1, 2, 3, 4, 5, 6, 7].foldl (axisBody s (exampleInputs r) "A")
      (axisBody s (exampleInputs r) "A" (exampleLoop t) 0) =
      axisBody s (exampleInputs r) "A" (exampleLoop t) 0 := by
    apply axisFold_unmapped
    intro i hi
    rw [axisBody_axisMapping]
    have : i ≠ 0 := by rintro rfl; simp at hi
    simp [exampleLoop, exampleCam, this, exampleAxis]
  have hA : axisLoop exampleK s (exampleInputs r) "A" (exampleLoop t) =
      axisBody s (exampleInputs r) "A" (exampleLoop t) 0 := by
    unfold axisLoop
    show (List.range 8).foldl _ _ = _
    rw [h8, List.foldl_cons, hrest]
  have hB : buttonLoop exampleK g "A" (axisBody s (exampleInputs r) "A" (exampleLoop t) 0) =
      axisBody s (exampleInputs r) "A" (exampleLoop t) 0 := by
    apply buttonFold_empty
    rw [axisBody_buttonMapping]
    rfl
  have hD : deviceBody exampleK s (exampleInputs r) g ⟨[exampleCam t], Accumulators.init, []⟩
      "A" = ⟨[(axisBody s (exampleInputs r) "A" (exampleLoop t) 0).cam],
        (axisBody s (exampleInputs r) "A" (exampleLoop t) 0).acc,
        (axisBody s (exampleInputs r) "A" (exampleLoop t) 0).queue⟩ := by
    have hfind : getJoystickCameraState ⟨s, [exampleCam t]⟩ "A" = some 0 := by
      simp [getJoystickCameraState, getJoystickCameraStateFrom, exampleCam]
    unfold deviceBody
    rw [if_neg (by decide)]
    simp only [hfind, List.getElem?_cons_zero]
    have hA1 : axisLoop exampleK s (exampleInputs r) "A"
        ⟨exampleCam t, Accumulators.init, []⟩ =
        axisBody s (exampleInputs r) "A" (exampleLoop t) 0 := hA
    rw [hA1, hB]
    simp
  unfold deviceLoop
  show List.foldl _ _ ["A"] = _
  rw [List.foldl_cons, List.foldl_nil]
  exact hD

/-- A tick on the one-device example reduces to the body of axis 0. -/
theorem example_tick (s r dt : ℚ) (t : AxisInformation) (g : JoystickInputStates) :
    (updateStateFromInput exampleK ⟨s, [exampleCam t]⟩ (exampleInputs r) g dt).velocityOps =
      velocityOps (axisBody s (exampleInputs r) "A" (exampleLoop t) 0).acc dt := by
  unfold updateStateFromInput
  rw [example_deviceLoop]

theorem example_tick_states (s r dt : ℚ) (t : AxisInformation) (g : JoystickInputStates) :
    (updateStateFromInput exampleK ⟨s, [exampleCam t]⟩ (exampleInputs r) g dt).states =
      ⟨s, [(axisBody s (exampleInputs r) "A" (exampleLoop t) 0).cam]⟩ := by
  unfold updateStateFromInput
  rw [example_deviceLoop]

/-! ## Lemmas on the device records -/

theorem getFrom_none_iff (name : String) (l : List JoystickCameraState) (k : Nat) :
    getJoystickCameraStateFrom name l k = none ↔ ∀ c ∈ l, c.joystickName ≠ name := by
  induction l generalizing k with
  | nil => simp [getJoystickCameraStateFrom]
  | cons c cs ih =>
    unfold getJoystickCameraStateFrom
    by_cases h : c.joystickName = name
    · simp [h]
    · simp [h, ih]

theorem getFrom_some (name : String) (l : List JoystickCameraState) (k m : Nat)
    (h : getJoystickCameraStateFrom name l k = some m) :
    ∃ j c, m = k + j ∧ l[j]? = some c ∧ c.joystickName = name := by
  induction l generalizing k with
  | nil => simp [getJoystickCameraStateFrom] at h
  | cons c cs ih =>
    unfold getJoystickCameraStateFrom at h
    by_cases hc : c.joystickName = name
    · simp [hc] at h
      exact ⟨0, c, by omega, by simp, hc⟩
    · simp [hc] at h
      obtain ⟨j, c1, hm, hj, hn⟩ := ih (k + 1) h
      exact ⟨j + 1, c1, by omega, by simpa using hj, hn⟩

theorem getFrom_congr (name : String) (l l1 : List JoystickCameraState) (k : Nat)
    (h : names l = names l1) :
    getJoystickCameraStateFrom name l k = getJoystickCameraStateFrom name l1 k := by
  induction l generalizing l1 k with
  | nil =>
    cases l1 with
    | nil => rfl
    | cons c cs => simp [names] at h
  | cons c cs ih =>
    cases l1 with
    | nil => simp [names] at h
    | cons c1 cs1 =>
      simp only [names, List.map_cons, List.cons.injEq] at h
      unfold getJoystickCameraStateFrom
      rw [h.1, ih cs1 (k + 1) h.2]

theorem names_set (l : List JoystickCameraState) (k : Nat) (c c1 : JoystickCameraState)
    (h : l[k]? = some c) (hn : c1.joystickName = c.joystickName) :
    names (l.set k c1) = names l := by
  induction l generalizing k with
  | nil => simp at h
  | cons d ds ih =>
    cases k with
    | zero =>
      simp at h
      simp [names, hn, h]
    | succ k =>
      simp at h
      have := ih k h
      simp only [names] at this
      simp [names, this]

theorem writeAt_names (S : JoystickCameraStates) (k : Nat)
    (f : JoystickCameraState → JoystickCameraState)
    (hf : ∀ c, (f c).joystickName = c.joystickName) :
    names (writeAt S k f)._joystickCameraStates = names S._joystickCameraStates := by
  unfold writeAt
  split
  · rfl
  · rename_i c hc
    exact names_set _ _ c _ hc (hf c)

/-- The invariant of the vector of device records: pairwise distinct names and at most
`MaxNumJoysticks` records.  It only depends on the names. -/
theorem findOrAdd_invariant (K : Declarations) (S : JoystickCameraStates) (name : String)
    (h : (names S._joystickCameraStates).Nodup ∧
      (names S._joystickCameraStates).length ≤ K.MaxNumJoysticks) :
    (names (findOrAddJoystickCameraState K S name).1._joystickCameraStates).Nodup ∧
      (names (findOrAddJoystickCameraState K S name).1._joystickCameraStates).length
        ≤ K.MaxNumJoysticks := by
  unfold findOrAddJoystickCameraState
  split
  · exact h
  · rename_i hnone
    split
    · rename_i hlt
      have hnot : name ∉ names S._joystickCameraStates := by
        intro hmem
        obtain ⟨c, hc, hcn⟩ := List.mem_map.mp hmem
        exact (getFrom_none_iff name _ 0).mp hnone c hc hcn
      constructor
      · simp only [names, List.map_append, List.map_cons, List.map_nil,
          JoystickCameraState.fresh]
        rw [List.nodup_append]
        refine ⟨h.1, by simp, ?_⟩
        intro a ha hb
        simp at hb
        subst hb
        exact hnot ha
      · simp [names] at hlt ⊢
        omega
    · exact h

theorem findOrAdd_full (K : Declarations) (S : JoystickCameraStates) (name : String)
    (hfull : K.MaxNumJoysticks ≤ S._joystickCameraStates.length)
    (hnew : ∀ c ∈ S._joystickCameraStates, c.joystickName ≠ name) :
    findOrAddJoystickCameraState K S name = (S, none) := by
  unfold findOrAddJoystickCameraState getJoystickCameraState
  rw [(getFrom_none_iff name _ 0).mpr hnew]
  simp [Nat.not_lt.mpr hfull]

theorem setAxisMapping_names (K : Declarations) (g : JoystickInputStates)
    (S S1 : JoystickCameraStates) (name : String) (axis : Int) (mapping : AxisType)
    (inv nrm sticky : Bool) (sens : ℚ)
    (h : setAxisMapping K g S name axis mapping inv nrm sticky sens = Except.ok S1) :
    names S1._joystickCameraStates =
      names (findOrAddJoystickCameraState K S name).1._joystickCameraStates := by
  unfold setAxisMapping at h
  split at h
  · simp at h
  · split at h
    · rename_i S2 hfa
      simp at h
      rw [hfa, ← h]
    · rename_i S2 k hfa
      split at h
      · simp at h
      · simp at h
        rw [hfa, ← h]
        exact writeAt_names _ _ _ (fun c => rfl)

theorem setAxisMappingProperty_names (K : Declarations) (g : JoystickInputStates)
    (S S1 : JoystickCameraStates) (name : String) (axis : Int) (uri : String)
    (min max : ℚ) (inv sticky : Bool) (sens : ℚ) (isRemote : Bool)
    (h : setAxisMappingProperty K g S name axis uri min max inv sticky sens isRemote
      = Except.ok S1) :
    names S1._joystickCameraStates =
      names (findOrAddJoystickCameraState K S name).1._joystickCameraStates := by
  unfold setAxisMappingProperty at h
  split at h
  · simp at h
  · split at h
    · rename_i S2 hfa
      simp at h
      rw [hfa, ← h]
    · rename_i S2 k hfa
      split at h
      · simp at h
      · simp at h
        rw [hfa, ← h]
        exact writeAt_names _ _ _ (fun c => rfl)

theorem setDeadzone_names (K : Declarations) (S S1 : JoystickCameraStates)
    (name : String) (axis : Int) (dz : ℚ)
    (h : setDeadzone K S name axis dz = Except.ok S1) :
    names S1._joystickCameraStates =
      names (findOrAddJoystickCameraState K S name).1._joystickCameraStates := by
  unfold setDeadzone at h
  split at h
  · rename_i S2 hfa
    simp at h
    rw [hfa, ← h]
  · rename_i S2 k hfa
    split at h
    · simp at h
    · simp at h
      rw [hfa, ← h]
      exact writeAt_names _ _ _ (fun c => rfl)

theorem bindButtonCommand_names (K : Declarations) (S : JoystickCameraStates)
    (name : String) (button : Int) (command : String) (action : JoystickAction)
    (remote : Bool) (doc : String) :
    names (bindButtonCommand K S name button command action remote doc)._joystickCameraStates
      = names (findOrAddJoystickCameraState K S name).1._joystickCameraStates := by
  unfold bindButtonCommand
  split
  · rename_i S2 hfa
    rw [hfa]
  · rename_i S2 k hfa
    rw [hfa]
    exact writeAt_names _ _ _ (fun c => rfl)

theorem clearButtonCommand_names (S : JoystickCameraStates) (name : String)
    (button : Int) :
    names (clearButtonCommand S name button)._joystickCameraStates
      = names S._joystickCameraStates := by
  unfold clearButtonCommand
  split
  · rfl
  · exact writeAt_names _ _ _ (fun c => rfl)

theorem deviceBody_names (K : Declarations) (s : ℚ) (inp g : JoystickInputStates)
    (T : TickLoop) (n : String) :
    names (deviceBody K s inp g T n).states = names T.states := by
  unfold deviceBody
  split
  · rfl
  · split
    · rfl
    · split
      · rfl
      · rename_i c hc
        apply names_set _ _ c _ hc
        rw [buttonLoop_cam]
        exact (axisFold_frame s inp n _ _).1.1

theorem deviceFold_names (K : Declarations) (s : ℚ) (inp g : JoystickInputStates)
    (ns : List String) (T : TickLoop) :
    names (ns.foldl (deviceBody K s inp g) T).states = names T.states := by
  induction ns generalizing T with
  | nil => rfl
  | cons n ns ih => rw [List.foldl_cons, ih, deviceBody_names]

theorem updateStateFromInput_names (K : Declarations) (S : JoystickCameraStates)
    (inp g : JoystickInputStates) (dt : ℚ) :
    names (updateStateFromInput K S inp g dt).states._joystickCameraStates
      = names S._joystickCameraStates :=
  deviceFold_names K S._sensitivity inp g inp.names _

/-! ## Lemmas on the sticky cache -/

theorem axisBody_prev_self (s : ℚ) (inp : JoystickInputStates) (name : String)
    (L : DeviceLoop) (i : Nat) (hs : (L.cam.axisMapping i).isSticky = true)
    (hn : (L.cam.axisMapping i).type ≠ AxisType.None) :
    (axisBody s inp name L i).cam.prevAxisValues i = inp.axis name i := by
  by_cases hd : |stickyValue (L.cam.axisMapping i) (inp.axis name i) (L.cam.prevAxisValues i)|
      ≤ (L.cam.axisMapping i).deadzone
  · rw [axisBody_skip s inp name L i hn hd]
    exact stickyStore_prev_self _ _ _ _ hs
  · rw [axisBody_pass s inp name L i hn hd]
    exact stickyStore_prev_self _ _ _ _ hs

/-- After the axis body has run over a list of indices, a sticky mapped axis that is in
the list, or whose cache already held the raw value, holds the raw value. -/
theorem axisFold_prev (s : ℚ) (inp : JoystickInputStates) (name : String)
    (is : List Nat) (L : DeviceLoop) (j : Nat)
    (hs : (L.cam.axisMapping j).isSticky = true)
    (hn : (L.cam.axisMapping j).type ≠ AxisType.None)
    (h : j ∈ is ∨ L.cam.prevAxisValues j = inp.axis name j) :
    (is.foldl (axisBody s inp name) L).cam.prevAxisValues j = inp.axis name j := by
  induction is generalizing L with
  | nil => simpa using h
  | cons i is ih =>
    rw [List.foldl_cons]
    apply ih
    · rw [axisBody_axisMapping]; exact hs
    · rw [axisBody_axisMapping]; exact hn
    · by_cases hij : j = i
      · subst hij
        exact Or.inr (axisBody_prev_self s inp name L j hs hn)
      · rcases h with h | h
        · simp [hij] at h
          exact Or.inl h
        · right
          rw [axisBody_prev_ne s inp name L i j hij]
          exact h

theorem getElem?_set_ne_index (l : List JoystickCameraState) (k m : Nat)
    (c : JoystickCameraState) (h : k ≠ m) : (l.set k c)[m]? = l[m]? := by
  simp [List.getElem?_set, h]

theorem deviceBody_sticky (K : Declarations) (s : ℚ) (inp g : JoystickInputStates)
    (name : String) (T : TickLoop) (n : String)
    (h : (n = name ∧ name ≠ "") ∨
      ∀ k c, getJoystickCameraStateFrom name T.states 0 = some k → T.states[k]? = some c →
        ∀ i, i < K.MaxAxes → (c.axisMapping i).isSticky = true →
          (c.axisMapping i).type ≠ AxisType.None → c.prevAxisValues i = inp.axis name i) :
    ∀ k c, getJoystickCameraStateFrom name (deviceBody K s inp g T n).states 0 = some k →
      (deviceBody K s inp g T n).states[k]? = some c →
      ∀ i, i < K.MaxAxes → (c.axisMapping i).isSticky = true →
        (c.axisMapping i).type ≠ AxisType.None → c.prevAxisValues i = inp.axis name i := by
  intro k c hk hc i hi hs hn
  rw [getFrom_congr name _ _ 0 (deviceBody_names K s inp g T n)] at hk
  unfold deviceBody at hc
  split at hc
  · rename_i hempty
    rcases h with h | h
    · exact absurd (h.1 ▸ hempty) h.2
    · exact h k c hk hc i hi hs hn
  · split at hc
    · rename_i hnone
      rcases h with h | h
      · rw [getJoystickCameraState, h.1, hk] at hnone
        simp at hnone
      · exact h k c hk hc i hi hs hn
    · rename_i k1 hk1
      rw [getJoystickCameraState] at hk1
      split at hc
      · rcases h with h | h
        · rename_i hnone
          rw [h.1, hk] at hk1
          obtain ⟨j, c2, hj, hget, _⟩ := getFrom_some name _ 0 k hk
          simp at hk1 hj
          subst hk1 hj
          rw [hget] at hnone
          simp at hnone
        · exact h k c hk hc i hi hs hn
      · rename_i c1 hc1
        simp only at hc
        by_cases hkk : k1 = k
        · subst hkk
          have hlt : k1 < T.states.length := by
            rcases Nat.lt_or_ge k1 T.states.length with h1 | h1
            · exact h1
            · rw [List.getElem?_eq_none h1] at hc1
              simp at hc1
          rw [List.getElem?_set_self hlt] at hc
          simp at hc
          subst hc
          obtain ⟨j, c2, hj, hget, hname⟩ := getFrom_some name _ 0 k1 hk
          simp at hj
          subst hj
          rw [hc1] at hget
          simp at hget
          subst hget
          obtain ⟨j1, c3, hj1, hget1, hname1⟩ := getFrom_some n _ 0 k1 hk1
          simp at hj1
          subst hj1
          rw [hc1] at hget1
          simp at hget1
          subst hget1
          have hnn : n = name := by rw [← hname1, hname]
          subst hnn
          rw [buttonLoop_cam] at hs hn ⊢
          rw [axisLoop, (axisFold_frame s inp n _ _).1.2] at hs hn
          exact axisFold_prev s inp n _ _ i hs hn (Or.inl (List.mem_range.mpr hi))
        · rw [getElem?_set_ne_index _ _ _ _ hkk] at hc
          rcases h with h | h
          · rw [h.1, hk] at hk1
            simp at hk1
            exact absurd hk1.symm hkk
          · exact h k c hk hc i hi hs hn

theorem deviceFold_sticky (K : Declarations) (s : ℚ) (inp g : JoystickInputStates)
    (name : String) (hne : name ≠ "") (ns : List String) (T : TickLoop)
    (h : name ∈ ns ∨
      ∀ k c, getJoystickCameraStateFrom name T.states 0 = some k → T.states[k]? = some c →
        ∀ i, i < K.MaxAxes → (c.axisMapping i).isSticky = true →
          (c.axisMapping i).type ≠ AxisType.None → c.prevAxisValues i = inp.axis name i) :
    ∀ k c, getJoystickCameraStateFrom name (ns.foldl (deviceBody K s inp g) T).states 0
        = some k →
      (ns.foldl (deviceBody K s inp g) T).states[k]? = some c →
      ∀ i, i < K.MaxAxes → (c.axisMapping i).isSticky = true →
        (c.axisMapping i).type ≠ AxisType.None → c.prevAxisValues i = inp.axis name i := by
  induction ns generalizing T with
  | nil =>
    rcases h with h | h
    · simp at h
    · simpa using h
  | cons n ns ih =>
    rw [List.foldl_cons]
    apply ih
    by_cases hnn : n = name
    · exact Or.inr (deviceBody_sticky K s inp g name T n (Or.inl ⟨hnn, hne⟩))
    · rcases h with h | h
      · left
        simp at h
        rcases h with h | h
        · exact absurd h.symm hnn
        · exact h
      · exact Or.inr (deviceBody_sticky K s inp g name T n (Or.inr h))

/-! ## Lemmas on the aggregation over devices -/

theorem Accumulators.add_init (a : Accumulators) : a.add Accumulators.init = a := by
  simp [Accumulators.add, Accumulators.init]

theorem switchAcc_add (ty : AxisType) (v : ℚ) (a b : Accumulators) :
    switchAcc ty v (a.add b) = a.add (switchAcc ty v b) := by
  cases ty <;> simp [switchAcc, Accumulators.add, add_assoc, add_sub_assoc]

/-- The axis body on accumulators `a + b` does what it does on `b`, shifted by `a`; the
record it leaves does not depend on accumulators or queue. -/
theorem axisBody_add (s : ℚ) (inp : JoystickInputStates) (name : String)
    (a : Accumulators) (L L1 : DeviceLoop) (i : Nat)
    (hcam : L.cam = L1.cam) (hacc : L.acc = a.add L1.acc) :
    (axisBody s inp name L i).cam = (axisBody s inp name L1 i).cam ∧
      (axisBody s inp name L i).acc = a.add (axisBody s inp name L1 i).acc := by
  unfold axisBody
  simp only [hcam, hacc]
  split
  · exact ⟨hcam, hacc⟩
  · split
    · exact ⟨rfl, rfl⟩
    · exact ⟨rfl, switchAcc_add _ _ _ _⟩

theorem axisFold_add (s : ℚ) (inp : JoystickInputStates) (name : String)
    (a : Accumulators) (is : List Nat) (L L1 : DeviceLoop)
    (hcam : L.cam = L1.cam) (hacc : L.acc = a.add L1.acc) :
    (is.foldl (axisBody s inp name) L).cam = (is.foldl (axisBody s inp name) L1).cam ∧
      (is.foldl (axisBody s inp name) L).acc =
        a.add (is.foldl (axisBody s inp name) L1).acc := by
  induction is generalizing L L1 with
  | nil => exact ⟨hcam, hacc⟩
  | cons i is ih =>
    rw [List.foldl_cons, List.foldl_cons]
    exact ih _ _ (axisBody_add s inp name a L L1 i hcam hacc).1
      (axisBody_add s inp name a L L1 i hcam hacc).2

theorem deviceBody_add (K : Declarations) (s : ℚ) (inp g : JoystickInputStates)
    (T : TickLoop) (n : String) :
    (deviceBody K s inp g T n).states =
        (deviceBody K s inp g ⟨T.states, Accumulators.init, []⟩ n).states ∧
      (deviceBody K s inp g T n).acc =
        T.acc.add (deviceBody K s inp g ⟨T.states, Accumulators.init, []⟩ n).acc := by
  unfold deviceBody
  split
  · exact ⟨rfl, (Accumulators.add_init _).symm⟩
  · dsimp only
    split
    · exact ⟨rfl, (Accumulators.add_init _).symm⟩
    · split
      · exact ⟨rfl, (Accumulators.add_init _).symm⟩
      · rename_i c hc
        have h := axisFold_add s inp n T.acc (List.range K.MaxAxes)
          ⟨c, T.acc, T.queue⟩ ⟨c, Accumulators.init, []⟩ rfl (Accumulators.add_init _).symm
        simp only [buttonLoop_cam, buttonLoop_acc, axisLoop]
        exact ⟨by rw [h.1], h.2⟩

theorem deviceFold_add (K : Declarations) (s : ℚ) (inp g : JoystickInputStates)
    (ns : List String) (T : TickLoop) :
    (ns.foldl (deviceBody K s inp g) T).acc =
      (contributions K s inp g T.states ns).foldl Accumulators.add T.acc := by
  induction ns generalizing T with
  | nil => rfl
  | cons n ns ih =>
    rw [List.foldl_cons, ih, contributions, List.foldl_cons, (deviceBody_add K s inp g T n).1,
      (deviceBody_add K s inp g T n).2]

theorem foldl_add_touched (cs : List Accumulators) (a : Accumulators) (c : Channel) :
    (cs.foldl Accumulators.add a).touched c =
      (a.touched c || cs.any (fun b => b.touched c)) := by
  induction cs generalizing a with
  | nil => simp
  | cons b cs ih =>
    rw [List.foldl_cons, ih, List.any_cons, ← Bool.or_assoc]
    congr 1
    cases c <;> rfl

theorem foldl_add_aggregate (cs : List Accumulators) (a : Accumulators) (c : Channel) :
    (cs.foldl Accumulators.add a).aggregate c =
      ⟨(a.aggregate c).x + (cs.map (fun b => (b.aggregate c).x)).sum,
        (a.aggregate c).y + (cs.map (fun b => (b.aggregate c).y)).sum⟩ := by
  induction cs generalizing a with
  | nil => simp
  | cons b cs ih =>
    rw [List.foldl_cons, ih, List.map_cons, List.map_cons, List.sum_cons, List.sum_cons]
    cases c <;> simp [Accumulators.add, Accumulators.aggregate, add_assoc]

theorem velocityOps_eq (a : Accumulators) (dt : ℚ) :
    velocityOps a dt =
      Channel.all.map (fun c =>
        (c, if a.touched c then VelocityOp.set (a.aggregate c) dt
            else VelocityOp.decelerate dt)) := by
  simp [velocityOps, velocityOp, Channel.all, Accumulators.touched, Accumulators.aggregate]

/-! ## Lemmas on lookup and write through the pointer -/

theorem getFrom_zero (name : String) (l : List JoystickCameraState) (k : Nat)
    (h : getJoystickCameraStateFrom name l 0 = some k) :
    ∃ c, l[k]? = some c ∧ c.joystickName = name := by
  obtain ⟨j, c, hj, hget, hn⟩ := getFrom_some name l 0 k h
  simp at hj
  subst hj
  exact ⟨c, hget, hn⟩

theorem getFrom_append (name : String) (l : List JoystickCameraState)
    (c : JoystickCameraState) (k : Nat)
    (h : getJoystickCameraStateFrom name l k = none) (hc : c.joystickName = name) :
    getJoystickCameraStateFrom name (l ++ [c]) k = some (k + l.length) := by
  induction l generalizing k with
  | nil => simp [getJoystickCameraStateFrom, hc]
  | cons d ds ih =>
    unfold getJoystickCameraStateFrom at h
    by_cases hd : d.joystickName = name
    · simp [hd] at h
    · simp only [hd, if_false] at h
      have e : (d :: ds) ++ [c] = d :: (ds ++ [c]) := rfl
      rw [e, getJoystickCameraStateFrom, if_neg hd, ih (k + 1) h]
      simp
      omega

theorem record_none_iff (S : JoystickCameraStates) (name : String) :
    record S name = none ↔ ∀ c ∈ S._joystickCameraStates, c.joystickName ≠ name := by
  unfold record getJoystickCameraState
  constructor
  · intro h
    split at h
    · rename_i hnone
      exact (getFrom_none_iff name _ 0).mp hnone
    · rename_i k hk
      obtain ⟨c, hc, _⟩ := getFrom_zero name _ k hk
      rw [hc] at h
      simp at h
  · intro h
    rw [(getFrom_none_iff name _ 0).mpr h]

theorem record_some (S : JoystickCameraStates) (name : String) (c : JoystickCameraState)
    (h : record S name = some c) :
    c.joystickName = name ∧
      ∃ k, getJoystickCameraState S name = some k ∧ S._joystickCameraStates[k]? = some c := by
  unfold record at h
  split at h
  · simp at h
  · rename_i k hk
    obtain ⟨c1, hc1, hn⟩ := getFrom_zero name _ k hk
    rw [hc1] at h
    simp at h
    subst h
    exact ⟨hn, k, hk, hc1⟩

theorem record_of_pointer (S : JoystickCameraStates) (name : String) (k : Nat)
    (h : getJoystickCameraState S name = some k) :
    ∃ c, S._joystickCameraStates[k]? = some c ∧ record S name = some c := by
  obtain ⟨c, hc, _⟩ := getFrom_zero name _ k h
  exact ⟨c, hc, by simp [record, h, hc]⟩

/-- A write through the pointer of the device `name` that keeps the name replaces the
record of that device and keeps the pointer. -/
theorem writeAt_pointer (S : JoystickCameraStates) (k : Nat)
    (f : JoystickCameraState → JoystickCameraState)
    (hf : ∀ c, (f c).joystickName = c.joystickName) (name2 : String) :
    getJoystickCameraState (writeAt S k f) name2 = getJoystickCameraState S name2 := by
  unfold getJoystickCameraState
  exact getFrom_congr name2 _ _ 0 (writeAt_names S k f hf)

theorem writeAt_record (S : JoystickCameraStates) (name : String) (k : Nat)
    (f : JoystickCameraState → JoystickCameraState)
    (hf : ∀ c, (f c).joystickName = c.joystickName)
    (hk : getJoystickCameraState S name = some k) :
    record (writeAt S k f) name = (record S name).map f := by
  obtain ⟨c, hc, hr⟩ := record_of_pointer S name k hk
  have hlt : k < S._joystickCameraStates.length := by
    rcases Nat.lt_or_ge k S._joystickCameraStates.length with h1 | h1
    · exact h1
    · rw [List.getElem?_eq_none h1] at hc
      simp at hc
  rw [hr]
  unfold record
  rw [writeAt_pointer S k f hf, hk]
  simp [writeAt, hc, List.getElem?_set_self hlt]

/-- What `findOrAddJoystickCameraState` returns when the device is known or capacity
remains: a pointer to the record of the device, which is the old record or a fresh one. -/
theorem findOrAdd_pointer (K : Declarations) (S : JoystickCameraStates) (name : String)
    (h : record S name ≠ none ∨ S._joystickCameraStates.length < K.MaxNumJoysticks) :
    ∃ k, (findOrAddJoystickCameraState K S name).2 = some k ∧
      getJoystickCameraState (findOrAddJoystickCameraState K S name).1 name = some k ∧
      record (findOrAddJoystickCameraState K S name).1 name =
        some ((record S name).getD (JoystickCameraState.fresh K name)) := by
  unfold findOrAddJoystickCameraState
  cases hg : getJoystickCameraState S name with
  | some k =>
    obtain ⟨c, hc, hr⟩ := record_of_pointer S name k hg
    exact ⟨k, rfl, hg, by simp [hr]⟩
  | none =>
    have hr : record S name = none := by simp [record, hg]
    have hlt : S._joystickCameraStates.length < K.MaxNumJoysticks := by
      rcases h with h | h
      · exact absurd hr h
      · exact h
    simp only [hlt, if_true]
    have hp : getJoystickCameraState
        { S with _joystickCameraStates :=
            S._joystickCameraStates ++ [JoystickCameraState.fresh K name] } name =
        some S._joystickCameraStates.length := by
      unfold getJoystickCameraState at hg ⊢
      rw [getFrom_append name _ _ 0 hg rfl]
      simp
    refine ⟨_, rfl, hp, ?_⟩
    rw [hr]
    simp [record, hp]

theorem findOrAdd_names_new (K : Declarations) (S : JoystickCameraStates) (name : String)
    (hr : record S name = none)
    (hlt : S._joystickCameraStates.length < K.MaxNumJoysticks) :
    names (findOrAddJoystickCameraState K S name).1._joystickCameraStates =
      names S._joystickCameraStates ++ [name] := by
  have hg : getJoystickCameraState S name = none := by
    unfold getJoystickCameraState
    exact (getFrom_none_iff name _ 0).mpr ((record_none_iff S name).mp hr)
  simp [findOrAddJoystickCameraState, hg, hlt, names, JoystickCameraState.fresh]

theorem findOrAdd_names_known (K : Declarations) (S : JoystickCameraStates)
    (name : String) (hr : record S name ≠ none) :
    (findOrAddJoystickCameraState K S name).1 = S := by
  unfold findOrAddJoystickCameraState
  cases hg : getJoystickCameraState S name with
  | some k => rfl
  | none => exact absurd (by simp [record, hg]) hr

theorem axisMapping_eq (K : Declarations) (S : JoystickCameraStates) (name : String)
    (axis : Int) :
    axisMapping K S name axis =
      match record S name with
      | none => Except.ok K.defaultAxisInformation
      | some c =>
        match slot K axis with
        | some a => Except.ok (c.axisMapping a)
        | none => Except.error Fault.outOfBounds := by
  unfold axisMapping
  cases hg : getJoystickCameraState S name with
  | none => simp [record, hg]
  | some k =>
    obtain ⟨c, hc, hr⟩ := record_of_pointer S name k hg
    simp only [hr, hc]
    cases slot K axis <;> rfl

theorem deadzone_eq (K : Declarations) (S : JoystickCameraStates) (name : String)
    (axis : Int) :
    deadzone K S name axis =
      match record S name with
      | none => Except.ok 0
      | some c =>
        match slot K axis with
        | some a => Except.ok (c.axisMapping a).deadzone
        | none => Except.error Fault.outOfBounds := by
  unfold deadzone
  cases hg : getJoystickCameraState S name with
  | none => simp [record, hg]
  | some k =>
    obtain ⟨c, hc, hr⟩ := record_of_pointer S name k hg
    simp only [hr, hc]
    cases slot K axis <;> rfl

theorem buttonCommand_eq (S : JoystickCameraStates) (name : String) (button : Int) :
    buttonCommand S name button =
      match record S name with
      | none => []
      | some c => (equalRange c.buttonMapping button).map ButtonInformation.command := by
  unfold buttonCommand record
  cases getJoystickCameraState S name <;> rfl

theorem slot_valid (K : Declarations) (axis : Int) (h0 : 0 ≤ axis)
    (h1 : axis < K.MaxAxes) : slot K axis = some axis.toNat := by
  simp [slot, h0, h1]

/-! ## Lemmas on the configuration calls -/

theorem findOrAdd_eq (K : Declarations) (S : JoystickCameraStates) (name : String)
    (h : record S name ≠ none ∨ S._joystickCameraStates.length < K.MaxNumJoysticks) :
    ∃ k, findOrAddJoystickCameraState K S name =
        ((findOrAddJoystickCameraState K S name).1, some k) ∧
      getJoystickCameraState (findOrAddJoystickCameraState K S name).1 name = some k ∧
      record (findOrAddJoystickCameraState K S name).1 name =
        some (recordOrFresh K S name) := by
  obtain ⟨k, hk, hp, hr⟩ := findOrAdd_pointer K S name h
  exact ⟨k, by rw [← hk], hp, hr⟩

/-- The record of the device after a write through the pointer that
`findOrAddJoystickCameraState` returned. -/
theorem findOrAdd_write (K : Declarations) (S : JoystickCameraStates) (name : String)
    (k : Nat) (f : JoystickCameraState → JoystickCameraState)
    (hf : ∀ c, (f c).joystickName = c.joystickName)
    (hp : getJoystickCameraState (findOrAddJoystickCameraState K S name).1 name = some k)
    (hr : record (findOrAddJoystickCameraState K S name).1 name =
      some (recordOrFresh K S name)) :
    record (writeAt (findOrAddJoystickCameraState K S name).1 k f) name =
      some (f (recordOrFresh K S name)) := by
  rw [writeAt_record _ name k f hf hp, hr]
  rfl

theorem setAxisMapping_ok (K : Declarations) (g : JoystickInputStates)
    (S : JoystickCameraStates) (name : String) (axis : Int) (mapping : AxisType)
    (inv nrm sticky : Bool) (sens : ℚ) (h0 : 0 ≤ axis) (h1 : axis < K.MaxAxes)
    (h : record S name ≠ none ∨ S._joystickCameraStates.length < K.MaxNumJoysticks) :
    ∃ S1, setAxisMapping K g S name axis mapping inv nrm sticky sens = Except.ok S1 ∧
      names S1._joystickCameraStates =
        names (findOrAddJoystickCameraState K S name).1._joystickCameraStates ∧
      record S1 name = some
        (axisWrite axis.toNat mapping inv nrm sticky sens (g.axis name axis)
          (recordOrFresh K S name)) := by
  obtain ⟨k, hfa, hp, hr⟩ := findOrAdd_eq K S name h
  refine ⟨writeAt (findOrAddJoystickCameraState K S name).1 k
    (axisWrite axis.toNat mapping inv nrm sticky sens (g.axis name axis)), ?_, ?_, ?_⟩
  · unfold setAxisMapping
    rw [hfa]
    simp only [h1, not_true_eq_false, if_false, slot_valid K axis h0 h1]
    rfl
  · exact writeAt_names _ _ _ (fun c => rfl)
  · exact findOrAdd_write K S name k _ (fun c => rfl) hp hr

theorem setAxisMappingProperty_ok (K : Declarations) (g : JoystickInputStates)
    (S : JoystickCameraStates) (name : String) (axis : Int) (uri : String)
    (min max : ℚ) (inv sticky : Bool) (sens : ℚ) (isRemote : Bool)
    (h0 : 0 ≤ axis) (h1 : axis < K.MaxAxes)
    (h : record S name ≠ none ∨ S._joystickCameraStates.length < K.MaxNumJoysticks) :
    ∃ S1, setAxisMappingProperty K g S name axis uri min max inv sticky sens isRemote
        = Except.ok S1 ∧
      names S1._joystickCameraStates =
        names (findOrAddJoystickCameraState K S name).1._joystickCameraStates ∧
      record S1 name = some
        (propertyWrite axis.toNat uri min max inv sticky sens isRemote (g.axis name axis)
          (recordOrFresh K S name)) := by
  obtain ⟨k, hfa, hp, hr⟩ := findOrAdd_eq K S name h
  refine ⟨writeAt (findOrAddJoystickCameraState K S name).1 k
    (propertyWrite axis.toNat uri min max inv sticky sens isRemote (g.axis name axis)),
    ?_, ?_, ?_⟩
  · unfold setAxisMappingProperty
    rw [hfa]
    simp only [h1, not_true_eq_false, if_false, slot_valid K axis h0 h1]
    rfl
  · exact writeAt_names _ _ _ (fun c => rfl)
  · exact findOrAdd_write K S name k _ (fun c => rfl) hp hr

theorem setDeadzone_ok (K : Declarations) (S : JoystickCameraStates) (name : String)
    (axis : Int) (dz : ℚ) (h0 : 0 ≤ axis) (h1 : axis < K.MaxAxes)
    (h : record S name ≠ none ∨ S._joystickCameraStates.length < K.MaxNumJoysticks) :
    ∃ S1, setDeadzone K S name axis dz = Except.ok S1 ∧
      names S1._joystickCameraStates =
        names (findOrAddJoystickCameraState K S name).1._joystickCameraStates ∧
      record S1 name = some (deadzoneWrite axis.toNat dz (recordOrFresh K S name)) := by
  obtain ⟨k, hfa, hp, hr⟩ := findOrAdd_eq K S name h
  refine ⟨writeAt (findOrAddJoystickCameraState K S name).1 k
    (deadzoneWrite axis.toNat dz), ?_, ?_, ?_⟩
  · unfold setDeadzone
    rw [hfa]
    simp only [slot_valid K axis h0 h1]
    rfl
  · exact writeAt_names _ _ _ (fun c => rfl)
  · exact findOrAdd_write K S name k _ (fun c => rfl) hp hr

theorem bindButtonCommand_record (K : Declarations) (S : JoystickCameraStates)
    (name : String) (button : Int) (command : String) (action : JoystickAction)
    (remote : Bool) (doc : String)
    (h : record S name ≠ none ∨ S._joystickCameraStates.length < K.MaxNumJoysticks) :
    record (bindButtonCommand K S name button command action remote doc) name = some
      { recordOrFresh K S name with
        buttonMapping := multimapInsert (button, ⟨command, action, remote, doc⟩)
          (recordOrFresh K S name).buttonMapping } := by
  obtain ⟨k, hfa, hp, hr⟩ := findOrAdd_eq K S name h
  unfold bindButtonCommand
  rw [hfa]
  exact findOrAdd_write K S name k
    (fun c => { c with
      buttonMapping := multimapInsert (button, ⟨command, action, remote, doc⟩)
        c.buttonMapping })
    (fun c => rfl) hp hr

theorem clearButtonCommand_record (S : JoystickCameraStates) (name : String)
    (button : Int) :
    record (clearButtonCommand S name button) name =
      (record S name).map fun c =>
        { c with buttonMapping := c.buttonMapping.filter (fun kv => ¬ kv.1 = button) } := by
  unfold clearButtonCommand
  cases hg : getJoystickCameraState S name with
  | none => simp [record, hg]
  | some k => exact writeAt_record S name k _ (fun c => rfl) hg

theorem equalRange_filter_self (m : List (Int × ButtonInformation)) (button : Int) :
    equalRange (m.filter (fun kv => ¬ kv.1 = button)) button = [] := by
  simp [equalRange, List.filter_filter]

theorem equalRange_filter_other (m : List (Int × ButtonInformation)) (button b : Int)
    (h : b ≠ button) :
    equalRange (m.filter (fun kv => ¬ kv.1 = button)) b = equalRange m b := by
  unfold equalRange
  rw [List.filter_filter]
  congr 1
  apply List.filter_congr
  intro kv _
  by_cases hkv : kv.1 = b
  · simp [hkv, h]
  · simp [hkv]

/-! ## Lemmas on the button multimap -/

theorem equalRange_cons (x : Int × ButtonInformation) (m : List (Int × ButtonInformation))
    (b : Int) :
    equalRange (x :: m) b = (if x.1 = b then [x.2] else []) ++ equalRange m b := by
  unfold equalRange
  by_cases h : x.1 = b <;> simp [List.filter_cons, h]

theorem equalRange_above (m : List (Int × ButtonInformation)) (b : Int)
    (h : ∀ x ∈ m, b < x.1) : equalRange m b = [] := by
  induction m with
  | nil => rfl
  | cons x xs ih =>
    rw [equalRange_cons, ih (fun y hy => h y (by simp [hy]))]
    have : x.1 ≠ b := by
      have := h x (by simp)
      omega
    simp [this]

theorem multimapInsert_sorted (kv : Int × ButtonInformation)
    (m : List (Int × ButtonInformation)) (h : sortedKeys m) :
    sortedKeys (multimapInsert kv m) := by
  induction m with
  | nil => simp [multimapInsert, sortedKeys]
  | cons x xs ih =>
    unfold sortedKeys at h ih ⊢
    rw [List.pairwise_cons] at h
    unfold multimapInsert
    by_cases hlt : kv.1 < x.1
    · simp only [hlt, if_true]
      rw [List.pairwise_cons, List.pairwise_cons]
      refine ⟨?_, h⟩
      intro y hy
      rcases List.mem_cons.mp hy with hy | hy
      · subst hy; omega
      · have := h.1 y hy
        omega
    · simp only [hlt, if_false]
      rw [List.pairwise_cons]
      refine ⟨?_, ih h.2⟩
      intro y hy
      have hmem : ∀ (l : List (Int × ButtonInformation)), y ∈ multimapInsert kv l →
          y = kv ∨ y ∈ l := by
        intro l
        induction l with
        | nil => simp [multimapInsert]
        | cons z zs ihz =>
          unfold multimapInsert
          split
          · intro hy1
            rcases List.mem_cons.mp hy1 with hy1 | hy1
            · exact Or.inl hy1
            · exact Or.inr hy1
          · intro hy1
            rcases List.mem_cons.mp hy1 with hy1 | hy1
            · exact Or.inr (by simp [hy1])
            · rcases ihz hy1 with h2 | h2
              · exact Or.inl h2
              · exact Or.inr (by simp [h2])
      rcases hmem xs hy with hy | hy
      · subst hy; omega
      · exact h.1 y hy

/-- On a sorted multimap the new pair is the last of its key. -/
theorem equalRange_insert_self (b : Int) (info : ButtonInformation)
    (m : List (Int × ButtonInformation)) (h : sortedKeys m) :
    equalRange (multimapInsert (b, info) m) b = equalRange m b ++ [info] := by
  induction m with
  | nil => simp [multimapInsert, equalRange]
  | cons x xs ih =>
    unfold sortedKeys at h ih
    rw [List.pairwise_cons] at h
    unfold multimapInsert
    by_cases hlt : b < x.1
    · simp only [hlt, if_true]
      have habove : equalRange (x :: xs) b = [] := by
        apply equalRange_above
        intro y hy
        rcases List.mem_cons.mp hy with hy | hy
        · subst hy; exact hlt
        · have := h.1 y hy
          omega
      rw [equalRange_cons, habove]
      simp
    · simp only [hlt, if_false]
      rw [equalRange_cons, equalRange_cons, ih h.2, List.append_assoc]

theorem equalRange_insert_other (b b1 : Int) (info : ButtonInformation)
    (m : List (Int × ButtonInformation)) (h : b1 ≠ b) :
    equalRange (multimapInsert (b, info) m) b1 = equalRange m b1 := by
  induction m with
  | nil => simp [multimapInsert, equalRange, h.symm]
  | cons x xs ih =>
    unfold multimapInsert
    by_cases hlt : b < x.1
    · simp only [hlt, if_true]
      rw [equalRange_cons]
      simp [h.symm]
    · simp only [hlt, if_false]
      rw [equalRange_cons, equalRange_cons, ih]

theorem writeAt_forall (S : JoystickCameraStates) (k : Nat)
    (f : JoystickCameraState → JoystickCameraState) (P : JoystickCameraState → Prop)
    (hf : ∀ c, P c → P (f c)) (h : ∀ c ∈ S._joystickCameraStates, P c) :
    ∀ c ∈ (writeAt S k f)._joystickCameraStates, P c := by
  unfold writeAt
  split
  · exact h
  · rename_i c0 hc0
    intro c hc
    rcases List.mem_or_eq_of_mem_set hc with hc | hc
    · exact h c hc
    · subst hc
      exact hf c0 (h c0 (List.getElem?_mem hc0))

theorem findOrAdd_forall (K : Declarations) (S : JoystickCameraStates) (name : String)
    (P : JoystickCameraState → Prop) (hfresh : P (JoystickCameraState.fresh K name))
    (h : ∀ c ∈ S._joystickCameraStates, P c) :
    ∀ c ∈ (findOrAddJoystickCameraState K S name).1._joystickCameraStates, P c := by
  unfold findOrAddJoystickCameraState
  split
  · exact h
  · split
    · intro c hc
      rcases List.mem_append.mp hc with hc | hc
      · exact h c hc
      · simp at hc
        subst hc
        exact hfresh
    · exact h

/-- Each configuration call that returns leaves a state that consists of the records of
`findOrAddJoystickCameraState`, one of them possibly written through the pointer with
its button bindings kept. -/
theorem setAxisMapping_shape (K : Declarations) (g : JoystickInputStates)
    (S S1 : JoystickCameraStates) (name : String) (axis : Int) (mapping : AxisType)
    (inv nrm sticky : Bool) (sens : ℚ)
    (h : setAxisMapping K g S name axis mapping inv nrm sticky sens = Except.ok S1) :
    S1 = (findOrAddJoystickCameraState K S name).1 ∨
      ∃ k f, (∀ c, (f c).buttonMapping = c.buttonMapping) ∧
        S1 = writeAt (findOrAddJoystickCameraState K S name).1 k f := by
  unfold setAxisMapping at h
  split at h
  · simp at h
  · split at h
    · rename_i S2 hfa
      simp at h
      rw [hfa, ← h]
      exact Or.inl rfl
    · rename_i S2 k hfa
      split at h
      · simp at h
      · simp at h
        rw [hfa, ← h]
        refine Or.inr ⟨k, _, ?_, rfl⟩
        intro c
        rfl

theorem setAxisMappingProperty_shape (K : Declarations) (g : JoystickInputStates)
    (S S1 : JoystickCameraStates) (name : String) (axis : Int) (uri : String)
    (min max : ℚ) (inv sticky : Bool) (sens : ℚ) (isRemote : Bool)
    (h : setAxisMappingProperty K g S name axis uri min max inv sticky sens isRemote
      = Except.ok S1) :
    S1 = (findOrAddJoystickCameraState K S name).1 ∨
      ∃ k f, (∀ c, (f c).buttonMapping = c.buttonMapping) ∧
        S1 = writeAt (findOrAddJoystickCameraState K S name).1 k f := by
  unfold setAxisMappingProperty at h
  split at h
  · simp at h
  · split at h
    · rename_i S2 hfa
      simp at h
      rw [hfa, ← h]
      exact Or.inl rfl
    · rename_i S2 k hfa
      split at h
      · simp at h
      · simp at h
        rw [hfa, ← h]
        refine Or.inr ⟨k, _, ?_, rfl⟩
        intro c
        rfl

theorem setDeadzone_shape (K : Declarations) (S S1 : JoystickCameraStates)
    (name : String) (axis : Int) (dz : ℚ)
    (h : setDeadzone K S name axis dz = Except.ok S1) :
    S1 = (findOrAddJoystickCameraState K S name).1 ∨
      ∃ k f, (∀ c, (f c).buttonMapping = c.buttonMapping) ∧
        S1 = writeAt (findOrAddJoystickCameraState K S name).1 k f := by
  unfold setDeadzone at h
  split at h
  · rename_i S2 hfa
    simp at h
    rw [hfa, ← h]
    exact Or.inl rfl
  · rename_i S2 k hfa
    split at h
    · simp at h
    · simp at h
      rw [hfa, ← h]
      refine Or.inr ⟨k, _, ?_, rfl⟩
      intro c
      rfl

theorem deviceBody_forall (K : Declarations) (s : ℚ) (inp g : JoystickInputStates)
    (T : TickLoop) (n : String) (P : List (Int × ButtonInformation) → Prop)
    (h : ∀ c ∈ T.states, P c.buttonMapping) :
    ∀ c ∈ (deviceBody K s inp g T n).states, P c.buttonMapping := by
  unfold deviceBody
  split
  · exact h
  · split
    · exact h
    · split
      · exact h
      · rename_i c0 hc0
        intro c hc
        rcases List.mem_or_eq_of_mem_set hc with hc | hc
        · exact h c hc
        · subst hc
          rw [buttonLoop_cam, axisLoop, (axisFold_frame s inp n _ _).2]
          exact h c0 (List.getElem?_mem hc0)

theorem deviceFold_forall (K : Declarations) (s : ℚ) (inp g : JoystickInputStates)
    (ns : List String) (T : TickLoop) (P : List (Int × ButtonInformation) → Prop)
    (h : ∀ c ∈ T.states, P c.buttonMapping) :
    ∀ c ∈ (ns.foldl (deviceBody K s inp g) T).states, P c.buttonMapping := by
  induction ns generalizing T with
  | nil => exact h
  | cons n ns ih =>
    rw [List.foldl_cons]
    exact ih _ (deviceBody_forall K s inp g T n P h)

/-- In every reachable state the button multimap of every record is ordered by key. -/
theorem reachable_sorted (K : Declarations) (S : JoystickCameraStates)
    (h : Reachable K S) : ∀ c ∈ S._joystickCameraStates, sortedKeys c.buttonMapping := by
  have hfresh : ∀ n, sortedKeys (JoystickCameraState.fresh K n).buttonMapping := by
    intro n; simp [JoystickCameraState.fresh, sortedKeys]
  induction h with
  | construct s => simp
  | setAxisMapping g n axis mapping inv nrm sticky sens _ hok ih =>
    have hfa := findOrAdd_forall K _ n (fun c => sortedKeys c.buttonMapping) (hfresh n) ih
    rcases setAxisMapping_shape K g _ _ n axis mapping inv nrm sticky sens hok with h1 | h1
    · rw [h1]; exact hfa
    · obtain ⟨k, f, hf, h2⟩ := h1
      rw [h2]
      exact writeAt_forall _ k f _ (fun c hc => by rw [hf]; exact hc) hfa
  | setAxisMappingProperty g n axis uri min max inv sticky sens rem _ hok ih =>
    have hfa := findOrAdd_forall K _ n (fun c => sortedKeys c.buttonMapping) (hfresh n) ih
    rcases setAxisMappingProperty_shape K g _ _ n axis uri min max inv sticky sens rem hok
      with h1 | h1
    · rw [h1]; exact hfa
    · obtain ⟨k, f, hf, h2⟩ := h1
      rw [h2]
      exact writeAt_forall _ k f _ (fun c hc => by rw [hf]; exact hc) hfa
  | setDeadzone n axis dz _ hok ih =>
    have hfa := findOrAdd_forall K _ n (fun c => sortedKeys c.buttonMapping) (hfresh n) ih
    rcases setDeadzone_shape K _ _ n axis dz hok with h1 | h1
    · rw [h1]; exact hfa
    · obtain ⟨k, f, hf, h2⟩ := h1
      rw [h2]
      exact writeAt_forall _ k f _ (fun c hc => by rw [hf]; exact hc) hfa
  | bindButtonCommand n button command action remote doc _ ih =>
    have hfa := findOrAdd_forall K _ n (fun c => sortedKeys c.buttonMapping) (hfresh n) ih
    unfold OpenSpace.bindButtonCommand
    split
    · rename_i S2 hfa2
      rw [hfa2] at hfa
      exact hfa
    · rename_i S2 k hfa2
      rw [hfa2] at hfa
      exact writeAt_forall _ k _ _ (fun c hc => multimapInsert_sorted _ _ hc) hfa
  | clearButtonCommand n button _ ih =>
    unfold OpenSpace.clearButtonCommand
    split
    · exact ih
    · exact writeAt_forall _ _ _ _ (fun c hc => List.Pairwise.filter _ hc) ih
  | updateStateFromInput inp g dt _ ih =>
    exact deviceFold_forall K _ inp g inp.names _ sortedKeys ih

/-! ## Lemmas on the button loop -/

theorem bindingFold_queue (g : JoystickInputStates) (name : String) (i : Int)
    (bs : List ButtonInformation) (q : List QueuedScript) :
    bs.foldl (bindingBody g name i) q =
      q ++ (bs.filter (fun b => g.button name i b.action)).map
        (fun b => ⟨Script.command b.command, b.synchronization⟩) := by
  induction bs generalizing q with
  | nil => simp
  | cons b bs ih =>
    rw [List.foldl_cons, ih]
    unfold bindingBody
    by_cases h : g.button name i b.action = true
    · simp [h, List.filter_cons]
    · simp [h, List.filter_cons]

theorem buttonFold_queue (g : JoystickInputStates) (name : String) (is : List Nat)
    (L : DeviceLoop) :
    (is.foldl (buttonBody g name) L).queue =
      L.queue ++ is.flatMap (buttonScripts g name L.cam) := by
  induction is generalizing L with
  | nil => simp
  | cons i is ih =>
    rw [List.foldl_cons, ih, List.flatMap_cons, ← List.append_assoc]
    congr 1
    simp [buttonBody, bindingFold_queue, buttonScripts]

/-! ## Lemmas on the order of the queued scripts -/

theorem axisBody_queue (s : ℚ) (inp : JoystickInputStates) (name : String)
    (L : DeviceLoop) (i : Nat) :
    (axisBody s inp name L i).queue = L.queue ++ axisScripts s inp name L.cam i := by
  by_cases hn : (L.cam.axisMapping i).type = AxisType.None
  · rw [axisBody_none s inp name L i hn]
    simp [axisScripts, hn]
  · by_cases hd : |stickyValue (L.cam.axisMapping i) (inp.axis name i)
        (L.cam.prevAxisValues i)| ≤ (L.cam.axisMapping i).deadzone
    · rw [axisBody_skip s inp name L i hn hd]
      simp [axisScripts, hd]
    · rw [axisBody_pass s inp name L i hn hd]
      by_cases hP : (L.cam.axisMapping i).type = AxisType.Property
      · simp [axisScripts, hd, hP, switchQueue]
      · rw [switchQueue_channel _ _ _ hP]
        simp [axisScripts, hP]

theorem axisScripts_congr (s : ℚ) (inp : JoystickInputStates) (name : String)
    (c c1 : JoystickCameraState) (i : Nat) (hm : c1.axisMapping i = c.axisMapping i)
    (hp : c1.prevAxisValues i = c.prevAxisValues i) :
    axisScripts s inp name c1 i = axisScripts s inp name c i := by
  unfold axisScripts
  rw [hm, hp]

theorem axisFold_queue (s : ℚ) (inp : JoystickInputStates) (name : String)
    (is : List Nat) (hnd : is.Nodup) (L : DeviceLoop) :
    (is.foldl (axisBody s inp name) L).queue =
      L.queue ++ is.flatMap (axisScripts s inp name L.cam) := by
  induction is generalizing L with
  | nil => simp
  | cons i is ih =>
    rw [List.nodup_cons] at hnd
    rw [List.foldl_cons, ih hnd.2, axisBody_queue, List.flatMap_cons, List.append_assoc]
    congr 2
    apply List.flatMap_congr
    intro j hj
    have hji : j ≠ i := by rintro rfl; exact hnd.1 hj
    exact axisScripts_congr s inp name _ _ j (by rw [axisBody_axisMapping])
      (axisBody_prev_ne s inp name L i j hji)

theorem buttonScripts_congr (g : JoystickInputStates) (name : String)
    (c c1 : JoystickCameraState) (h : c1.buttonMapping = c.buttonMapping) :
    buttonScripts g name c1 = buttonScripts g name c := by
  funext i
  unfold buttonScripts
  rw [h]

theorem deviceBody_queue (K : Declarations) (s : ℚ) (inp g : JoystickInputStates)
    (T : TickLoop) (n : String) :
    (deviceBody K s inp g T n).queue = T.queue ++ entryScripts K s inp g T.states n := by
  unfold deviceBody entryScripts
  by_cases hn : n = ""
  · simp [hn]
  · simp only [hn, if_false]
    cases hg : getJoystickCameraState ⟨s, T.states⟩ n with
    | none => simp [record, hg]
    | some k =>
      obtain ⟨c, hc, hr⟩ := record_of_pointer ⟨s, T.states⟩ n k hg
      have hc1 : T.states[k]? = some c := hc
      simp only [hr, hc1]
      unfold buttonLoop
      rw [buttonFold_queue, axisLoop, axisFold_queue s inp n _ (List.nodup_range _),
        buttonScripts_congr g n c _ (axisFold_frame s inp n _ _).2, deviceScripts,
        List.append_assoc]

theorem deviceFold_queue (K : Declarations) (s : ℚ) (inp g : JoystickInputStates)
    (ns : List String) (T : TickLoop) :
    (ns.foldl (deviceBody K s inp g) T).queue =
      T.queue ++ tickScripts K s inp g T.states ns := by
  induction ns generalizing T with
  | nil => simp [tickScripts]
  | cons n ns ih =>
    rw [List.foldl_cons, ih, deviceBody_queue, tickScripts, (deviceBody_add K s inp g T n).1,
      List.append_assoc]

/-! ## Lemmas on a tick with a single device -/

/-- The velocity updates of a tick on a coordinator whose only record is called `"A"` and
maps no axis but axis 0 are those of the body of axis 0. -/
theorem single_tick (s dt : ℚ) (c : JoystickCameraState) (inp g : JoystickInputStates)
    (hname : c.joystickName = "A") (hnames : inp.names = ["A"])
    (hax : ∀ i, i ≠ 0 → (c.axisMapping i).type = AxisType.None) :
    (updateStateFromInput exampleK ⟨s, [c]⟩ inp g dt).velocityOps =
      velocityOps (axisBody s inp "A" ⟨c, Accumulators.init, []⟩ 0).acc dt := by
  have h8 : List.range 8 = 0 :: [1, 2, 3, 4, 5, 6, 7] := by decide
  have hrest : [1, 2, 3, 4, 5, 6, 7].foldl (axisBody s inp "A")
      (axisBody s inp "A" ⟨c, Accumulators.init, []⟩ 0) =
      axisBody s inp "A" ⟨c, Accumulators.init, []⟩ 0 := by
    apply axisFold_unmapped
    intro i hi
    rw [axisBody_axisMapping]
    exact hax i (by rintro rfl; simp at hi)
  have hA : axisLoop exampleK s inp "A" ⟨c, Accumulators.init, []⟩ =
      axisBody s inp "A" ⟨c, Accumulators.init, []⟩ 0 := by
    unfold axisLoop
    show (List.range 8).foldl _ _ = _
    rw [h8, List.foldl_cons, hrest]
  have hfind : getJoystickCameraState ⟨s, [c]⟩ "A" = some 0 := by
    simp [getJoystickCameraState, getJoystickCameraStateFrom, hname]
  unfold updateStateFromInput deviceLoop
  simp only [hnames, List.foldl_cons, List.foldl_nil]
  unfold deviceBody
  rw [if_neg (by decide)]
  simp only [hfind, List.getElem?_cons_zero, buttonLoop_acc, hA]

/-- A sticky axis whose cache holds the raw value it reads has delta 0; if its deadzone is
not negative, its iteration of the axis loop changes neither accumulators nor queue. -/
theorem sticky_reseeded (s : ℚ) (inp : JoystickInputStates) (name : String)
    (L : DeviceLoop) (a : Nat) (raw : ℚ)
    (hs : (L.cam.axisMapping a).isSticky = true)
    (hp : L.cam.prevAxisValues a = raw) (hr : inp.axis name a = raw) :
    stickyValue (L.cam.axisMapping a) (inp.axis name a) (L.cam.prevAxisValues a) = 0 ∧
      (0 ≤ (L.cam.axisMapping a).deadzone →
        (axisBody s inp name L a).acc = L.acc ∧
          (axisBody s inp name L a).queue = L.queue) := by
  have hv : stickyValue (L.cam.axisMapping a) (inp.axis name a) (L.cam.prevAxisValues a)
      = 0 := by
    simp [stickyValue, hs, hp, hr]
  refine ⟨hv, fun hdz => ?_⟩
  by_cases hn : (L.cam.axisMapping a).type = AxisType.None
  · rw [axisBody_none s inp name L a hn]
    exact ⟨rfl, rfl⟩
  · rw [axisBody_skip s inp name L a hn (by rw [hv]; simpa using hdz)]
    exact ⟨rfl, rfl⟩

/-! ## Lemmas on the frame of a write through the pointer -/

theorem writeAt_record_other (S : JoystickCameraStates) (name name2 : String) (k : Nat)
    (f : JoystickCameraState → JoystickCameraState)
    (hf : ∀ c, (f c).joystickName = c.joystickName)
    (hk : getJoystickCameraState S name = some k) (hne : name2 ≠ name) :
    record (writeAt S k f) name2 = record S name2 := by
  unfold record
  rw [writeAt_pointer S k f hf name2]
  cases hg : getJoystickCameraState S name2 with
  | none => rfl
  | some k2 =>
    obtain ⟨c, hc, hcn⟩ := getFrom_zero name _ k hk
    obtain ⟨c2, hc2, hcn2⟩ := getFrom_zero name2 _ k2 hg
    have hkk : k ≠ k2 := by
      rintro rfl
      rw [hc] at hc2
      simp at hc2
      subst hc2
      exact hne (hcn2.symm.trans hcn)
    simp only [writeAt, hc]
    exact getElem?_set_ne_index _ _ _ _ hkk

theorem writeAt_id (S : JoystickCameraStates) (k : Nat)
    (f : JoystickCameraState → JoystickCameraState)
    (hf : ∀ c, S._joystickCameraStates[k]? = some c → f c = c) : writeAt S k f = S := by
  unfold writeAt
  cases hc : S._joystickCameraStates[k]? with
  | none => rfl
  | some c =>
    simp only
    rw [hf c hc]
    have hlt : k < S._joystickCameraStates.length := by
      rcases Nat.lt_or_ge k S._joystickCameraStates.length with h1 | h1
      · exact h1
      · rw [List.getElem?_eq_none h1] at hc
        simp at hc
    have : S._joystickCameraStates.set k c = S._joystickCameraStates := by
      apply List.ext_getElem?
      intro m
      by_cases hm : k = m
      · subst hm
        rw [List.getElem?_set_self hlt, hc]
      · rw [getElem?_set_ne_index _ _ _ _ hm]
    rw [this]

theorem writeAt_sensitivity (S : JoystickCameraStates) (k : Nat)
    (f : JoystickCameraState → JoystickCameraState) :
    (writeAt S k f)._sensitivity = S._sensitivity := by
  unfold writeAt
  split <;> rfl

theorem deviceBody_skip (K : Declarations) (s : ℚ) (inp g : JoystickInputStates)
    (T : TickLoop) (n : String) (h : n = "" ∨ record ⟨s, T.states⟩ n = none) :
    deviceBody K s inp g T n = T := by
  unfold deviceBody
  by_cases hn : n = ""
  · simp [hn]
  · rcases h with h | h
    · exact absurd h hn
    · simp only [hn, if_false]
      have hg : getJoystickCameraState ⟨s, T.states⟩ n = none := by
        unfold getJoystickCameraState
        exact (getFrom_none_iff n _ 0).mpr ((record_none_iff ⟨s, T.states⟩ n).mp h)
      rw [hg]

theorem deviceFold_skip (K : Declarations) (s : ℚ) (inp g : JoystickInputStates)
    (ns : List String) (T : TickLoop)
    (h : ∀ n ∈ ns, n = "" ∨ record ⟨s, T.states⟩ n = none) :
    ns.foldl (deviceBody K s inp g) T = T := by
  induction ns with
  | nil => rfl
  | cons n ns ih =>
    rw [List.foldl_cons, deviceBody_skip K s inp g T n (h n (by simp))]
    exact ih (fun m hm => h m (by simp [hm]))

/-! ## Lemmas on the truck aggregate -/

theorem axisBody_zoom (s : ℚ) (inp : JoystickInputStates) (name : String)
    (L : DeviceLoop) (i : Nat) :
    (axisBody s inp name L i).acc.zoom =
      if zoomsIn inp name L.cam i = true then
        ⟨true, L.acc.zoom.second + finalValue s inp name L.cam i⟩
      else if zoomsOut inp name L.cam i = true then
        ⟨true, L.acc.zoom.second - finalValue s inp name L.cam i⟩
      else L.acc.zoom := by
  by_cases hn : (L.cam.axisMapping i).type = AxisType.None
  · rw [axisBody_none s inp name L i hn]
    simp [zoomsIn, zoomsOut, hn]
  · by_cases hd : |stickyValue (L.cam.axisMapping i) (inp.axis name i)
        (L.cam.prevAxisValues i)| ≤ (L.cam.axisMapping i).deadzone
    · rw [axisBody_skip s inp name L i hn hd]
      simp [zoomsIn, zoomsOut, passes, hd]
    · rw [axisBody_pass s inp name L i hn hd]
      simp only [zoomsIn, zoomsOut, passes, hd, not_false_eq_true, decide_True,
        Bool.and_true, finalValue]
      cases hty : (L.cam.axisMapping i).type <;> simp [switchAcc]

theorem zoom_congr (s : ℚ) (inp : JoystickInputStates) (name : String)
    (c c1 : JoystickCameraState) (i : Nat) (hm : c1.axisMapping i = c.axisMapping i)
    (hp : c1.prevAxisValues i = c.prevAxisValues i) :
    zoomsIn inp name c1 i = zoomsIn inp name c i ∧
      zoomsOut inp name c1 i = zoomsOut inp name c i ∧
      finalValue s inp name c1 i = finalValue s inp name c i := by
  unfold zoomsIn zoomsOut passes finalValue
  rw [hm, hp]
  exact ⟨rfl, rfl, rfl⟩

theorem axisFold_zoom (s : ℚ) (inp : JoystickInputStates) (name : String)
    (is : List Nat) (hnd : is.Nodup) (L : DeviceLoop) :
    (is.foldl (axisBody s inp name) L).acc.zoom.first =
        (L.acc.zoom.first ||
          is.any (fun i => zoomsIn inp name L.cam i || zoomsOut inp name L.cam i)) ∧
      (is.foldl (axisBody s inp name) L).acc.zoom.second =
        L.acc.zoom.second +
          ((is.filter (zoomsIn inp name L.cam)).map (finalValue s inp name L.cam)).sum -
          ((is.filter (zoomsOut inp name L.cam)).map (finalValue s inp name L.cam)).sum := by
  induction is generalizing L with
  | nil => simp
  | cons i is ih =>
    rw [List.nodup_cons] at hnd
    have hcongr : ∀ j ∈ is,
        zoomsIn inp name (axisBody s inp name L i).cam j = zoomsIn inp name L.cam j ∧
        zoomsOut inp name (axisBody s inp name L i).cam j = zoomsOut inp name L.cam j ∧
        finalValue s inp name (axisBody s inp name L i).cam j
          = finalValue s inp name L.cam j := by
      intro j hj
      have hji : j ≠ i := by rintro rfl; exact hnd.1 hj
      exact zoom_congr s inp name _ _ j (by rw [axisBody_axisMapping])
        (axisBody_prev_ne s inp name L i j hji)
    have hany : is.any (fun j => zoomsIn inp name (axisBody s inp name L i).cam j ||
          zoomsOut inp name (axisBody s inp name L i).cam j) =
        is.any (fun j => zoomsIn inp name L.cam j || zoomsOut inp name L.cam j) := by
      rw [Bool.eq_iff_iff]
      simp only [List.any_eq_true]
      constructor
      · rintro ⟨j, hj, h⟩
        exact ⟨j, hj, by rw [(hcongr j hj).1, (hcongr j hj).2.1] at h; exact h⟩
      · rintro ⟨j, hj, h⟩
        exact ⟨j, hj, by rw [(hcongr j hj).1, (hcongr j hj).2.1]; exact h⟩
    have hin : ((is.filter (zoomsIn inp name (axisBody s inp name L i).cam)).map
          (finalValue s inp name (axisBody s inp name L i).cam)) =
        ((is.filter (zoomsIn inp name L.cam)).map (finalValue s inp name L.cam)) := by
      rw [List.filter_congr (fun j hj => (hcongr j hj).1)]
      apply List.map_congr_left
      intro j hj
      exact (hcongr j (List.mem_of_mem_filter hj)).2.2
    have hout : ((is.filter (zoomsOut inp name (axisBody s inp name L i).cam)).map
          (finalValue s inp name (axisBody s inp name L i).cam)) =
        ((is.filter (zoomsOut inp name L.cam)).map (finalValue s inp name L.cam)) := by
      rw [List.filter_congr (fun j hj => (hcongr j hj).2.1)]
      apply List.map_congr_left
      intro j hj
      exact (hcongr j (List.mem_of_mem_filter hj)).2.2
    rw [List.foldl_cons, (ih hnd.2 _).1, (ih hnd.2 _).2, hany, hin, hout, axisBody_zoom]
    by_cases h1 : zoomsIn inp name L.cam i = true
    · have h2 : zoomsOut inp name L.cam i = false := by
        simp only [zoomsIn, zoomsOut, Bool.and_eq_true, Bool.or_eq_true,
          decide_eq_true_eq] at h1 ⊢
        rcases h1.1 with h | h <;> simp [h]
      simp [h1, h2, List.filter_cons]
      ring
    · by_cases h2 : zoomsOut inp name L.cam i = true
      · simp [h1, h2, List.filter_cons]
        ring
      · simp [h1, h2, List.filter_cons]

theorem deviceBody_zoom (K : Declarations) (s : ℚ) (inp g : JoystickInputStates)
    (T : TickLoop) (n : String) :
    (deviceBody K s inp g T n).acc.zoom.first =
        (T.acc.zoom.first || entryZoomTouched K s inp T.states n) ∧
      (deviceBody K s inp g T n).acc.zoom.second =
        T.acc.zoom.second + entryZoom K s inp T.states n := by
  unfold deviceBody entryZoom entryZoomTouched
  by_cases hn : n = ""
  · simp [hn]
  · simp only [hn, if_false]
    cases hg : getJoystickCameraState ⟨s, T.states⟩ n with
    | none => simp [record, hg]
    | some k =>
      obtain ⟨c, hc, hr⟩ := record_of_pointer ⟨s, T.states⟩ n k hg
      have hc1 : T.states[k]? = some c := hc
      simp only [hr, hc1, buttonLoop_acc, axisLoop]
      have h := axisFold_zoom s inp n (List.range K.MaxAxes) (List.nodup_range _)
        ⟨c, T.acc, T.queue⟩
      refine ⟨h.1, ?_⟩
      rw [h.2]
      ring

theorem deviceFold_zoom (K : Declarations) (s : ℚ) (inp g : JoystickInputStates)
    (ns : List String) (T : TickLoop) :
    (ns.foldl (deviceBody K s inp g) T).acc.zoom.first =
        (T.acc.zoom.first || tickZoomTouched K s inp g T.states ns) ∧
      (ns.foldl (deviceBody K s inp g) T).acc.zoom.second =
        T.acc.zoom.second + tickZoom K s inp g T.states ns := by
  induction ns generalizing T with
  | nil => simp [tickZoom, tickZoomTouched]
  | cons n ns ih =>
    rw [List.foldl_cons, (ih _).1, (ih _).2, (deviceBody_zoom K s inp g T n).1,
      (deviceBody_zoom K s inp g T n).2, tickZoom, tickZoomTouched,
      (deviceBody_add K s inp g T n).1]
    exact ⟨by rw [Bool.or_assoc], by ring⟩

/-! ## Lemmas on the frame of a tick -/

theorem framed_refl (K : Declarations) (inp : JoystickInputStates)
    (c : JoystickCameraState) : framed K inp c c :=
  ⟨rfl, rfl, rfl, fun _ h => absurd rfl h⟩

theorem framed_trans (K : Declarations) (inp : JoystickInputStates)
    (c c1 c2 : JoystickCameraState) (h1 : framed K inp c c1) (h2 : framed K inp c1 c2) :
    framed K inp c c2 := by
  obtain ⟨hn1, hm1, hb1, hp1⟩ := h1
  obtain ⟨hn2, hm2, hb2, hp2⟩ := h2
  refine ⟨hn2.trans hn1, hm2.trans hm1, hb2.trans hb1, ?_⟩
  intro i hi
  by_cases h21 : c2.prevAxisValues i = c1.prevAxisValues i
  · rw [h21] at hi ⊢
    exact hp1 i hi
  · have := hp2 i h21
    rw [hm1, hn1] at this
    exact this

theorem axisBody_framed (K : Declarations) (s : ℚ) (inp : JoystickInputStates)
    (L : DeviceLoop) (i : Nat) (hi : i < K.MaxAxes) (hne : L.cam.joystickName ≠ "")
    (hmem : L.cam.joystickName ∈ inp.names) :
    framed K inp L.cam (axisBody s inp L.cam.joystickName L i).cam := by
  by_cases hn : (L.cam.axisMapping i).type = AxisType.None
  · rw [axisBody_none s inp _ L i hn]
    exact framed_refl K inp _
  · have hcam : (axisBody s inp L.cam.joystickName L i).cam =
        stickyStore (L.cam.axisMapping i) i (inp.axis L.cam.joystickName i) L.cam := by
      by_cases hd : |stickyValue (L.cam.axisMapping i) (inp.axis L.cam.joystickName i)
          (L.cam.prevAxisValues i)| ≤ (L.cam.axisMapping i).deadzone
      · rw [axisBody_skip s inp _ L i hn hd]
      · rw [axisBody_pass s inp _ L i hn hd]
    rw [hcam]
    refine ⟨stickyStore_joystickName _ _ _ _, stickyStore_axisMapping _ _ _ _,
      stickyStore_buttonMapping _ _ _ _, ?_⟩
    intro j hj
    have hji : j = i := by
      by_contra hne1
      exact hj (stickyStore_prev_ne _ _ _ _ _ hne1)
    subst hji
    have hs : (L.cam.axisMapping j).isSticky = true := by
      by_contra hns
      apply hj
      simp [stickyStore, hns]
    exact ⟨hs, hn, hi, hne, hmem, stickyStore_prev_self _ _ _ _ hs⟩

theorem axisFold_framed (K : Declarations) (s : ℚ) (inp : JoystickInputStates)
    (name : String) (is : List Nat) (his : ∀ i ∈ is, i < K.MaxAxes) (L : DeviceLoop)
    (hname : L.cam.joystickName = name) (hne : name ≠ "") (hmem : name ∈ inp.names) :
    framed K inp L.cam (is.foldl (axisBody s inp name) L).cam := by
  induction is generalizing L with
  | nil => exact framed_refl K inp _
  | cons i is ih =>
    rw [List.foldl_cons]
    have h1 : framed K inp L.cam (axisBody s inp name L i).cam := by
      have := axisBody_framed K s inp L i (his i (by simp)) (by rw [hname]; exact hne)
        (by rw [hname]; exact hmem)
      rw [hname] at this
      exact this
    exact framed_trans K inp _ _ _ h1
      (ih (fun j hj => his j (by simp [hj])) _
        (by rw [axisBody_joystickName]; exact hname))

theorem deviceBody_framed (K : Declarations) (s : ℚ) (inp g : JoystickInputStates)
    (T : TickLoop) (n : String) (hn : n ∈ inp.names) :
    (deviceBody K s inp g T n).states.length = T.states.length ∧
      ∀ (k : Nat) (c : JoystickCameraState), T.states[k]? = some c →
        ∃ c1 : JoystickCameraState, (deviceBody K s inp g T n).states[k]? = some c1 ∧ framed K inp c c1 := by
  unfold deviceBody
  by_cases hempty : n = ""
  · rw [if_pos hempty]
    exact ⟨rfl, fun k c hc => ⟨c, hc, framed_refl K inp c⟩⟩
  · rw [if_neg hempty]
    cases hg : getJoystickCameraState ⟨s, T.states⟩ n with
    | none => exact ⟨rfl, fun k c hc => ⟨c, hc, framed_refl K inp c⟩⟩
    | some k0 =>
      obtain ⟨c0, hc0, hname0⟩ := getFrom_zero n _ k0 hg
      have hc0a : T.states[k0]? = some c0 := hc0
      simp only [hc0a]
      refine ⟨by simp, ?_⟩
      intro k c hc
      by_cases hk : k0 = k
      · subst hk
        rw [hc0a] at hc
        simp at hc
        subst hc
        have hlt : k0 < T.states.length := by
          rcases Nat.lt_or_ge k0 T.states.length with h1 | h1
          · exact h1
          · rw [List.getElem?_eq_none h1] at hc0a
            simp at hc0a
        refine ⟨_, List.getElem?_set_self hlt, ?_⟩
        rw [buttonLoop_cam, axisLoop]
        exact axisFold_framed K s inp n _ (fun i hi => List.mem_range.mp hi)
          ⟨c0, T.acc, T.queue⟩ hname0 hempty hn
      · exact ⟨c, by rw [getElem?_set_ne_index _ _ _ _ hk]; exact hc, framed_refl K inp c⟩

theorem deviceFold_framed (K : Declarations) (s : ℚ) (inp g : JoystickInputStates)
    (ns : List String) (hns : ∀ n ∈ ns, n ∈ inp.names) (T : TickLoop) :
    (ns.foldl (deviceBody K s inp g) T).states.length = T.states.length ∧
      ∀ (k : Nat) (c : JoystickCameraState), T.states[k]? = some c →
        ∃ c1 : JoystickCameraState, (ns.foldl (deviceBody K s inp g) T).states[k]? = some c1 ∧
          framed K inp c c1 := by
  induction ns generalizing T with
  | nil => exact ⟨rfl, fun k c hc => ⟨c, hc, framed_refl K inp c⟩⟩
  | cons n ns ih =>
    rw [List.foldl_cons]
    have h1 := deviceBody_framed K s inp g T n (hns n (by simp))
    have h2 := ih (fun m hm => hns m (by simp [hm])) (deviceBody K s inp g T n)
    refine ⟨h2.1.trans h1.1, ?_⟩
    intro k c hc
    obtain ⟨c1, hc1, hf1⟩ := h1.2 k c hc
    obtain ⟨c2, hc2, hf2⟩ := h2.2 k c1 hc1
    exact ⟨c2, hc2, framed_trans K inp _ _ _ hf1 hf2⟩

/-! ## Lemmas on the order of configuration calls -/

theorem writeAt_writeAt (S : JoystickCameraStates) (k : Nat)
    (f f1 : JoystickCameraState → JoystickCameraState) :
    writeAt (writeAt S k f) k f1 = writeAt S k (fun c => f1 (f c)) := by
  unfold writeAt
  cases hc : S._joystickCameraStates[k]? with
  | none => simp [hc]
  | some c =>
    have hlt : k < S._joystickCameraStates.length := by
      rcases Nat.lt_or_ge k S._joystickCameraStates.length with h1 | h1
      · exact h1
      · rw [List.getElem?_eq_none h1] at hc
        simp at hc
    simp [List.getElem?_set_self hlt]

theorem findOrAdd_known (K : Declarations) (S : JoystickCameraStates) (name : String)
    (k : Nat) (h : getJoystickCameraState S name = some k) :
    findOrAddJoystickCameraState K S name = (S, some k) := by
  simp [findOrAddJoystickCameraState, h]

theorem findOrAdd_cases (K : Declarations) (S : JoystickCameraStates) (name : String) :
    findOrAddJoystickCameraState K S name = (S, none) ∨
      ∃ k, findOrAddJoystickCameraState K S name =
          ((findOrAddJoystickCameraState K S name).1, some k) ∧
        getJoystickCameraState (findOrAddJoystickCameraState K S name).1 name = some k := by
  by_cases h : record S name ≠ none ∨ S._joystickCameraStates.length < K.MaxNumJoysticks
  · obtain ⟨k, hfa, hp, _⟩ := findOrAdd_eq K S name h
    exact Or.inr ⟨k, hfa, hp⟩
  · left
    push_neg at h
    exact findOrAdd_full K S name h.2 ((record_none_iff S name).mp h.1)

theorem setDeadzone_write (K : Declarations) (S X : JoystickCameraStates) (name : String)
    (axis : Int) (dz : ℚ) (k : Nat) (h0 : 0 ≤ axis) (h1 : axis < K.MaxAxes)
    (hfa : findOrAddJoystickCameraState K S name = (X, some k)) :
    setDeadzone K S name axis dz = Except.ok (writeAt X k (deadzoneWrite axis.toNat dz)) := by
  unfold setDeadzone
  rw [hfa]
  simp only [slot_valid K axis h0 h1]
  rfl

theorem setAxisMapping_write (K : Declarations) (g : JoystickInputStates)
    (S X : JoystickCameraStates) (name : String) (axis : Int) (mapping : AxisType)
    (inv nrm sticky : Bool) (sens : ℚ) (k : Nat) (h0 : 0 ≤ axis) (h1 : axis < K.MaxAxes)
    (hfa : findOrAddJoystickCameraState K S name = (X, some k)) :
    setAxisMapping K g S name axis mapping inv nrm sticky sens =
      Except.ok (writeAt X k
        (axisWrite axis.toNat mapping inv nrm sticky sens (g.axis name axis))) := by
  unfold setAxisMapping
  rw [hfa]
  simp only [h1, not_true_eq_false, if_false, slot_valid K axis h0 h1]
  rfl

theorem setAxisMappingProperty_write (K : Declarations) (g : JoystickInputStates)
    (S X : JoystickCameraStates) (name : String) (axis : Int) (uri : String)
    (min max : ℚ) (inv sticky : Bool) (sens : ℚ) (isRemote : Bool) (k : Nat)
    (h0 : 0 ≤ axis) (h1 : axis < K.MaxAxes)
    (hfa : findOrAddJoystickCameraState K S name = (X, some k)) :
    setAxisMappingProperty K g S name axis uri min max inv sticky sens isRemote =
      Except.ok (writeAt X k
        (propertyWrite axis.toNat uri min max inv sticky sens isRemote
          (g.axis name axis))) := by
  unfold setAxisMappingProperty
  rw [hfa]
  simp only [h1, not_true_eq_false, if_false, slot_valid K axis h0 h1]
  rfl

theorem deadzoneWrite_axisWrite (a : Nat) (dz : ℚ) (mapping : AxisType)
    (inv nrm sticky : Bool) (sens raw : ℚ) (c : JoystickCameraState) :
    axisWrite a mapping inv nrm sticky sens raw (deadzoneWrite a dz c) =
      deadzoneWrite a dz (axisWrite a mapping inv nrm sticky sens raw c) := by
  simp [axisWrite, deadzoneWrite]

theorem deadzoneWrite_propertyWrite (a : Nat) (dz : ℚ) (uri : String) (min max : ℚ)
    (inv sticky : Bool) (sens : ℚ) (isRemote : Bool) (raw : ℚ)
    (c : JoystickCameraState) :
    propertyWrite a uri min max inv sticky sens isRemote raw (deadzoneWrite a dz c) =
      deadzoneWrite a dz (propertyWrite a uri min max inv sticky sens isRemote raw c) := by
  simp [propertyWrite, deadzoneWrite]

/-- Two writes through the pointer that `findOrAddJoystickCameraState` returns, made by
two successive configuration calls on the same device, are one write of the
composition. -/
theorem findOrAdd_after_write (K : Declarations) (X : JoystickCameraStates)
    (name : String) (k : Nat) (f : JoystickCameraState → JoystickCameraState)
    (hf : ∀ c, (f c).joystickName = c.joystickName)
    (hp : getJoystickCameraState X name = some k) :
    findOrAddJoystickCameraState K (writeAt X k f) name = (writeAt X k f, some k) :=
  findOrAdd_known K _ name k (by rw [writeAt_pointer X k f hf]; exact hp)

theorem runCalls_deadzone (K : Declarations) (name : String) (axis : Int) (v : ℚ)
    (h0 : 0 ≤ axis) (h1 : axis < K.MaxAxes) (calls : List MappingCall)
    (S : JoystickCameraStates) (c : JoystickCameraState)
    (hr : record S name = some c) (hv : (c.axisMapping axis.toNat).deadzone = v) :
    ∃ S1 c1, runCalls K name axis calls S = Except.ok S1 ∧ record S1 name = some c1 ∧
      (c1.axisMapping axis.toNat).deadzone = v := by
  induction calls generalizing S c with
  | nil => exact ⟨S, c, rfl, hr, hv⟩
  | cons call calls ih =>
    have hcap : record S name ≠ none ∨
        S._joystickCameraStates.length < K.MaxNumJoysticks := Or.inl (by simp [hr])
    have hfresh : recordOrFresh K S name = c := by simp [recordOrFresh, hr]
    unfold runCalls
    cases call with
    | plain g mapping inv nrm sticky sens =>
      obtain ⟨S1, hok, _, hrec⟩ := setAxisMapping_ok K g S name axis mapping inv nrm sticky
        sens h0 h1 hcap
      simp only [MappingCall.run, hok]
      exact ih S1 _ hrec (by rw [hfresh]; simpa [axisWrite] using hv)
    | property g uri min max inv sticky sens isRemote =>
      obtain ⟨S1, hok, _, hrec⟩ := setAxisMappingProperty_ok K g S name axis uri min max inv
        sticky sens isRemote h0 h1 hcap
      simp only [MappingCall.run, hok]
      exact ih S1 _ hrec (by rw [hfresh]; simpa [propertyWrite] using hv)

theorem setDeadzone_none (K : Declarations) (S : JoystickCameraStates) (name : String)
    (axis : Int) (dz : ℚ) (hfa : findOrAddJoystickCameraState K S name = (S, none)) :
    setDeadzone K S name axis dz = Except.ok S := by
  unfold setDeadzone
  rw [hfa]

theorem setAxisMapping_none (K : Declarations) (g : JoystickInputStates)
    (S : JoystickCameraStates) (name : String) (axis : Int) (mapping : AxisType)
    (inv nrm sticky : Bool) (sens : ℚ) (h1 : axis < K.MaxAxes)
    (hfa : findOrAddJoystickCameraState K S name = (S, none)) :
    setAxisMapping K g S name axis mapping inv nrm sticky sens = Except.ok S := by
  unfold setAxisMapping
  rw [hfa]
  simp [h1]

theorem setAxisMappingProperty_none (K : Declarations) (g : JoystickInputStates)
    (S : JoystickCameraStates) (name : String) (axis : Int) (uri : String)
    (min max : ℚ) (inv sticky : Bool) (sens : ℚ) (isRemote : Bool)
    (h1 : axis < K.MaxAxes)
    (hfa : findOrAddJoystickCameraState K S name = (S, none)) :
    setAxisMappingProperty K g S name axis uri min max inv sticky sens isRemote
      = Except.ok S := by
  unfold setAxisMappingProperty
  rw [hfa]
  simp [h1]

/-- Two configuration calls on the same device and valid axis whose writes commute
commute as calls. -/
theorem setDeadzone_setAxisMapping_comm (K : Declarations) (g : JoystickInputStates)
    (S : JoystickCameraStates) (name : String) (axis : Int) (dz : ℚ)
    (mapping : AxisType) (inv nrm sticky : Bool) (sens : ℚ)
    (h0 : 0 ≤ axis) (h1 : axis < K.MaxAxes) :
    (setDeadzone K S name axis dz).bind
        (fun S1 => setAxisMapping K g S1 name axis mapping inv nrm sticky sens) =
      (setAxisMapping K g S name axis mapping inv nrm sticky sens).bind
        (fun S1 => setDeadzone K S1 name axis dz) := by
  rcases findOrAdd_cases K S name with hfa | ⟨k, hfa, hp⟩
  · rw [setDeadzone_none K S name axis dz hfa,
      setAxisMapping_none K g S name axis mapping inv nrm sticky sens h1 hfa]
    show setAxisMapping K g S name axis mapping inv nrm sticky sens
      = setDeadzone K S name axis dz
    rw [setDeadzone_none K S name axis dz hfa,
      setAxisMapping_none K g S name axis mapping inv nrm sticky sens h1 hfa]
  · rw [setDeadzone_write K S _ name axis dz k h0 h1 hfa,
      setAxisMapping_write K g S _ name axis mapping inv nrm sticky sens k h0 h1 hfa]
    show setAxisMapping K g (writeAt _ k _) name axis mapping inv nrm sticky sens
      = setDeadzone K (writeAt _ k _) name axis dz
    rw [setAxisMapping_write K g _ _ name axis mapping inv nrm sticky sens k h0 h1
        (findOrAdd_after_write K _ name k (deadzoneWrite axis.toNat dz) (fun c => rfl) hp),
      setDeadzone_write K _ _ name axis dz k h0 h1
        (findOrAdd_after_write K _ name k
          (axisWrite axis.toNat mapping inv nrm sticky sens (g.axis name axis))
          (fun c => rfl) hp),
      writeAt_writeAt, writeAt_writeAt]
    congr 2
    funext c
    exact deadzoneWrite_axisWrite _ _ _ _ _ _ _ _ c

theorem setDeadzone_setAxisMappingProperty_comm (K : Declarations)
    (g : JoystickInputStates) (S : JoystickCameraStates) (name : String) (axis : Int)
    (dz : ℚ) (uri : String) (min max : ℚ) (inv sticky : Bool) (sens : ℚ)
    (isRemote : Bool) (h0 : 0 ≤ axis) (h1 : axis < K.MaxAxes) :
    (setDeadzone K S name axis dz).bind
        (fun S1 => setAxisMappingProperty K g S1 name axis uri min max inv sticky sens
          isRemote) =
      (setAxisMappingProperty K g S name axis uri min max inv sticky sens isRemote).bind
        (fun S1 => setDeadzone K S1 name axis dz) := by
  rcases findOrAdd_cases K S name with hfa | ⟨k, hfa, hp⟩
  · rw [setDeadzone_none K S name axis dz hfa,
      setAxisMappingProperty_none K g S name axis uri min max inv sticky sens isRemote h1
        hfa]
    show setAxisMappingProperty K g S name axis uri min max inv sticky sens isRemote
      = setDeadzone K S name axis dz
    rw [setDeadzone_none K S name axis dz hfa,
      setAxisMappingProperty_none K g S name axis uri min max inv sticky sens isRemote h1
        hfa]
  · rw [setDeadzone_write K S _ name axis dz k h0 h1 hfa,
      setAxisMappingProperty_write K g S _ name axis uri min max inv sticky sens isRemote k
        h0 h1 hfa]
    show setAxisMappingProperty K g (writeAt _ k _) name axis uri min max inv sticky sens
        isRemote = setDeadzone K (writeAt _ k _) name axis dz
    rw [setAxisMappingProperty_write K g _ _ name axis uri min max inv sticky sens isRemote
        k h0 h1
        (findOrAdd_after_write K _ name k (deadzoneWrite axis.toNat dz) (fun c => rfl) hp),
      setDeadzone_write K _ _ name axis dz k h0 h1
        (findOrAdd_after_write K _ name k
          (propertyWrite axis.toNat uri min max inv sticky sens isRemote (g.axis name axis))
          (fun c => rfl) hp),
      writeAt_writeAt, writeAt_writeAt]
    congr 2
    funext c
    exact deadzoneWrite_propertyWrite _ _ _ _ _ _ _ _ _ _ c

/-! ## Lemmas on the value of a `Property` axis -/

theorem preSensitivity_property_range (t : AxisInformation) (x : ℚ)
    (hP : t.type = AxisType.Property) (hmm : t.minValue ≤ t.maxValue)
    (h1 : -1 ≤ x) (h2 : x ≤ 1) :
    t.minValue ≤ preSensitivity t x ∧ preSensitivity t x ≤ t.maxValue := by
  have hd : 0 ≤ t.maxValue - t.minValue := by linarith
  unfold preSensitivity
  simp only [hP, beq_self_eq_true, Bool.or_true, if_true]
  have key : ∀ y : ℚ, 0 ≤ y → y ≤ 1 →
      t.minValue ≤ y * (t.maxValue - t.minValue) + t.minValue ∧
        y * (t.maxValue - t.minValue) + t.minValue ≤ t.maxValue := by
    intro y hy0 hy1
    have hp1 := mul_nonneg hy0 hd
    have hp2 := mul_nonneg (sub_nonneg.mpr hy1) hd
    constructor
    · linarith
    · nlinarith
  cases hi : t.invert with
  | true =>
    simp only [if_true]
    exact key _ (by linarith) (by linarith)
  | false =>
    simp only [Bool.false_eq_true, if_false]
    exact key _ (by linarith) (by linarith)

/-- The scripts of a tick on a coordinator whose only record is called `"A"`, maps no
axis but axis 0 and binds no button are those of the body of axis 0. -/
theorem single_tick_queue (s dt : ℚ) (c : JoystickCameraState) (inp g : JoystickInputStates)
    (hname : c.joystickName = "A") (hnames : inp.names = ["A"])
    (hax : ∀ i, i ≠ 0 → (c.axisMapping i).type = AxisType.None)
    (hb : c.buttonMapping = []) :
    (updateStateFromInput exampleK ⟨s, [c]⟩ inp g dt).queue =
      (axisBody s inp "A" ⟨c, Accumulators.init, []⟩ 0).queue := by
  have h8 : List.range 8 = 0 :: [1, 2, 3, 4, 5, 6, 7] := by decide
  have hrest : [1, 2, 3, 4, 5, 6, 7].foldl (axisBody s inp "A")
      (axisBody s inp "A" ⟨c, Accumulators.init, []⟩ 0) =
      axisBody s inp "A" ⟨c, Accumulators.init, []⟩ 0 := by
    apply axisFold_unmapped
    intro i hi
    rw [axisBody_axisMapping]
    exact hax i (by rintro rfl; simp at hi)
  have hA : axisLoop exampleK s inp "A" ⟨c, Accumulators.init, []⟩ =
      axisBody s inp "A" ⟨c, Accumulators.init, []⟩ 0 := by
    unfold axisLoop
    show (List.range 8).foldl _ _ = _
    rw [h8, List.foldl_cons, hrest]
  have hB : buttonLoop exampleK g "A" (axisBody s inp "A" ⟨c, Accumulators.init, []⟩ 0) =
      axisBody s inp "A" ⟨c, Accumulators.init, []⟩ 0 := by
    apply buttonFold_empty
    rw [axisBody_buttonMapping]
    exact hb
  have hfind : getJoystickCameraState ⟨s, [c]⟩ "A" = some 0 := by
    simp [getJoystickCameraState, getJoystickCameraStateFrom, hname]
  unfold updateStateFromInput deviceLoop
  simp only [hnames, List.foldl_cons, List.foldl_nil]
  unfold deviceBody
  rw [if_neg (by decide)]
  simp only [hfind, List.getElem?_cons_zero, hA, hB]

/-! ## Lemmas on the contribution of the axes to the channels -/

theorem axisBody_channel (s : ℚ) (inp : JoystickInputStates) (name : String)
    (L : DeviceLoop) (i : Nat) (ch : Channel) :
    (axisBody s inp name L i).acc.touched ch =
        (L.acc.touched ch || axisTouches inp name L.cam i ch) ∧
      ((axisBody s inp name L i).acc.aggregate ch).x =
        (L.acc.aggregate ch).x + (axisAdds s inp name L.cam i ch).x ∧
      ((axisBody s inp name L i).acc.aggregate ch).y =
        (L.acc.aggregate ch).y + (axisAdds s inp name L.cam i ch).y := by
  by_cases hn : (L.cam.axisMapping i).type = AxisType.None
  · rw [axisBody_none s inp name L i hn]
    simp [axisTouches, axisAdds, feeds, hn]
  · by_cases hd : |stickyValue (L.cam.axisMapping i) (inp.axis name i)
        (L.cam.prevAxisValues i)| ≤ (L.cam.axisMapping i).deadzone
    · rw [axisBody_skip s inp name L i hn hd]
      have hp : passes inp name L.cam i = false := by simp [passes, hd]
      cases hty : (L.cam.axisMapping i).type <;>
        simp [axisTouches, axisAdds, feeds, hty, hp]
    · rw [axisBody_pass s inp name L i hn hd]
      have hp : passes inp name L.cam i = true := by simp [passes, hd]
      cases hty : (L.cam.axisMapping i).type <;> cases ch <;>
        simp [axisTouches, axisAdds, feeds, hty, hp, switchAcc, Accumulators.touched,
          Accumulators.aggregate, finalValue, sub_eq_add_neg]

theorem channel_congr (s : ℚ) (inp : JoystickInputStates) (name : String)
    (c c1 : JoystickCameraState) (i : Nat) (ch : Channel)
    (hm : c1.axisMapping i = c.axisMapping i)
    (hp : c1.prevAxisValues i = c.prevAxisValues i) :
    axisTouches inp name c1 i ch = axisTouches inp name c i ch ∧
      axisAdds s inp name c1 i ch = axisAdds s inp name c i ch := by
  unfold axisTouches axisAdds passes finalValue
  rw [hm, hp]
  exact ⟨rfl, rfl⟩

theorem axisFold_channel (s : ℚ) (inp : JoystickInputStates) (name : String)
    (ch : Channel) (is : List Nat) (hnd : is.Nodup) (L : DeviceLoop) :
    (is.foldl (axisBody s inp name) L).acc.touched ch =
        (L.acc.touched ch || is.any (fun i => axisTouches inp name L.cam i ch)) ∧
      ((is.foldl (axisBody s inp name) L).acc.aggregate ch).x =
        (L.acc.aggregate ch).x + (is.map (fun i => (axisAdds s inp name L.cam i ch).x)).sum ∧
      ((is.foldl (axisBody s inp name) L).acc.aggregate ch).y =
        (L.acc.aggregate ch).y +
          (is.map (fun i => (axisAdds s inp name L.cam i ch).y)).sum := by
  induction is generalizing L with
  | nil => simp
  | cons i is ih =>
    rw [List.nodup_cons] at hnd
    have hcongr : ∀ j ∈ is,
        axisTouches inp name (axisBody s inp name L i).cam j ch =
          axisTouches inp name L.cam j ch ∧
        axisAdds s inp name (axisBody s inp name L i).cam j ch =
          axisAdds s inp name L.cam j ch := by
      intro j hj
      have hji : j ≠ i := by rintro rfl; exact hnd.1 hj
      exact channel_congr s inp name _ _ j ch (by rw [axisBody_axisMapping])
        (axisBody_prev_ne s inp name L i j hji)
    have hany : is.any (fun j => axisTouches inp name (axisBody s inp name L i).cam j ch) =
        is.any (fun j => axisTouches inp name L.cam j ch) := by
      rw [Bool.eq_iff_iff]
      simp only [List.any_eq_true]
      constructor
      · rintro ⟨j, hj, h⟩
        exact ⟨j, hj, by rw [(hcongr j hj).1] at h; exact h⟩
      · rintro ⟨j, hj, h⟩
        exact ⟨j, hj, by rw [(hcongr j hj).1]; exact h⟩
    have hx : is.map (fun j => (axisAdds s inp name (axisBody s inp name L i).cam j ch).x) =
        is.map (fun j => (axisAdds s inp name L.cam j ch).x) :=
      List.map_congr_left (fun j hj => by rw [(hcongr j hj).2])
    have hy : is.map (fun j => (axisAdds s inp name (axisBody s inp name L i).cam j ch).y) =
        is.map (fun j => (axisAdds s inp name L.cam j ch).y) :=
      List.map_congr_left (fun j hj => by rw [(hcongr j hj).2])
    have hb := axisBody_channel s inp name L i ch
    rw [List.foldl_cons, (ih hnd.2 _).1, (ih hnd.2 _).2.1, (ih hnd.2 _).2.2, hany, hx, hy,
      hb.1, hb.2.1, hb.2.2]
    refine ⟨?_, ?_, ?_⟩
    · simp [Bool.or_assoc]
    · simp only [List.map_cons, List.sum_cons]; ring
    · simp only [List.map_cons, List.sum_cons]; ring

theorem accumulators_ext (a b : Accumulators)
    (h : ∀ ch, a.touched ch = b.touched ch ∧ (a.aggregate ch).x = (b.aggregate ch).x ∧
      (a.aggregate ch).y = (b.aggregate ch).y) : a = b := by
  have h1 := h Channel.globalRotation
  have h2 := h Channel.truckMovement
  have h3 := h Channel.localRoll
  have h4 := h Channel.globalRoll
  have h5 := h Channel.localRotation
  simp only [Accumulators.touched, Accumulators.aggregate] at h1 h2 h3 h4 h5
  obtain ⟨⟨f1, ⟨x1, y1⟩⟩, ⟨f2, z2⟩, ⟨f3, ⟨x3, y3⟩⟩, ⟨f4, ⟨x4, y4⟩⟩, ⟨f5, ⟨x5, y5⟩⟩⟩ := a
  obtain ⟨⟨g1, ⟨u1, v1⟩⟩, ⟨g2, w2⟩, ⟨g3, ⟨u3, v3⟩⟩, ⟨g4, ⟨u4, v4⟩⟩, ⟨g5, ⟨u5, v5⟩⟩⟩ := b
  simp only at h1 h2 h3 h4 h5
  simp [h1, h2, h3, h4, h5]

theorem axisAdds_truck (s : ℚ) (inp : JoystickInputStates) (name : String)
    (c : JoystickCameraState) (i : Nat) :
    (axisAdds s inp name c i Channel.truckMovement).y =
      (axisAdds s inp name c i Channel.truckMovement).x := by
  unfold axisAdds
  cases hp : passes inp name c i <;> cases (c.axisMapping i).type <;> simp [feeds]

/-- The axis loop of a device, started from the initial accumulators, leaves the
contribution of the device's axes. -/
theorem axisLoop_contribution (K : Declarations) (s : ℚ) (inp : JoystickInputStates)
    (name : String) (c : JoystickCameraState) (q : List QueuedScript) :
    (axisLoop K s inp name ⟨c, Accumulators.init, q⟩).acc =
      deviceContribution K s inp name c := by
  apply accumulators_ext
  intro ch
  have h := axisFold_channel s inp name ch (List.range K.MaxAxes) (List.nodup_range _)
    ⟨c, Accumulators.init, q⟩
  unfold axisLoop
  rw [h.1, h.2.1, h.2.2]
  cases ch <;>
    simp [deviceContribution, deviceTouched, deviceAggregate, Accumulators.touched,
      Accumulators.aggregate, Accumulators.init, axisAdds_truck]

theorem deviceBody_contribution (K : Declarations) (s : ℚ) (inp g : JoystickInputStates)
    (states : List JoystickCameraState) (n : String) :
    (deviceBody K s inp g ⟨states, Accumulators.init, []⟩ n).acc =
      entryContribution K s inp states n := by
  unfold deviceBody entryContribution
  by_cases hn : n = ""
  · simp [hn]
  · simp only [hn, if_false]
    cases hg : getJoystickCameraState ⟨s, states⟩ n with
    | none => simp [record, hg]
    | some k =>
      obtain ⟨c, hc, hr⟩ := record_of_pointer ⟨s, states⟩ n k hg
      have hc1 : states[k]? = some c := hc
      simp only [hr, hc1, buttonLoop_acc]
      exact axisLoop_contribution K s inp n c []

theorem contributions_eq (K : Declarations) (s : ℚ) (inp g : JoystickInputStates)
    (states : List JoystickCameraState) (ns : List String) :
    contributions K s inp g states ns = tickContributions K s inp g states ns := by
  induction ns generalizing states with
  | nil => rfl
  | cons n ns ih =>
    rw [contributions, tickContributions, deviceBody_contribution, ih]

theorem deviceContribution_channel (K : Declarations) (s : ℚ) (inp : JoystickInputStates)
    (n : String) (c : JoystickCameraState) (ch : Channel) :
    (deviceContribution K s inp n c).touched ch = deviceTouched K inp n c ch ∧
      (deviceContribution K s inp n c).aggregate ch = deviceAggregate K s inp n c ch := by
  cases ch <;>
    simp [deviceContribution, deviceAggregate, Accumulators.touched, Accumulators.aggregate,
      axisAdds_truck]

theorem tickContributions_records (K : Declarations) (s : ℚ) (inp g : JoystickInputStates)
    (ch : Channel) (states : List JoystickCameraState) (ns : List String) :
    (tickContributions K s inp g states ns).any (fun a => a.touched ch) =
        (tickRecords K s inp g states ns).any (fun e => deviceTouched K inp e.1 e.2 ch) ∧
      ((tickContributions K s inp g states ns).map (fun a => (a.aggregate ch).x)).sum =
        ((tickRecords K s inp g states ns).map
          (fun e => (deviceAggregate K s inp e.1 e.2 ch).x)).sum ∧
      ((tickContributions K s inp g states ns).map (fun a => (a.aggregate ch).y)).sum =
        ((tickRecords K s inp g states ns).map
          (fun e => (deviceAggregate K s inp e.1 e.2 ch).y)).sum := by
  have hinit : Accumulators.init.touched ch = false ∧
      (Accumulators.init.aggregate ch).x = 0 ∧ (Accumulators.init.aggregate ch).y = 0 := by
    cases ch <;> simp [Accumulators.init, Accumulators.touched, Accumulators.aggregate]
  induction ns generalizing states with
  | nil => simp [tickContributions, tickRecords]
  | cons n ns ih =>
    obtain ⟨h1, h2, h3⟩ := ih (deviceBody K s inp g ⟨states, Accumulators.init, []⟩ n).states
    simp only [tickContributions, tickRecords, List.any_cons, List.map_cons, List.sum_cons,
      List.any_append, List.map_append, List.sum_append, h1, h2, h3, entryContribution]
    by_cases hn : n = ""
    · simp [hn, hinit]
    · simp only [hn, if_false]
      cases hr : record ⟨s, states⟩ n with
      | none => simp [hinit]
      | some c => simp [deviceContribution_channel]

theorem orbitX_axisLoop (s : ℚ) (inp : JoystickInputStates) (n : String)
    (c : JoystickCameraState) (a : Accumulators)
    (hm : c.axisMapping = (fun i => if i = 0 then exampleOrbitX else exampleAxis))
    (hr0 : inp.axis n 0 ≠ 0) :
    axisLoop exampleK s inp n ⟨c, a, []⟩ =
      ⟨c, { a with globalRotation := ⟨true, ⟨a.globalRotation.second.x +
        inp.axis n 0 * 2 * s, a.globalRotation.second.y⟩⟩ }, []⟩ := by
  have h8 : List.range 8 = [0, 1, 2, 3, 4, 5, 6, 7] := by decide
  unfold axisLoop
  show (List.range 8).foldl _ _ = _
  rw [h8, List.foldl_cons]
  have h0 : axisBody s inp n ⟨c, a, []⟩ 0 =
      ⟨c, { a with globalRotation := ⟨true, ⟨a.globalRotation.second.x +
        inp.axis n 0 * 2 * s, a.globalRotation.second.y⟩⟩ }, []⟩ := by
    have hd : ¬ |stickyValue (c.axisMapping 0) (inp.axis n 0)
        (c.prevAxisValues 0)| ≤ (c.axisMapping 0).deadzone := by
      rw [hm]
      simp [stickyValue, exampleOrbitX, exampleAxis, hr0]
    rw [axisBody_pass s inp n ⟨c, a, []⟩ 0 (by rw [hm]; simp [exampleOrbitX]) hd,
      applySensitivity_eq]
    simp only [hm]
    have he : ((2 : ℚ) ^ 52)⁻¹ < 2 := by norm_num
    simp [stickyStore, stickyValue, switchAcc, switchQueue, sensitivityFactor,
      preSensitivity, exampleOrbitX, exampleAxis, epsilon, he]
    ring
  rw [h0]
  apply axisFold_unmapped
  intro i hi
  show (c.axisMapping i).type = AxisType.None
  rw [hm]
  have : i ≠ 0 := by rintro rfl; simp at hi
  simp [this, exampleAxis]

/-- Two devices `"A"` and `"B"`, both mapped to `OrbitX` with axis sensitivity 2, under
`_sensitivity = 3` at raw values 1 and 1/2: the global rotation receives the one
operation `set((9, 0), deltaTime)`, the sum of 6 and 3; the other channels decelerate. -/
theorem example_two_devices (g : JoystickInputStates) (dt : ℚ) :
    (updateStateFromInput exampleK ⟨3, [exampleCam exampleOrbitX, exampleCamB exampleOrbitX]⟩
      (exampleInputsAB 1 (1 / 2)) g dt).velocityOps =
      [(Channel.globalRotation, VelocityOp.set ⟨9, 0⟩ dt),
        (Channel.truckMovement, VelocityOp.decelerate dt),
        (Channel.localRoll, VelocityOp.decelerate dt),
        (Channel.globalRoll, VelocityOp.decelerate dt),
        (Channel.localRotation, VelocityOp.decelerate dt)] := by
  have hB : ∀ (n : String) (L : DeviceLoop), L.cam.buttonMapping = [] →
      buttonLoop exampleK g n L = L := fun n L h => buttonFold_empty g n _ L h
  have hfA : getJoystickCameraState
      ⟨3, [exampleCam exampleOrbitX, exampleCamB exampleOrbitX]⟩ "A" = some 0 := by
    simp [getJoystickCameraState, getJoystickCameraStateFrom, exampleCam]
  have hfB : getJoystickCameraState
      ⟨3, [exampleCam exampleOrbitX, exampleCamB exampleOrbitX]⟩ "B" = some 1 := by
    simp [getJoystickCameraState, getJoystickCameraStateFrom, exampleCam, exampleCamB]
  have hrA : (exampleInputsAB 1 (1 / 2)).axis "A" 0 = 1 := by simp [exampleInputsAB]
  have hrB : (exampleInputsAB 1 (1 / 2)).axis "B" 0 = 1 / 2 := by simp [exampleInputsAB]
  have hD1 : deviceBody exampleK 3 (exampleInputsAB 1 (1 / 2)) g
      ⟨[exampleCam exampleOrbitX, exampleCamB exampleOrbitX], Accumulators.init, []⟩ "A" =
      ⟨[exampleCam exampleOrbitX, exampleCamB exampleOrbitX],
        { Accumulators.init with globalRotation := ⟨true, ⟨6, 0⟩⟩ }, []⟩ := by
    unfold deviceBody
    rw [if_neg (by decide)]
    simp only [hfA, List.getElem?_cons_zero]
    rw [orbitX_axisLoop 3 _ "A" (exampleCam exampleOrbitX) _ rfl (by rw [hrA]; norm_num),
      hB _ _ rfl, hrA]
    simp [Accumulators.init]
    norm_num
  have hD2 : deviceBody exampleK 3 (exampleInputsAB 1 (1 / 2)) g
      ⟨[exampleCam exampleOrbitX, exampleCamB exampleOrbitX],
        { Accumulators.init with globalRotation := ⟨true, ⟨6, 0⟩⟩ }, []⟩ "B" =
      ⟨[exampleCam exampleOrbitX, exampleCamB exampleOrbitX],
        { Accumulators.init with globalRotation := ⟨true, ⟨9, 0⟩⟩ }, []⟩ := by
    unfold deviceBody
    rw [if_neg (by decide)]
    simp only [hfB, List.getElem?_cons_succ, List.getElem?_cons_zero]
    rw [orbitX_axisLoop 3 _ "B" (exampleCamB exampleOrbitX) _ rfl (by rw [hrB]; norm_num),
      hB _ _ rfl, hrB]
    simp [Accumulators.init]
    norm_num
  have hn : (exampleInputsAB 1 (1 / 2)).names = ["A", "B"] := rfl
  unfold updateStateFromInput deviceLoop
  simp only [hn, List.foldl_cons, List.foldl_nil, hD1, hD2]
  simp [velocityOps, velocityOp, Accumulators.init]

/-! ## The claims -/

/-- C1 (as amended): an axis of a channel type that passes its deadzone changes the
component of the aggregate it feeds by the pipeline value (after sticky, invert and
normalise) times `sensitivity * _sensitivity` when `|sensitivity| > epsilon`, and times
`_sensitivity` otherwise; the amount is added, and subtracted for `ZoomOut`. -/
theorem C1_sensitivity_step (s : ℚ) (inp : JoystickInputStates) (name : String)
    (L : DeviceLoop) (i : Nat) (c : Channel)
    (hc : channelOf (L.cam.axisMapping i).type = some c)
    (hd : ¬ |stickyValue (L.cam.axisMapping i) (inp.axis name i) (L.cam.prevAxisValues i)|
      ≤ (L.cam.axisMapping i).deadzone) :
    (axisBody s inp name L i).acc.component (L.cam.axisMapping i).type =
      L.acc.component (L.cam.axisMapping i).type +
        (if (L.cam.axisMapping i).type = AxisType.ZoomOut then -1 else 1) *
          (preSensitivity (L.cam.axisMapping i)
              (stickyValue (L.cam.axisMapping i) (inp.axis name i) (L.cam.prevAxisValues i)) *
            (if |(L.cam.axisMapping i).sensitivity| > epsilon then
              (L.cam.axisMapping i).sensitivity * s
            else s)) := by
  have hn : (L.cam.axisMapping i).type ≠ AxisType.None := by
    intro h; rw [h] at hc; simp [channelOf] at hc
  rw [axisBody_pass s inp name L i hn hd]
  simp only [switchAcc_component _ _ _ c hc, applySensitivity_eq, sensitivityFactor]
  split <;> ring

/-- C1, witness: the `OrbitX` axis with per-axis sensitivity 2 under `_sensitivity = 3`
and raw value 1 adds `1 * (2 * 3) = 6`. -/
theorem C1_sensitivity_step_witness :
    (axisBody 3 (exampleInputs 1) "A" (exampleLoop exampleOrbitX) 0).acc.component
      AxisType.OrbitX = 6 := by
  refine (C1_sensitivity_step 3 (exampleInputs 1) "A" (exampleLoop exampleOrbitX) 0
    Channel.globalRotation (by rfl)
    (by simp [exampleLoop, exampleCam, exampleOrbitX, exampleAxis, exampleInputs,
      stickyValue])).trans ?_
  simp [exampleLoop, exampleCam, exampleOrbitX, exampleAxis, exampleInputs, stickyValue,
    preSensitivity, Accumulators.init, Accumulators.component, epsilon]
  norm_num

/-- C1, counterexample: with `_sensitivity = 3`, one device whose axis 0 is `OrbitX` with
per-axis sensitivity 2 (so `|sensitivity| > epsilon`), and raw value 1, the tick sets
global rotation to `(6, 0)`: the amount added is not the pipeline value times the per-axis
sensitivity alone, which is 2. -/
theorem C1_counterexample :
    |exampleOrbitX.sensitivity| > epsilon ∧
    preSensitivity exampleOrbitX (stickyValue exampleOrbitX 1 0) * exampleOrbitX.sensitivity
      = 2 ∧
    (updateStateFromInput exampleK ⟨3, [exampleCam exampleOrbitX]⟩ (exampleInputs 1)
        (exampleInputs 1) 1).velocityOps.head? =
      some (Channel.globalRotation, VelocityOp.set ⟨6, 0⟩ 1) ∧
    (axisBody 3 (exampleInputs 1) "A" (exampleLoop exampleOrbitX) 0).acc.component
        AxisType.OrbitX ≠
      (exampleLoop exampleOrbitX).acc.component AxisType.OrbitX +
        preSensitivity exampleOrbitX (stickyValue exampleOrbitX 1 0) *
          exampleOrbitX.sensitivity := by
  have hbody : (axisBody 3 (exampleInputs 1) "A" (exampleLoop exampleOrbitX) 0).acc =
      switchAcc AxisType.OrbitX 6 Accumulators.init := by
    simp [axisBody, exampleLoop, exampleCam, exampleOrbitX, exampleAxis, exampleInputs,
      stickyValue, preSensitivity, applySensitivity, epsilon]
    norm_num
  refine ⟨?_, ?_, ?_, ?_⟩
  · simp [exampleOrbitX, exampleAxis, epsilon]
    norm_num
  · simp [preSensitivity, exampleOrbitX, exampleAxis, stickyValue]
  · rw [example_tick, hbody]
    simp [switchAcc, velocityOps, velocityOp, Accumulators.init]
  · rw [hbody]
    simp [switchAcc, Accumulators.component, Accumulators.init, exampleLoop, preSensitivity,
      exampleOrbitX, exampleAxis, stickyValue]

/-- C2: for a non-sticky axis of any mapped type (channel or `Property`, any invert and
normalise setting): if `|raw| ≤ deadzone` the loop body changes nothing (no channel is
marked touched, nothing is added to an aggregate, no script is queued); if
`|raw| > deadzone` and the type is a channel type, its channel is marked touched. -/
theorem C2_deadzone (s : ℚ) (inp : JoystickInputStates) (name : String)
    (L : DeviceLoop) (i : Nat)
    (hs : (L.cam.axisMapping i).isSticky = false)
    (hn : (L.cam.axisMapping i).type ≠ AxisType.None) :
    (|inp.axis name i| ≤ (L.cam.axisMapping i).deadzone → axisBody s inp name L i = L) ∧
    ((L.cam.axisMapping i).deadzone < |inp.axis name i| →
      ∀ c, channelOf (L.cam.axisMapping i).type = some c →
        (axisBody s inp name L i).acc.touched c = true) := by
  constructor
  · intro hd
    rw [axisBody_skip s inp name L i hn (by simpa [stickyValue, hs] using hd)]
    simp [stickyStore, hs]
  · intro hd c hc
    rw [axisBody_pass s inp name L i hn (by simpa [stickyValue, hs] using hd)]
    exact switchAcc_touched _ _ _ c hc

/-- C2, witness: the non-sticky `OrbitX` example axis with deadzone 0, at raw value 0 and
at raw value 1. -/
theorem C2_deadzone_witness :
    axisBody 3 (exampleInputs 0) "A" (exampleLoop exampleOrbitX) 0 =
      exampleLoop exampleOrbitX ∧
    (axisBody 3 (exampleInputs 1) "A" (exampleLoop exampleOrbitX) 0).acc.touched
      Channel.globalRotation = true :=
  ⟨(C2_deadzone 3 (exampleInputs 0) "A" (exampleLoop exampleOrbitX) 0 (by rfl)
      (by simp [exampleLoop, exampleCam, exampleOrbitX])).1
      (by simp [exampleLoop, exampleCam, exampleOrbitX, exampleAxis, exampleInputs]),
    (C2_deadzone 3 (exampleInputs 1) "A" (exampleLoop exampleOrbitX) 0 (by rfl)
      (by simp [exampleLoop, exampleCam, exampleOrbitX])).2
      (by simp [exampleLoop, exampleCam, exampleOrbitX, exampleAxis, exampleInputs])
      Channel.globalRotation (by rfl)⟩

/-- C4: after `updateStateFromInput`, the record of every configured device whose
(non-empty) name is in the snapshot holds in `prevAxisValues[i]`, for every sticky axis
`i < MaxAxes` with a type other than `None`, the raw value read this tick, whether or not
the delta passed the deadzone test. -/
theorem C4_sticky_cache (K : Declarations) (S : JoystickCameraStates)
    (joystickInputStates globalInputs : JoystickInputStates) (deltaTime : ℚ)
    (name : String) (k : Nat) (c : JoystickCameraState) (i : Nat)
    (hname : name ≠ "") (hsnap : name ∈ joystickInputStates.names)
    (hk : getJoystickCameraState
      (updateStateFromInput K S joystickInputStates globalInputs deltaTime).states name
        = some k)
    (hc : (updateStateFromInput K S joystickInputStates globalInputs
      deltaTime).states._joystickCameraStates[k]? = some c)
    (hi : i < K.MaxAxes)
    (hs : (c.axisMapping i).isSticky = true)
    (hn : (c.axisMapping i).type ≠ AxisType.None) :
    c.prevAxisValues i = joystickInputStates.axis name i :=
  deviceFold_sticky K S._sensitivity joystickInputStates globalInputs name hname
    joystickInputStates.names _ (Or.inl hsnap) k c hk hc i hi hs hn

/-- C4, witness: one tick on the sticky `OrbitX` example axis with raw value 0.6 leaves
0.6 in the cache of axis 0 of device `"A"`. -/
theorem C4_sticky_cache_witness :
    (axisBody 1 (exampleInputs (3 / 5)) "A" (exampleLoop exampleSticky) 0).cam.prevAxisValues 0
      = 3 / 5 :=
  C4_sticky_cache exampleK ⟨1, [exampleCam exampleSticky]⟩ (exampleInputs (3 / 5))
    (exampleInputs (3 / 5)) 1 "A" 0
    (axisBody 1 (exampleInputs (3 / 5)) "A" (exampleLoop exampleSticky) 0).cam 0
    (by decide) (by simp [exampleInputs])
    (by
      rw [example_tick_states]
      simp [getJoystickCameraState, getJoystickCameraStateFrom, axisBody_joystickName,
        exampleLoop, exampleCam])
    (by rw [example_tick_states]; rfl)
    (by decide)
    (by rw [axisBody_axisMapping]; rfl)
    (by rw [axisBody_axisMapping]; simp [exampleLoop, exampleCam, exampleSticky])

/-- C5 (as amended): for every axis mapping that is neither normalised nor of type
`Property`, and every value entering the pipeline (in particular every one that passes the
deadzone), the pre-sensitivity value with `invert = true` is exactly the negation of the
pre-sensitivity value with `invert = false`, all other settings being equal. -/
theorem C5_invert_negates (t : AxisInformation) (value : ℚ)
    (hno : t.normalize = false) (hP : t.type ≠ AxisType.Property) :
    preSensitivity { t with invert := true } value =
      - preSensitivity { t with invert := false } value := by
  simp [preSensitivity, hno, hP]

/-- C5, witness: the plain `OrbitX` example axis at value 1. -/
theorem C5_invert_negates_witness :
    preSensitivity { exampleOrbitX with invert := true } 1 =
      - preSensitivity { exampleOrbitX with invert := false } 1 :=
  C5_invert_negates exampleOrbitX 1 (by rfl) (by simp [exampleOrbitX])

/-- C5, counterexample: for the normalised `OrbitX` axis with deadzone 0 and raw value 1
(which passes the deadzone) the pre-sensitivity value is 1 without invert and 0 with
invert, not -1; under an effective sensitivity of 1 the tick sets global rotation to
`(1, 0)` and `(0, 0)` respectively. -/
theorem C5_counterexample :
    ¬ |stickyValue (exampleNormalized true) 1 0| ≤ (exampleNormalized true).deadzone ∧
    preSensitivity (exampleNormalized false) 1 = 1 ∧
    preSensitivity (exampleNormalized true) 1 = 0 ∧
    preSensitivity (exampleNormalized true) 1 ≠ - preSensitivity (exampleNormalized false) 1 ∧
    (updateStateFromInput exampleK ⟨1, [exampleCam (exampleNormalized false)]⟩
        (exampleInputs 1) (exampleInputs 1) 1).velocityOps.head? =
      some (Channel.globalRotation, VelocityOp.set ⟨1, 0⟩ 1) ∧
    (updateStateFromInput exampleK ⟨1, [exampleCam (exampleNormalized true)]⟩
        (exampleInputs 1) (exampleInputs 1) 1).velocityOps.head? =
      some (Channel.globalRotation, VelocityOp.set ⟨0, 0⟩ 1) := by
  have h1 : preSensitivity (exampleNormalized false) 1 = 1 := by
    simp [preSensitivity, exampleNormalized, exampleAxis]
  have h0 : preSensitivity (exampleNormalized true) 1 = 0 := by
    simp [preSensitivity, exampleNormalized, exampleAxis]
  refine ⟨?_, h1, h0, ?_, ?_, ?_⟩
  · simp [stickyValue, exampleNormalized, exampleAxis]
  · rw [h0, h1]; norm_num
  · rw [example_tick]
    simp [axisBody, exampleLoop, exampleCam, exampleNormalized, exampleAxis, exampleInputs,
      stickyValue, stickyStore, preSensitivity, applySensitivity, switchAcc, velocityOps,
      velocityOp, Accumulators.init, epsilon]
    norm_num
  · rw [example_tick]
    simp [axisBody, exampleLoop, exampleCam, exampleNormalized, exampleAxis, exampleInputs,
      stickyValue, stickyStore, preSensitivity, applySensitivity, switchAcc, velocityOps,
      velocityOp, Accumulators.init, epsilon]
    norm_num

/-- C6 (as amended): for a normalised, non-inverted, non-sticky channel axis with
deadzone 0, a raw value other than 0 enters the sensitivity step as `(raw + 1) / 2`, which
is 0 for raw -1 and 1 for raw 1; raw 0 does not pass the deadzone test `|0| ≤ 0` and the
loop body changes nothing. -/
theorem C6_normalize (s : ℚ) (inp : JoystickInputStates) (name : String)
    (L : DeviceLoop) (i : Nat) (c : Channel)
    (hc : channelOf (L.cam.axisMapping i).type = some c)
    (hno : (L.cam.axisMapping i).normalize = true)
    (hi : (L.cam.axisMapping i).invert = false)
    (hs : (L.cam.axisMapping i).isSticky = false)
    (hdz : (L.cam.axisMapping i).deadzone = 0) :
    axisBody s inp name L i =
      (if inp.axis name i = 0 then L
       else
        { L with
          acc := switchAcc (L.cam.axisMapping i).type
            (applySensitivity (L.cam.axisMapping i) s ((inp.axis name i + 1) / 2)) L.acc }) ∧
    preSensitivity (L.cam.axisMapping i) (-1) = 0 ∧
    preSensitivity (L.cam.axisMapping i) 1 = 1 := by
  have hn : (L.cam.axisMapping i).type ≠ AxisType.None := by
    intro h; rw [h] at hc; simp [channelOf] at hc
  have hP : (L.cam.axisMapping i).type ≠ AxisType.Property := by
    intro h; rw [h] at hc; simp [channelOf] at hc
  have hv : stickyValue (L.cam.axisMapping i) (inp.axis name i) (L.cam.prevAxisValues i)
      = inp.axis name i := by
    simp [stickyValue, hs]
  have hst : stickyStore (L.cam.axisMapping i) i (inp.axis name i) L.cam = L.cam := by
    simp [stickyStore, hs]
  refine ⟨?_, by simp [preSensitivity, hno, hi, hP], by simp [preSensitivity, hno, hi, hP]⟩
  by_cases h0 : inp.axis name i = 0
  · rw [if_pos h0, axisBody_skip s inp name L i hn (by rw [hv, hdz, h0]; simp), hst]
  · rw [if_neg h0, axisBody_pass s inp name L i hn (by rw [hv, hdz]; simpa using h0), hst,
      hv, switchQueue_channel _ _ _ hP]
    simp [preSensitivity, hno, hi, hP]

/-- C6, witness: the normalised `OrbitX` example axis at raw value 1. -/
theorem C6_normalize_witness :
    (axisBody 1 (exampleInputs 1) "A"
      (exampleLoop (exampleNormalized false)) 0).acc.globalRotation = ⟨true, ⟨1, 0⟩⟩ := by
  rw [(C6_normalize 1 (exampleInputs 1) "A" (exampleLoop (exampleNormalized false)) 0
    Channel.globalRotation (by rfl) (by rfl) (by rfl) (by rfl) (by rfl)).1]
  simp [exampleLoop, exampleCam, exampleNormalized, exampleAxis, exampleInputs,
    applySensitivity, switchAcc, Accumulators.init, epsilon]

/-- C6, counterexample: for the normalised, non-inverted, non-sticky `OrbitX` axis with
deadzone 0, raw value 0 is rejected by the deadzone test: the loop body changes nothing,
global rotation is not marked touched and the tick decelerates it, so no contribution
0.5 exists. -/
theorem C6_counterexample :
    axisBody 1 (exampleInputs 0) "A" (exampleLoop (exampleNormalized false)) 0 =
      exampleLoop (exampleNormalized false) ∧
    (axisBody 1 (exampleInputs 0) "A"
      (exampleLoop (exampleNormalized false)) 0).acc.globalRotation = ⟨false, ⟨0, 0⟩⟩ ∧
    (updateStateFromInput exampleK ⟨1, [exampleCam (exampleNormalized false)]⟩
        (exampleInputs 0) (exampleInputs 0) 1).velocityOps.head? =
      some (Channel.globalRotation, VelocityOp.decelerate 1) := by
  have h : axisBody 1 (exampleInputs 0) "A" (exampleLoop (exampleNormalized false)) 0 =
      exampleLoop (exampleNormalized false) := by
    simp [axisBody, exampleLoop, exampleCam, exampleNormalized, exampleAxis, exampleInputs,
      stickyValue, stickyStore]
  refine ⟨h, ?_, ?_⟩
  · rw [h]; rfl
  · rw [example_tick, h]
    simp [exampleLoop, velocityOps, velocityOp, Accumulators.init]

/-- C7: a `Property` axis that is not inverted and not sticky, with deadzone 0 and
effective sensitivity factor 1, queues for every raw value that passes the deadzone
(`raw ≠ 0`) exactly one script, `setPropertyValue(uri, ((raw+1)/2)*(max-min)+min)`; with
`minValue = 10` and `maxValue = 20` the value is 20 for raw 1 and 10 for raw -1. -/
theorem C7_property_value (s : ℚ) (inp : JoystickInputStates) (name : String)
    (L : DeviceLoop) (i : Nat)
    (hP : (L.cam.axisMapping i).type = AxisType.Property)
    (hi : (L.cam.axisMapping i).invert = false)
    (hs : (L.cam.axisMapping i).isSticky = false)
    (hdz : (L.cam.axisMapping i).deadzone = 0)
    (hf : sensitivityFactor (L.cam.axisMapping i) s = 1)
    (hr : inp.axis name i ≠ 0) :
    (axisBody s inp name L i).queue =
      L.queue ++ [⟨Script.setPropertyValue (L.cam.axisMapping i).propertyUri
        ((inp.axis name i + 1) / 2 *
          ((L.cam.axisMapping i).maxValue - (L.cam.axisMapping i).minValue) +
          (L.cam.axisMapping i).minValue), (L.cam.axisMapping i).isRemote⟩] ∧
    ((L.cam.axisMapping i).minValue = 10 → (L.cam.axisMapping i).maxValue = 20 →
      (inp.axis name i = 1 →
        (axisBody s inp name L i).queue = L.queue ++
          [⟨Script.setPropertyValue (L.cam.axisMapping i).propertyUri 20,
            (L.cam.axisMapping i).isRemote⟩]) ∧
      (inp.axis name i = -1 →
        (axisBody s inp name L i).queue = L.queue ++
          [⟨Script.setPropertyValue (L.cam.axisMapping i).propertyUri 10,
            (L.cam.axisMapping i).isRemote⟩])) := by
  have hn : (L.cam.axisMapping i).type ≠ AxisType.None := by rw [hP]; decide
  have hv : stickyValue (L.cam.axisMapping i) (inp.axis name i) (L.cam.prevAxisValues i)
      = inp.axis name i := by
    simp [stickyValue, hs]
  have hq : (axisBody s inp name L i).queue =
      L.queue ++ [⟨Script.setPropertyValue (L.cam.axisMapping i).propertyUri
        ((inp.axis name i + 1) / 2 *
          ((L.cam.axisMapping i).maxValue - (L.cam.axisMapping i).minValue) +
          (L.cam.axisMapping i).minValue), (L.cam.axisMapping i).isRemote⟩] := by
    rw [axisBody_pass s inp name L i hn (by rw [hv, hdz]; simpa using hr), hv,
      applySensitivity_eq, hf, mul_one]
    simp [switchQueue, hP, preSensitivity, hi]
  refine ⟨hq, fun hmin hmax => ⟨fun h1 => ?_, fun h1 => ?_⟩⟩
  · rw [hq, h1, hmin, hmax]; norm_num
  · rw [hq, h1, hmin, hmax]; norm_num

/-- C7, witness: the `Property` example axis (range 10 .. 20) under `_sensitivity = 1`
at raw value 1 queues `setPropertyValue("Scene.X", 20)`. -/
theorem C7_property_value_witness :
    (axisBody 1 (exampleInputs 1) "A" (exampleLoop exampleProperty) 0).queue =
      [⟨Script.setPropertyValue "Scene.X" 20, true⟩] :=
  ((C7_property_value 1 (exampleInputs 1) "A" (exampleLoop exampleProperty) 0
    (by rfl) (by rfl) (by rfl) (by rfl)
    (by simp [sensitivityFactor, exampleLoop, exampleCam, exampleProperty, exampleAxis,
      epsilon])
    (by simp [exampleInputs])).2 (by rfl) (by rfl)).1 (by rfl)

/-- C8: in every tick each of the five channels receives exactly one velocity operation,
in source order: `set(aggregate, deltaTime)` if at least one axis of a device that the
tick processes touches the channel (its type feeds the channel and it passes its
deadzone), where `aggregate` is the sum, over all devices the tick processes and over
all their axes, of what the axis adds to the channel (its final value in the direction
of its type), and `decelerate(deltaTime)` otherwise.  For example two devices both mapped
to `OrbitX` with axis sensitivity 2, under `_sensitivity = 3` at raw values 1 and 1/2,
give the one operation `set((9, 0), deltaTime)` on the global rotation, the sum of 6 and
3, and `decelerate(deltaTime)` on the four other channels. -/
theorem C8_one_update_per_channel (K : Declarations) (S : JoystickCameraStates)
    (joystickInputStates globalInputs : JoystickInputStates) (deltaTime : ℚ) :
    (updateStateFromInput K S joystickInputStates globalInputs deltaTime).velocityOps =
      Channel.all.map (fun ch =>
        (ch,
          if (tickRecords K S._sensitivity joystickInputStates globalInputs
              S._joystickCameraStates joystickInputStates.names).any
                (fun e => (List.range K.MaxAxes).any
                  (fun i => axisTouches joystickInputStates e.1 e.2 i ch)) then
            VelocityOp.set
              ⟨((tickRecords K S._sensitivity joystickInputStates globalInputs
                  S._joystickCameraStates joystickInputStates.names).map
                    (fun e => ((List.range K.MaxAxes).map
                      (fun i => (axisAdds S._sensitivity joystickInputStates e.1 e.2 i
                        ch).x)).sum)).sum,
                ((tickRecords K S._sensitivity joystickInputStates globalInputs
                  S._joystickCameraStates joystickInputStates.names).map
                    (fun e => ((List.range K.MaxAxes).map
                      (fun i => (axisAdds S._sensitivity joystickInputStates e.1 e.2 i
                        ch).y)).sum)).sum⟩
              deltaTime
          else VelocityOp.decelerate deltaTime)) ∧
    (∀ c : Channel,
      ((updateStateFromInput K S joystickInputStates globalInputs
        deltaTime).velocityOps.filter (fun op => op.1 = c)).length = 1) ∧
    (updateStateFromInput exampleK
        ⟨3, [exampleCam exampleOrbitX, exampleCamB exampleOrbitX]⟩
        (exampleInputsAB 1 (1 / 2)) globalInputs deltaTime).velocityOps =
      [(Channel.globalRotation, VelocityOp.set ⟨9, 0⟩ deltaTime),
        (Channel.truckMovement, VelocityOp.decelerate deltaTime),
        (Channel.localRoll, VelocityOp.decelerate deltaTime),
        (Channel.globalRoll, VelocityOp.decelerate deltaTime),
        (Channel.localRotation, VelocityOp.decelerate deltaTime)] := by
  refine ⟨?_, ?_, example_two_devices globalInputs deltaTime⟩
  · unfold updateStateFromInput deviceLoop
    simp only [velocityOps_eq, deviceFold_add, foldl_add_touched, foldl_add_aggregate,
      contributions_eq]
    apply List.map_congr_left
    intro c _
    obtain ⟨h1, h2, h3⟩ := tickContributions_records K S._sensitivity joystickInputStates
      globalInputs c S._joystickCameraStates joystickInputStates.names
    rw [h1, h2, h3]
    cases c <;>
      simp only [Accumulators.init, Accumulators.touched, Accumulators.aggregate,
        deviceTouched, deviceAggregate, Bool.false_or, zero_add]
  · intro c
    unfold updateStateFromInput
    cases c <;> simp [velocityOps, List.filter]

/-- C9: when the coordinator holds `MaxNumJoysticks` records and the named device is not
among them, `findOrAddJoystickCameraState` creates no record and returns `nullptr`, and
`setAxisMapping`, `setAxisMappingProperty`, `setDeadzone` and `bindButtonCommand` leave
the whole coordinator unchanged (the first two stop at their assertion instead when
`axis ≥ MaxAxes`, also without a changed state). -/
theorem C9_capacity_exceeded (K : Declarations) (g : JoystickInputStates)
    (S : JoystickCameraStates) (joystickName : String)
    (hfull : S._joystickCameraStates.length = K.MaxNumJoysticks)
    (hnew : ∀ c ∈ S._joystickCameraStates, c.joystickName ≠ joystickName) :
    findOrAddJoystickCameraState K S joystickName = (S, none) ∧
    (∀ axis mapping shouldInvert shouldNormalize isSticky sensitivity,
      setAxisMapping K g S joystickName axis mapping shouldInvert shouldNormalize isSticky
        sensitivity = if axis < K.MaxAxes then Except.ok S else Except.error Fault.assertion) ∧
    (∀ axis propertyUri min max shouldInvert isSticky sensitivity isRemote,
      setAxisMappingProperty K g S joystickName axis propertyUri min max shouldInvert
        isSticky sensitivity isRemote =
        if axis < K.MaxAxes then Except.ok S else Except.error Fault.assertion) ∧
    (∀ axis deadzone, setDeadzone K S joystickName axis deadzone = Except.ok S) ∧
    (∀ button command action remote documentation,
      bindButtonCommand K S joystickName button command action remote documentation = S) := by
  have hfa := findOrAdd_full K S joystickName (le_of_eq hfull.symm) hnew
  refine ⟨hfa, ?_, ?_, ?_, ?_⟩
  · intro axis mapping inv nrm sticky sens
    unfold setAxisMapping
    rw [hfa]
    by_cases h : axis < K.MaxAxes <;> simp [h]
  · intro axis uri min max inv sticky sens isRemote
    unfold setAxisMappingProperty
    rw [hfa]
    by_cases h : axis < K.MaxAxes <;> simp [h]
  · intro axis dz
    unfold setDeadzone
    rw [hfa]
  · intro button command action remote doc
    unfold bindButtonCommand
    rw [hfa]

/-- C9, witness: with room for one joystick and the record `"A"` present, binding a
command for device `"B"` leaves the coordinator unchanged. -/
theorem C9_capacity_exceeded_witness :
    bindButtonCommand exampleK1 ⟨1, [exampleCam exampleOrbitX]⟩ "B" 0 "cmd"
      JoystickAction.Press true "" = ⟨1, [exampleCam exampleOrbitX]⟩ :=
  (C9_capacity_exceeded exampleK1 (exampleInputs 0) ⟨1, [exampleCam exampleOrbitX]⟩ "B"
    (by rfl) (by simp [exampleCam])).2.2.2.2 0 "cmd" JoystickAction.Press true ""

/-- C10: in every state reachable from the empty coordinator by configuration calls and
update ticks, the device records have pairwise distinct `joystickName` values and their
number is at most `MaxNumJoysticks`. -/
theorem C10_records_invariant (K : Declarations) (S : JoystickCameraStates)
    (h : Reachable K S) :
    (S._joystickCameraStates.map JoystickCameraState.joystickName).Nodup ∧
      S._joystickCameraStates.length ≤ K.MaxNumJoysticks := by
  have key : (names S._joystickCameraStates).Nodup ∧
      (names S._joystickCameraStates).length ≤ K.MaxNumJoysticks := by
    induction h with
    | construct s => simp [names]
    | setAxisMapping g n axis mapping inv nrm sticky sens _ hok ih =>
      rw [setAxisMapping_names K g _ _ n axis mapping inv nrm sticky sens hok]
      exact findOrAdd_invariant K _ n ih
    | setAxisMappingProperty g n axis uri min max inv sticky sens rem _ hok ih =>
      rw [setAxisMappingProperty_names K g _ _ n axis uri min max inv sticky sens rem hok]
      exact findOrAdd_invariant K _ n ih
    | setDeadzone n axis dz _ hok ih =>
      rw [setDeadzone_names K _ _ n axis dz hok]
      exact findOrAdd_invariant K _ n ih
    | bindButtonCommand n button command action remote doc _ ih =>
      rw [bindButtonCommand_names]
      exact findOrAdd_invariant K _ n ih
    | clearButtonCommand n button _ ih =>
      rw [clearButtonCommand_names]
      exact ih
    | updateStateFromInput inp g dt _ ih =>
      rw [updateStateFromInput_names]
      exact ih
  simpa [names] using key

/-- C10, witness: the coordinator after `bindButtonCommand("A", 0, "cmd", Press, ...)` on
the empty coordinator is reachable and holds one record. -/
theorem C10_records_invariant_witness :
    ((bindButtonCommand exampleK ⟨1, []⟩ "A" 0 "cmd" JoystickAction.Press true
        "")._joystickCameraStates.map JoystickCameraState.joystickName).Nodup ∧
      (bindButtonCommand exampleK ⟨1, []⟩ "A" 0 "cmd" JoystickAction.Press true
        "")._joystickCameraStates.length ≤ exampleK.MaxNumJoysticks :=
  C10_records_invariant exampleK _
    (Reachable.bindButtonCommand "A" 0 "cmd" JoystickAction.Press true ""
      (Reachable.construct 1))

/-- C11: for every device, every button and whatever bindings the button has (three, for
example), after `clearButtonCommand(device, button)` the query
`buttonCommand(device, button)` returns the empty sequence. -/
theorem C11_clear_then_query (S : JoystickCameraStates) (joystickName : String)
    (button : Int) :
    buttonCommand (clearButtonCommand S joystickName button) joystickName button = [] := by
  rw [buttonCommand_eq, clearButtonCommand_record]
  cases record S joystickName with
  | none => rfl
  | some c =>
    show (equalRange (c.buttonMapping.filter (fun kv => ¬ kv.1 = button)) button).map _ = []
    rw [equalRange_filter_self]
    rfl

/-- C12: `bindButtonCommand` appends and never replaces: in every reachable state, when
the device is known or capacity remains, `buttonCommand(device, button)` after
`bindButtonCommand(device, button, c, ...)` is `buttonCommand(device, button)` before the
call followed by `c`; the query therefore lists the commands in the order they were
bound, duplicates included. -/
theorem C12_bind_appends (K : Declarations) (S : JoystickCameraStates)
    (joystickName : String) (button : Int) (command : String) (action : JoystickAction)
    (remote : Bool) (documentation : String)
    (hS : Reachable K S)
    (hcap : record S joystickName ≠ none ∨
      S._joystickCameraStates.length < K.MaxNumJoysticks) :
    buttonCommand
        (bindButtonCommand K S joystickName button command action remote documentation)
        joystickName button =
      buttonCommand S joystickName button ++ [command] := by
  rw [buttonCommand_eq, buttonCommand_eq,
    bindButtonCommand_record K S joystickName button command action remote documentation
      hcap]
  unfold recordOrFresh
  cases hr : record S joystickName with
  | none => simp [JoystickCameraState.fresh, multimapInsert, equalRange]
  | some c =>
    obtain ⟨_, k, _, hk⟩ := record_some S joystickName c hr
    have hs := reachable_sorted K S hS c (List.getElem?_mem hk)
    simp [equalRange_insert_self _ _ _ hs]

/-- C12, witness: on the empty coordinator, binding `"p0"` to button 0 of device `"A"`
makes the query return the former (empty) answer followed by `"p0"`. -/
theorem C12_bind_appends_witness :
    buttonCommand
        (bindButtonCommand exampleK ⟨1, []⟩ "A" 0 "p0" JoystickAction.Press true "")
        "A" 0 =
      buttonCommand ⟨1, []⟩ "A" 0 ++ ["p0"] :=
  C12_bind_appends exampleK ⟨1, []⟩ "A" 0 "p0" JoystickAction.Press true ""
    (Reachable.construct 1) (Or.inr (by decide))

/-- C13: the button loop of a device enqueues, for every button index `i` below
`MaxButtons` in ascending order and every binding of that button in binding order, the
binding's command with the binding's remote flag exactly when the binding's own action
is active for that button; of two bindings of one button that differ only in the action,
`Press` and `Release`, exactly those whose action is active fire. -/
theorem C13_button_dispatch (K : Declarations) (globalInputs : JoystickInputStates)
    (name : String) (L : DeviceLoop) :
    (buttonLoop K globalInputs name L).queue =
      L.queue ++ (List.range K.MaxButtons).flatMap (fun i =>
        ((equalRange L.cam.buttonMapping i).filter
            (fun b => globalInputs.button name i b.action)).map
          (fun b => ⟨Script.command b.command, b.synchronization⟩)) ∧
    ∀ (i : Nat) (q : List QueuedScript) (command documentation : String) (remote : Bool),
      [⟨command, JoystickAction.Press, remote, documentation⟩,
        ⟨command, JoystickAction.Release, remote, documentation⟩].foldl
          (bindingBody globalInputs name i) q =
        q ++ (if globalInputs.button name i JoystickAction.Press then
                [⟨Script.command command, remote⟩] else []) ++
          (if globalInputs.button name i JoystickAction.Release then
                [⟨Script.command command, remote⟩] else []) := by
  constructor
  · exact buttonFold_queue globalInputs name _ L
  · intro i q command doc remote
    rw [bindingFold_queue]
    by_cases h1 : globalInputs.button name i JoystickAction.Press = true <;>
      by_cases h2 : globalInputs.button name i JoystickAction.Release = true <;>
      simp [List.filter_cons, h1, h2]

/-- C14: the scripts handed to the script engine in one tick are ordered entry by entry
in snapshot order; the part of one device consists of its `Property`-axis scripts in
ascending axis index followed by its button scripts in ascending button index and,
within one button, in binding order. -/
theorem C14_script_order (K : Declarations) (S : JoystickCameraStates)
    (joystickInputStates globalInputs : JoystickInputStates) (deltaTime : ℚ) :
    (updateStateFromInput K S joystickInputStates globalInputs deltaTime).queue =
        tickScripts K S._sensitivity joystickInputStates globalInputs
          S._joystickCameraStates joystickInputStates.names ∧
    (∀ (states : List JoystickCameraState) (n : String) (ns : List String),
      tickScripts K S._sensitivity joystickInputStates globalInputs states (n :: ns) =
        entryScripts K S._sensitivity joystickInputStates globalInputs states n ++
          tickScripts K S._sensitivity joystickInputStates globalInputs
            (deviceBody K S._sensitivity joystickInputStates globalInputs
              ⟨states, Accumulators.init, []⟩ n).states ns) ∧
    ∀ (name : String) (c : JoystickCameraState),
      deviceScripts K S._sensitivity joystickInputStates globalInputs name c =
        (List.range K.MaxAxes).flatMap
            (axisScripts S._sensitivity joystickInputStates name c) ++
          (List.range K.MaxButtons).flatMap (fun i =>
            ((equalRange c.buttonMapping i).filter
                (fun b => globalInputs.button name i b.action)).map
              (fun b => ⟨Script.command b.command, b.synchronization⟩)) := by
  refine ⟨?_, fun _ _ _ => rfl, fun _ _ => rfl⟩
  unfold updateStateFromInput deviceLoop
  simp only [deviceFold_queue, List.nil_append]

/-- C15: after `setAxisMappingProperty(device, axis, uri, min, max, invert, sticky,
sensitivity, isRemote)` with a valid axis, on a known device or with capacity remaining,
the axis slot has type `Property` and carries `uri` and `isRemote`; whenever that axis
passes its deadzone, its iteration of the axis loop queues exactly one script,
`setPropertyValue(uri, value)` tagged with `isRemote`, and leaves all five accumulators
(touched flags and aggregates) as they were. -/
theorem C15_property_axis (K : Declarations) (g : JoystickInputStates)
    (S : JoystickCameraStates) (joystickName : String) (axis : Int)
    (propertyUri : String) (min max : ℚ) (shouldInvert isSticky : Bool)
    (sensitivity : ℚ) (isRemote : Bool)
    (h0 : 0 ≤ axis) (h1 : axis < K.MaxAxes)
    (hcap : record S joystickName ≠ none ∨
      S._joystickCameraStates.length < K.MaxNumJoysticks) :
    ∃ S1 c,
      setAxisMappingProperty K g S joystickName axis propertyUri min max shouldInvert
        isSticky sensitivity isRemote = Except.ok S1 ∧
      record S1 joystickName = some c ∧
      (c.axisMapping axis.toNat).type = AxisType.Property ∧
      (c.axisMapping axis.toNat).propertyUri = propertyUri ∧
      (c.axisMapping axis.toNat).isRemote = isRemote ∧
      ∀ (s : ℚ) (inp : JoystickInputStates) (L : DeviceLoop),
        L.cam.axisMapping axis.toNat = c.axisMapping axis.toNat →
        ¬ |stickyValue (L.cam.axisMapping axis.toNat) (inp.axis joystickName axis.toNat)
            (L.cam.prevAxisValues axis.toNat)| ≤ (L.cam.axisMapping axis.toNat).deadzone →
        (axisBody s inp joystickName L axis.toNat).queue =
          L.queue ++
            [⟨Script.setPropertyValue propertyUri
                (applySensitivity (L.cam.axisMapping axis.toNat) s
                  (preSensitivity (L.cam.axisMapping axis.toNat)
                    (stickyValue (L.cam.axisMapping axis.toNat)
                      (inp.axis joystickName axis.toNat)
                      (L.cam.prevAxisValues axis.toNat)))),
              isRemote⟩] ∧
        (axisBody s inp joystickName L axis.toNat).acc = L.acc := by
  obtain ⟨S1, hok, _, hrec⟩ := setAxisMappingProperty_ok K g S joystickName axis propertyUri
    min max shouldInvert isSticky sensitivity isRemote h0 h1 hcap
  refine ⟨S1, _, hok, hrec, by simp [propertyWrite], by simp [propertyWrite],
    by simp [propertyWrite], ?_⟩
  intro s inp L hm hd
  have hty : (L.cam.axisMapping axis.toNat).type = AxisType.Property := by
    rw [hm]; simp [propertyWrite]
  have huri : (L.cam.axisMapping axis.toNat).propertyUri = propertyUri := by
    rw [hm]; simp [propertyWrite]
  have hrem : (L.cam.axisMapping axis.toNat).isRemote = isRemote := by
    rw [hm]; simp [propertyWrite]
  rw [axisBody_pass s inp joystickName L axis.toNat (by rw [hty]; decide) hd]
  simp [switchQueue, switchAcc, hty, huri, hrem]

/-- C15, witness: `setAxisMappingProperty("A", 0, "Scene.X", 10, 20, ...)` on the empty
coordinator succeeds. -/
theorem C15_property_axis_witness :
    ∃ S1 c,
      setAxisMappingProperty exampleK (exampleInputs 0) ⟨1, []⟩ "A" 0 "Scene.X" 10 20 false
        false 0 true = Except.ok S1 ∧
      record S1 "A" = some c ∧
      (c.axisMapping 0).type = AxisType.Property := by
  obtain ⟨S1, c, h1, h2, h3, _⟩ := C15_property_axis exampleK (exampleInputs 0) ⟨1, []⟩ "A"
    0 "Scene.X" 10 20 false false 0 true (by decide) (by decide) (Or.inr (by decide))
  exact ⟨S1, c, h1, h2, h3⟩

/-- C16 (as amended): `setAxisMapping` and `setAxisMappingProperty` fail their assertion,
before reading or writing any axis slot, exactly for the axis indices `≥ MaxAxes`;
whenever such a call gets past its check the index is `< MaxAxes`. -/
theorem C16_assertion (K : Declarations) (g : JoystickInputStates)
    (S : JoystickCameraStates) (joystickName : String) (axis : Int) (mapping : AxisType)
    (shouldInvert shouldNormalize isSticky : Bool) (sensitivity : ℚ)
    (propertyUri : String) (min max : ℚ) (isRemote : Bool) :
    (setAxisMapping K g S joystickName axis mapping shouldInvert shouldNormalize isSticky
        sensitivity = Except.error Fault.assertion ↔ (K.MaxAxes : Int) ≤ axis) ∧
    (setAxisMappingProperty K g S joystickName axis propertyUri min max shouldInvert
        isSticky sensitivity isRemote = Except.error Fault.assertion ↔
      (K.MaxAxes : Int) ≤ axis) := by
  constructor
  · unfold setAxisMapping
    by_cases h : axis < K.MaxAxes
    · simp only [h, not_true_eq_false, if_false]
      constructor
      · intro he
        split at he
        · simp at he
        · split at he <;> simp at he
      · intro hle; omega
    · simp only [h, not_false_eq_true, if_true, true_iff]
      omega
  · unfold setAxisMappingProperty
    by_cases h : axis < K.MaxAxes
    · simp only [h, not_true_eq_false, if_false]
      constructor
      · intro he
        split at he
        · simp at he
        · split at he <;> simp at he
      · intro hle; omega
    · simp only [h, not_false_eq_true, if_true, true_iff]
      omega

/-- C16, counterexample: on a known device, `setAxisMapping` with the negative axis
index -1 gets past its assertion and addresses the slot -1, outside the array; and
`setDeadzone` with the axis index `MaxAxes = 8` addresses slot 8 without any assertion. -/
theorem C16_counterexample :
    setAxisMapping exampleK (exampleInputs 0) ⟨1, [exampleCam exampleOrbitX]⟩ "A" (-1)
        AxisType.OrbitX false false false 0 = Except.error Fault.outOfBounds ∧
    setDeadzone exampleK ⟨1, [exampleCam exampleOrbitX]⟩ "A" 8 0
        = Except.error Fault.outOfBounds := by
  constructor
  · simp [setAxisMapping, exampleK, findOrAddJoystickCameraState, getJoystickCameraState,
      getJoystickCameraStateFrom, exampleCam, slot]
  · simp [setDeadzone, exampleK, findOrAddJoystickCameraState, getJoystickCameraState,
      getJoystickCameraStateFrom, exampleCam, slot]

/-- C17: for a device name that has no record, `axisMapping(name, axis)` returns a
default-constructed `AxisInformation`, `deadzone(name, axis)` returns 0 and
`buttonCommand(name, button)` returns the empty sequence, for every axis and button; the
three queries are `const` and return nothing but their value, and `clearButtonCommand`
leaves the coordinator as it is, without a new record. -/
theorem C17_unknown_device (K : Declarations) (S : JoystickCameraStates)
    (joystickName : String)
    (hnew : ∀ c ∈ S._joystickCameraStates, c.joystickName ≠ joystickName) :
    (∀ axis, axisMapping K S joystickName axis = Except.ok K.defaultAxisInformation) ∧
    (∀ axis, deadzone K S joystickName axis = Except.ok 0) ∧
    (∀ button, buttonCommand S joystickName button = []) ∧
    (∀ button, clearButtonCommand S joystickName button = S) := by
  have hr : record S joystickName = none := (record_none_iff S joystickName).mpr hnew
  have hg : getJoystickCameraState S joystickName = none :=
    (getFrom_none_iff joystickName _ 0).mpr hnew
  refine ⟨fun axis => ?_, fun axis => ?_, fun button => ?_, fun button => ?_⟩
  · rw [axisMapping_eq, hr]
  · rw [deadzone_eq, hr]
  · rw [buttonCommand_eq, hr]
  · simp [clearButtonCommand, hg]

/-- C17, witness: the device `"B"` has no record in a coordinator that only knows
`"A"`. -/
theorem C17_unknown_device_witness :
    axisMapping exampleK ⟨1, [exampleCam exampleOrbitX]⟩ "B" 0
      = Except.ok exampleK.defaultAxisInformation :=
  (C17_unknown_device exampleK ⟨1, [exampleCam exampleOrbitX]⟩ "B"
    (by simp [exampleCam])).1 0

/-- C18: after `setAxisMapping(device, axis, type, invert, normalize, sticky,
sensitivity)` with `0 ≤ axis < MaxAxes`, on a known device or with capacity remaining,
`axisMapping(device, axis)` returns an `AxisInformation` whose `type`, `invert`,
`normalize`, `isSticky` and `sensitivity` are the arguments passed, whatever the slot
held before; if the device had no record, exactly one record with that name exists
afterwards. -/
theorem C18_set_then_get (K : Declarations) (g : JoystickInputStates)
    (S : JoystickCameraStates) (joystickName : String) (axis : Int) (mapping : AxisType)
    (shouldInvert shouldNormalize isSticky : Bool) (sensitivity : ℚ)
    (h0 : 0 ≤ axis) (h1 : axis < K.MaxAxes)
    (hcap : record S joystickName ≠ none ∨
      S._joystickCameraStates.length < K.MaxNumJoysticks) :
    ∃ S1 t,
      setAxisMapping K g S joystickName axis mapping shouldInvert shouldNormalize isSticky
        sensitivity = Except.ok S1 ∧
      axisMapping K S1 joystickName axis = Except.ok t ∧
      t.type = mapping ∧ t.invert = shouldInvert ∧ t.normalize = shouldNormalize ∧
      t.isSticky = isSticky ∧ t.sensitivity = sensitivity ∧
      (record S joystickName = none →
        (S1._joystickCameraStates.map JoystickCameraState.joystickName).count joystickName
          = 1) := by
  obtain ⟨S1, hok, hnames, hrec⟩ := setAxisMapping_ok K g S joystickName axis mapping
    shouldInvert shouldNormalize isSticky sensitivity h0 h1 hcap
  refine ⟨S1,
    (axisWrite axis.toNat mapping shouldInvert shouldNormalize isSticky sensitivity
      (g.axis joystickName axis) (recordOrFresh K S joystickName)).axisMapping axis.toNat,
    hok, ?_, ?_, ?_, ?_, ?_, ?_, ?_⟩
  · rw [axisMapping_eq, hrec]
    simp only [slot_valid K axis h0 h1]
  · simp [axisWrite]
  · simp [axisWrite]
  · simp [axisWrite]
  · simp [axisWrite]
  · simp [axisWrite]
  · intro hnone
    have hlt : S._joystickCameraStates.length < K.MaxNumJoysticks := by
      rcases hcap with h | h
      · exact absurd hnone h
      · exact h
    have hnot : joystickName ∉ names S._joystickCameraStates := by
      intro hmem
      obtain ⟨c, hc, hcn⟩ := List.mem_map.mp hmem
      exact (record_none_iff S joystickName).mp hnone c hc hcn
    have hn : names S1._joystickCameraStates = names S._joystickCameraStates ++
        [joystickName] := by
      rw [hnames, findOrAdd_names_new K S joystickName hnone hlt]
    have hn1 : S1._joystickCameraStates.map JoystickCameraState.joystickName =
        names S._joystickCameraStates ++ [joystickName] := hn
    rw [hn1, List.count_append, List.count_eq_zero_of_not_mem hnot]
    simp

/-- C18, witness: `setAxisMapping("A", 0, OrbitX, ...)` on the empty coordinator. -/
theorem C18_set_then_get_witness :
    ∃ S1 t,
      setAxisMapping exampleK (exampleInputs 0) ⟨1, []⟩ "A" 0 AxisType.OrbitX false true
        true 2 = Except.ok S1 ∧
      axisMapping exampleK S1 "A" 0 = Except.ok t ∧
      t.type = AxisType.OrbitX ∧ t.sensitivity = 2 := by
  obtain ⟨S1, t, h1, h2, h3, _, _, _, h7, _⟩ := C18_set_then_get exampleK (exampleInputs 0)
    ⟨1, []⟩ "A" 0 AxisType.OrbitX false true true 2 (by decide) (by decide)
    (Or.inr (by decide))
  exact ⟨S1, t, h1, h2, h3, h7⟩

/-- C19: after `setDeadzone(device, axis, v)` with `0 ≤ axis < MaxAxes`, on a known device
or with capacity remaining (the record is created if absent), `deadzone(device, axis)`
returns `v`; in the record of the device every other field of that axis, every other
axis, the previous-value cache and the button bindings are what they were (in the fresh
record, if it was created by the call). -/
theorem C19_set_deadzone (K : Declarations) (S : JoystickCameraStates)
    (joystickName : String) (axis : Int) (v : ℚ)
    (h0 : 0 ≤ axis) (h1 : axis < K.MaxAxes)
    (hcap : record S joystickName ≠ none ∨
      S._joystickCameraStates.length < K.MaxNumJoysticks) :
    ∃ S1 c1,
      setDeadzone K S joystickName axis v = Except.ok S1 ∧
      deadzone K S1 joystickName axis = Except.ok v ∧
      record S1 joystickName = some c1 ∧
      c1.axisMapping axis.toNat =
        { (recordOrFresh K S joystickName).axisMapping axis.toNat with deadzone := v } ∧
      (∀ j, j ≠ axis.toNat →
        c1.axisMapping j = (recordOrFresh K S joystickName).axisMapping j) ∧
      c1.prevAxisValues = (recordOrFresh K S joystickName).prevAxisValues ∧
      c1.buttonMapping = (recordOrFresh K S joystickName).buttonMapping ∧
      c1.joystickName = (recordOrFresh K S joystickName).joystickName := by
  obtain ⟨S1, hok, _, hrec⟩ := setDeadzone_ok K S joystickName axis v h0 h1 hcap
  refine ⟨S1, _, hok, ?_, hrec, by simp [deadzoneWrite], ?_, rfl, rfl, rfl⟩
  · rw [deadzone_eq, hrec]
    simp only [slot_valid K axis h0 h1]
    simp [deadzoneWrite]
  · intro j hj
    simp [deadzoneWrite, Function.update, hj]

/-- C19, witness: `setDeadzone("A", 0, 1/4)` on a coordinator that knows `"A"`. -/
theorem C19_set_deadzone_witness :
    ∃ S1,
      setDeadzone exampleK ⟨1, [exampleCam exampleOrbitX]⟩ "A" 0 (1 / 4) = Except.ok S1 ∧
      deadzone exampleK S1 "A" 0 = Except.ok (1 / 4) := by
  obtain ⟨S1, _, h1, h2, _⟩ := C19_set_deadzone exampleK ⟨1, [exampleCam exampleOrbitX]⟩
    "A" 0 (1 / 4) (by decide) (by decide) (Or.inr (by decide))
  exact ⟨S1, h1, h2⟩

/-- C20 (as amended): `setAxisMapping` and `setAxisMappingProperty` (valid axis, known
device or capacity remaining) set `prevAxisValues[axis]` to the raw value the global
snapshot holds for the axis; for a sticky axis, an iteration of the axis loop that finds
that mapping and cache and reads the same raw value computes delta 0, whatever the raw
value is, and, provided the deadzone of the axis is not negative, changes neither
accumulators nor queue. -/
theorem C20_reseed (K : Declarations) (g : JoystickInputStates)
    (S : JoystickCameraStates) (joystickName : String) (axis : Int) (mapping : AxisType)
    (shouldInvert shouldNormalize : Bool) (sensitivity : ℚ)
    (propertyUri : String) (min max : ℚ) (isRemote : Bool)
    (h0 : 0 ≤ axis) (h1 : axis < K.MaxAxes)
    (hcap : record S joystickName ≠ none ∨
      S._joystickCameraStates.length < K.MaxNumJoysticks) :
    (∃ S1 c,
      setAxisMapping K g S joystickName axis mapping shouldInvert shouldNormalize true
        sensitivity = Except.ok S1 ∧
      record S1 joystickName = some c ∧
      c.prevAxisValues axis.toNat = g.axis joystickName axis ∧
      ∀ (s : ℚ) (inp : JoystickInputStates) (L : DeviceLoop),
        L.cam.axisMapping axis.toNat = c.axisMapping axis.toNat →
        L.cam.prevAxisValues axis.toNat = c.prevAxisValues axis.toNat →
        inp.axis joystickName axis = g.axis joystickName axis →
        stickyValue (L.cam.axisMapping axis.toNat) (inp.axis joystickName axis.toNat)
            (L.cam.prevAxisValues axis.toNat) = 0 ∧
          (0 ≤ (c.axisMapping axis.toNat).deadzone →
            (axisBody s inp joystickName L axis.toNat).acc = L.acc ∧
              (axisBody s inp joystickName L axis.toNat).queue = L.queue)) ∧
    (∃ S1 c,
      setAxisMappingProperty K g S joystickName axis propertyUri min max shouldInvert true
        sensitivity isRemote = Except.ok S1 ∧
      record S1 joystickName = some c ∧
      c.prevAxisValues axis.toNat = g.axis joystickName axis ∧
      ∀ (s : ℚ) (inp : JoystickInputStates) (L : DeviceLoop),
        L.cam.axisMapping axis.toNat = c.axisMapping axis.toNat →
        L.cam.prevAxisValues axis.toNat = c.prevAxisValues axis.toNat →
        inp.axis joystickName axis = g.axis joystickName axis →
        stickyValue (L.cam.axisMapping axis.toNat) (inp.axis joystickName axis.toNat)
            (L.cam.prevAxisValues axis.toNat) = 0 ∧
          (0 ≤ (c.axisMapping axis.toNat).deadzone →
            (axisBody s inp joystickName L axis.toNat).acc = L.acc ∧
              (axisBody s inp joystickName L axis.toNat).queue = L.queue)) := by
  have hcast : ((axis.toNat : Nat) : Int) = axis := Int.toNat_of_nonneg h0
  constructor
  · obtain ⟨S1, hok, _, hrec⟩ := setAxisMapping_ok K g S joystickName axis mapping
      shouldInvert shouldNormalize true sensitivity h0 h1 hcap
    refine ⟨S1, _, hok, hrec, by simp [axisWrite], ?_⟩
    intro s inp L hm hp hr
    have hs : (L.cam.axisMapping axis.toNat).isSticky = true := by
      rw [hm]; simp [axisWrite]
    have hp1 : L.cam.prevAxisValues axis.toNat = g.axis joystickName axis := by
      rw [hp]; simp [axisWrite]
    have hr1 : inp.axis joystickName (axis.toNat : Nat) = g.axis joystickName axis := by
      rw [hcast]; exact hr
    rw [← hm]
    exact sticky_reseeded s inp joystickName L axis.toNat _ hs hp1 hr1
  · obtain ⟨S1, hok, _, hrec⟩ := setAxisMappingProperty_ok K g S joystickName axis
      propertyUri min max shouldInvert true sensitivity isRemote h0 h1 hcap
    refine ⟨S1, _, hok, hrec, by simp [propertyWrite], ?_⟩
    intro s inp L hm hp hr
    have hs : (L.cam.axisMapping axis.toNat).isSticky = true := by
      rw [hm]; simp [propertyWrite]
    have hp1 : L.cam.prevAxisValues axis.toNat = g.axis joystickName axis := by
      rw [hp]; simp [propertyWrite]
    have hr1 : inp.axis joystickName (axis.toNat : Nat) = g.axis joystickName axis := by
      rw [hcast]; exact hr
    rw [← hm]
    exact sticky_reseeded s inp joystickName L axis.toNat _ hs hp1 hr1

/-- C20, witness: `setAxisMapping("A", 0, OrbitX, ..., sticky, ...)` on the empty
coordinator while axis 0 reads 1/2 leaves 1/2 in the cache of axis 0. -/
theorem C20_reseed_witness :
    ∃ S1 c,
      setAxisMapping exampleK (exampleInputs (1 / 2)) ⟨1, []⟩ "A" 0 AxisType.OrbitX false
        false true 0 = Except.ok S1 ∧
      record S1 "A" = some c ∧ c.prevAxisValues 0 = 1 / 2 := by
  obtain ⟨S1, c, h1, h2, h3, _⟩ := (C20_reseed exampleK (exampleInputs (1 / 2)) ⟨1, []⟩ "A"
    0 AxisType.OrbitX false false 0 "" 0 1 true (by decide) (by decide)
    (Or.inr (by decide))).1
  exact ⟨S1, c, h1, h2, h3⟩

/-- C20, counterexample: on the empty coordinator, `setDeadzone("A", 0, -1)` followed by
`setAxisMapping("A", 0, OrbitX, invert = no, normalize = yes, sticky = yes, 0)` while
axis 0 reads 1/2 leaves the record `exampleReseeded`; the next tick, with axis 0 still
reading 1/2, computes delta 0, which passes the deadzone -1, and sets global rotation to
`(1/2, 0)`: the axis contributes. -/
theorem C20_counterexample :
    setDeadzone exampleK ⟨1, []⟩ "A" 0 (-1) = Except.ok ⟨1, [exampleNegativeDeadzone]⟩ ∧
    setAxisMapping exampleK (exampleInputs (1 / 2)) ⟨1, [exampleNegativeDeadzone]⟩ "A" 0
        AxisType.OrbitX false true true 0 = Except.ok ⟨1, [exampleReseeded]⟩ ∧
    stickyValue (exampleReseeded.axisMapping 0) ((exampleInputs (1 / 2)).axis "A" 0)
        (exampleReseeded.prevAxisValues 0) = 0 ∧
    (updateStateFromInput exampleK ⟨1, [exampleReseeded]⟩ (exampleInputs (1 / 2))
        (exampleInputs (1 / 2)) 1).velocityOps.head? =
      some (Channel.globalRotation, VelocityOp.set ⟨1 / 2, 0⟩ 1) := by
  refine ⟨?_, ?_, ?_, ?_⟩
  · rfl
  · rfl
  · simp [stickyValue, exampleReseeded, axisWrite, exampleInputs]
  · rw [single_tick 1 1 exampleReseeded (exampleInputs (1 / 2)) (exampleInputs (1 / 2)) rfl
      rfl (by
        intro i hi
        simp [exampleReseeded, axisWrite, exampleNegativeDeadzone, deadzoneWrite,
          JoystickCameraState.fresh, exampleK, exampleAxis, Function.update, hi])]
    simp [axisBody, exampleReseeded, axisWrite, exampleNegativeDeadzone, deadzoneWrite,
      JoystickCameraState.fresh, exampleK, exampleAxis, exampleInputs, stickyValue,
      stickyStore, preSensitivity, applySensitivity, switchAcc, velocityOps, velocityOp,
      Accumulators.init, epsilon]
    norm_num

/-- C21: `clearButtonCommand(device, button)` changes nothing but the bindings of that
button in the record of that device: the record keeps everything except the pairs of
that button, the remaining pairs in their order, so that `buttonCommand(device, b)` is
the same before and after for every other button `b`; the record of every other device,
the names of the records and `_sensitivity` are unchanged; and the call returns the
coordinator unchanged when the device has no record or the button has no binding. -/
theorem C21_clear_frame (S : JoystickCameraStates) (joystickName : String)
    (button : Int) :
    record (clearButtonCommand S joystickName button) joystickName =
      (record S joystickName).map (fun c =>
        { c with buttonMapping := c.buttonMapping.filter (fun kv => ¬ kv.1 = button) }) ∧
    (∀ b, b ≠ button →
      buttonCommand (clearButtonCommand S joystickName button) joystickName b =
        buttonCommand S joystickName b) ∧
    (∀ name2, name2 ≠ joystickName →
      record (clearButtonCommand S joystickName button) name2 = record S name2) ∧
    (clearButtonCommand S joystickName button)._joystickCameraStates.map
        JoystickCameraState.joystickName =
      S._joystickCameraStates.map JoystickCameraState.joystickName ∧
    (clearButtonCommand S joystickName button)._sensitivity = S._sensitivity ∧
    (record S joystickName = none → clearButtonCommand S joystickName button = S) ∧
    ((∀ c, record S joystickName = some c → ∀ kv ∈ c.buttonMapping, kv.1 ≠ button) →
      clearButtonCommand S joystickName button = S) := by
  refine ⟨clearButtonCommand_record S joystickName button, ?_, ?_,
    clearButtonCommand_names S joystickName button, ?_, ?_, ?_⟩
  · intro b hb
    rw [buttonCommand_eq, buttonCommand_eq, clearButtonCommand_record]
    cases record S joystickName with
    | none => rfl
    | some c =>
      show (equalRange (c.buttonMapping.filter (fun kv => ¬ kv.1 = button)) b).map _ = _
      rw [equalRange_filter_other _ _ _ hb]
  · intro name2 hne
    unfold clearButtonCommand
    cases hg : getJoystickCameraState S joystickName with
    | none => rfl
    | some k => exact writeAt_record_other S joystickName name2 k _ (fun c => rfl) hg hne
  · unfold clearButtonCommand
    cases getJoystickCameraState S joystickName with
    | none => rfl
    | some k => exact writeAt_sensitivity S k _
  · intro hnone
    have hg : getJoystickCameraState S joystickName = none := by
      unfold getJoystickCameraState
      exact (getFrom_none_iff joystickName _ 0).mpr
        ((record_none_iff S joystickName).mp hnone)
    simp [clearButtonCommand, hg]
  · intro hno
    unfold clearButtonCommand
    cases hg : getJoystickCameraState S joystickName with
    | none => rfl
    | some k =>
      apply writeAt_id
      intro c hc
      have hr : record S joystickName = some c := by simp [record, hg, hc]
      have hfil : c.buttonMapping.filter (fun kv => ¬ kv.1 = button) = c.buttonMapping := by
        rw [List.filter_eq_self]
        intro kv hkv
        simpa using hno c hr kv hkv
      show { c with buttonMapping := c.buttonMapping.filter (fun kv => ¬ kv.1 = button) } = c
      rw [hfil]

/-- C22: in `updateStateFromInput` a snapshot entry whose name is empty or names a device
without a record is skipped entirely: its iteration of the device loop leaves records,
accumulators and queue as they are; a tick whose snapshot holds only such entries leaves
the coordinator unchanged, queues nothing and decelerates all five channels. -/
theorem C22_skipped_entries (K : Declarations) (S : JoystickCameraStates)
    (joystickInputStates globalInputs : JoystickInputStates) (deltaTime : ℚ)
    (h : ∀ n ∈ joystickInputStates.names, n = "" ∨ record S n = none) :
    (∀ (T : TickLoop) (n : String),
      n = "" ∨ record ⟨S._sensitivity, T.states⟩ n = none →
      deviceBody K S._sensitivity joystickInputStates globalInputs T n = T) ∧
    (updateStateFromInput K S joystickInputStates globalInputs deltaTime).states = S ∧
    (updateStateFromInput K S joystickInputStates globalInputs deltaTime).queue = [] ∧
    (updateStateFromInput K S joystickInputStates globalInputs deltaTime).velocityOps =
      [(Channel.globalRotation, VelocityOp.decelerate deltaTime),
        (Channel.truckMovement, VelocityOp.decelerate deltaTime),
        (Channel.localRoll, VelocityOp.decelerate deltaTime),
        (Channel.globalRoll, VelocityOp.decelerate deltaTime),
        (Channel.localRotation, VelocityOp.decelerate deltaTime)] := by
  have hfold : deviceLoop K S joystickInputStates globalInputs =
      ⟨S._joystickCameraStates, Accumulators.init, []⟩ :=
    deviceFold_skip K S._sensitivity joystickInputStates globalInputs _ _ h
  refine ⟨fun T n hn => deviceBody_skip K _ _ _ T n hn, ?_, ?_, ?_⟩
  · unfold updateStateFromInput
    rw [hfold]
  · unfold updateStateFromInput
    rw [hfold]
  · unfold updateStateFromInput
    rw [hfold]
    simp [velocityOps, velocityOp, Accumulators.init]

/-- C22, witness: a snapshot with an unconnected entry and the unconfigured device `"B"`,
on a coordinator that only knows `"A"`. -/
theorem C22_skipped_entries_witness :
    (updateStateFromInput exampleK ⟨1, [exampleCam exampleOrbitX]⟩
        ⟨["", "B"], fun _ _ => 1, fun _ _ _ => true⟩
        ⟨["", "B"], fun _ _ => 1, fun _ _ _ => true⟩ 1).queue = [] :=
  (C22_skipped_entries exampleK ⟨1, [exampleCam exampleOrbitX]⟩
    ⟨["", "B"], fun _ _ => 1, fun _ _ _ => true⟩
    ⟨["", "B"], fun _ _ => 1, fun _ _ _ => true⟩ 1
    (by
      intro n hn
      simp at hn
      rcases hn with hn | hn
      · exact Or.inl hn
      · right
        subst hn
        exact (record_none_iff _ _).mpr (by simp [exampleCam]))).2.2.1

/-- C23: for an axis whose mapped type is `None`, the iteration of the axis loop returns
its state as it is, for every raw value and every content of the cache: no channel is
marked touched, no aggregate changes, no script is queued, and the cache is neither
read nor written. -/
theorem C23_unmapped_axis (s : ℚ) (joystickInputStates : JoystickInputStates)
    (name : String) (L : DeviceLoop) (i : Nat)
    (h : (L.cam.axisMapping i).type = AxisType.None) :
    axisBody s joystickInputStates name L i = L ∧
    ∀ (prev : Nat → ℚ),
      axisBody s joystickInputStates name
          { L with cam := { L.cam with prevAxisValues := prev } } i =
        { L with cam := { L.cam with prevAxisValues := prev } } :=
  ⟨axisBody_none s joystickInputStates name L i h,
    fun _ => axisBody_none s joystickInputStates name _ i h⟩

/-- C23, witness: the unmapped axis 1 of the `OrbitX` example record, at raw value 1. -/
theorem C23_unmapped_axis_witness :
    axisBody 1 (exampleInputs 1) "A" (exampleLoop exampleOrbitX) 1 =
      exampleLoop exampleOrbitX :=
  (C23_unmapped_axis 1 (exampleInputs 1) "A" (exampleLoop exampleOrbitX) 1 (by rfl)).1

/-- C24: the truck channel of a tick is set, not decelerated, exactly when at least one
`Zoom`, `ZoomIn` or `ZoomOut` axis of a snapshot entry passed its deadzone, whatever the
aggregate is (0 included), and the aggregate is the sum of the final values of the
contributing `Zoom` and `ZoomIn` axes minus the sum of the final values of the
contributing `ZoomOut` axes; in the `switch`, `OrbitX/Y`, `LocalRollX/Y`,
`GlobalRollX/Y` and `PanX/Y` mark and add their value to the x/y component of global
rotation, local roll, global roll and local rotation respectively and leave every other
component as it is. -/
theorem C24_dispatch (K : Declarations) (S : JoystickCameraStates)
    (joystickInputStates globalInputs : JoystickInputStates) (deltaTime : ℚ) :
    (updateStateFromInput K S joystickInputStates globalInputs deltaTime).velocityOps[1]? =
      some (Channel.truckMovement,
        if tickZoomTouched K S._sensitivity joystickInputStates globalInputs
            S._joystickCameraStates joystickInputStates.names then
          VelocityOp.set
            ⟨tickZoom K S._sensitivity joystickInputStates globalInputs
                S._joystickCameraStates joystickInputStates.names,
              tickZoom K S._sensitivity joystickInputStates globalInputs
                S._joystickCameraStates joystickInputStates.names⟩ deltaTime
        else VelocityOp.decelerate deltaTime) ∧
    (∀ (states : List JoystickCameraState) (name : String) (c : JoystickCameraState),
      name ≠ "" → record ⟨S._sensitivity, states⟩ name = some c →
      entryZoom K S._sensitivity joystickInputStates states name =
        (((List.range K.MaxAxes).filter (zoomsIn joystickInputStates name c)).map
            (finalValue S._sensitivity joystickInputStates name c)).sum -
          (((List.range K.MaxAxes).filter (zoomsOut joystickInputStates name c)).map
            (finalValue S._sensitivity joystickInputStates name c)).sum) ∧
    ∀ (v : ℚ) (a : Accumulators),
      switchAcc AxisType.OrbitX v a =
        { a with globalRotation :=
            ⟨true, ⟨a.globalRotation.second.x + v, a.globalRotation.second.y⟩⟩ } ∧
      switchAcc AxisType.OrbitY v a =
        { a with globalRotation :=
            ⟨true, ⟨a.globalRotation.second.x, a.globalRotation.second.y + v⟩⟩ } ∧
      switchAcc AxisType.LocalRollX v a =
        { a with localRoll := ⟨true, ⟨a.localRoll.second.x + v, a.localRoll.second.y⟩⟩ } ∧
      switchAcc AxisType.LocalRollY v a =
        { a with localRoll := ⟨true, ⟨a.localRoll.second.x, a.localRoll.second.y + v⟩⟩ } ∧
      switchAcc AxisType.GlobalRollX v a =
        { a with globalRoll :=
            ⟨true, ⟨a.globalRoll.second.x + v, a.globalRoll.second.y⟩⟩ } ∧
      switchAcc AxisType.GlobalRollY v a =
        { a with globalRoll :=
            ⟨true, ⟨a.globalRoll.second.x, a.globalRoll.second.y + v⟩⟩ } ∧
      switchAcc AxisType.PanX v a =
        { a with localRotation :=
            ⟨true, ⟨a.localRotation.second.x + v, a.localRotation.second.y⟩⟩ } ∧
      switchAcc AxisType.PanY v a =
        { a with localRotation :=
            ⟨true, ⟨a.localRotation.second.x, a.localRotation.second.y + v⟩⟩ } := by
  refine ⟨?_, ?_, fun v a => ⟨rfl, rfl, rfl, rfl, rfl, rfl, rfl, rfl⟩⟩
  · have h := deviceFold_zoom K S._sensitivity joystickInputStates globalInputs
      joystickInputStates.names ⟨S._joystickCameraStates, Accumulators.init, []⟩
    unfold updateStateFromInput deviceLoop
    simp only [velocityOps, velocityOp, List.getElem?_cons_succ, List.getElem?_cons_zero,
      h.1, h.2]
    simp [Accumulators.init]
  · intro states name c hn hr
    simp [entryZoom, hn, hr]

/-- C26: `updateStateFromInput` changes no configuration: for every snapshot and
`deltaTime`, `_sensitivity`, the number of device records and, record by record, the
name, every axis mapping (all fields) and every button binding are the same after the
tick as before; a slot of `prevAxisValues` differs only if it belongs to a sticky axis
below `MaxAxes` with a type other than `None` of a record whose non-empty name is in the
snapshot, and then holds the raw value of that axis. -/
theorem C26_tick_frame (K : Declarations) (S : JoystickCameraStates)
    (joystickInputStates globalInputs : JoystickInputStates) (deltaTime : ℚ) :
    (updateStateFromInput K S joystickInputStates globalInputs
      deltaTime).states._sensitivity = S._sensitivity ∧
    (updateStateFromInput K S joystickInputStates globalInputs
      deltaTime).states._joystickCameraStates.length = S._joystickCameraStates.length ∧
    ∀ (k : Nat) (c : JoystickCameraState), S._joystickCameraStates[k]? = some c →
      ∃ c1 : JoystickCameraState,
        (updateStateFromInput K S joystickInputStates globalInputs
          deltaTime).states._joystickCameraStates[k]? = some c1 ∧
        c1.joystickName = c.joystickName ∧
        c1.axisMapping = c.axisMapping ∧
        c1.buttonMapping = c.buttonMapping ∧
        ∀ i, c1.prevAxisValues i ≠ c.prevAxisValues i →
          (c.axisMapping i).isSticky = true ∧ (c.axisMapping i).type ≠ AxisType.None ∧
          i < K.MaxAxes ∧ c.joystickName ≠ "" ∧
          c.joystickName ∈ joystickInputStates.names ∧
          c1.prevAxisValues i = joystickInputStates.axis c.joystickName i := by
  have h := deviceFold_framed K S._sensitivity joystickInputStates globalInputs
    joystickInputStates.names (fun n hn => hn)
    ⟨S._joystickCameraStates, Accumulators.init, []⟩
  refine ⟨rfl, h.1, ?_⟩
  intro k c hc
  obtain ⟨c1, hc1, hf⟩ := h.2 k c hc
  exact ⟨c1, hc1, hf⟩

/-- C27 (as amended): `setAxisMapping` and `setAxisMappingProperty` never write the
deadzone of an axis: for every axis with `0 ≤ axis < MaxAxes`, on a known device or with
capacity remaining,
`deadzone(device, axis)` returns `v` after `setDeadzone(device, axis, v)` followed by any
sequence of `setAxisMapping` and `setAxisMappingProperty` calls on that axis; and
`setDeadzone` followed by `setAxisMapping` (or `setAxisMappingProperty`) on the same
axis leaves the same coordinator as the two calls in the other order. -/
theorem C27_deadzone_kept (K : Declarations) (S : JoystickCameraStates)
    (joystickName : String) (axis : Int) (v : ℚ)
    (h0 : 0 ≤ axis) (h1 : axis < K.MaxAxes) :
    ((record S joystickName ≠ none ∨
        S._joystickCameraStates.length < K.MaxNumJoysticks) →
      ∀ calls : List MappingCall,
        ∃ S1 S2, setDeadzone K S joystickName axis v = Except.ok S1 ∧
          runCalls K joystickName axis calls S1 = Except.ok S2 ∧
          deadzone K S2 joystickName axis = Except.ok v) ∧
    (∀ (g : JoystickInputStates) (mapping : AxisType)
        (shouldInvert shouldNormalize isSticky : Bool) (sensitivity : ℚ),
      (setDeadzone K S joystickName axis v).bind
          (fun S1 => setAxisMapping K g S1 joystickName axis mapping shouldInvert
            shouldNormalize isSticky sensitivity) =
        (setAxisMapping K g S joystickName axis mapping shouldInvert shouldNormalize
            isSticky sensitivity).bind
          (fun S1 => setDeadzone K S1 joystickName axis v)) ∧
    (∀ (g : JoystickInputStates) (propertyUri : String) (min max : ℚ)
        (shouldInvert isSticky : Bool) (sensitivity : ℚ) (isRemote : Bool),
      (setDeadzone K S joystickName axis v).bind
          (fun S1 => setAxisMappingProperty K g S1 joystickName axis propertyUri min max
            shouldInvert isSticky sensitivity isRemote) =
        (setAxisMappingProperty K g S joystickName axis propertyUri min max shouldInvert
            isSticky sensitivity isRemote).bind
          (fun S1 => setDeadzone K S1 joystickName axis v)) := by
  refine ⟨?_, ?_, ?_⟩
  · intro hcap calls
    obtain ⟨S1, hok, _, hrec⟩ := setDeadzone_ok K S joystickName axis v h0 h1 hcap
    obtain ⟨S2, c2, hrun, hrec2, hv2⟩ := runCalls_deadzone K joystickName axis v h0 h1 calls
      S1 _ hrec (by simp [deadzoneWrite])
    refine ⟨S1, S2, hok, hrun, ?_⟩
    rw [deadzone_eq, hrec2]
    simp only [slot_valid K axis h0 h1, hv2]
  · intro g mapping inv nrm sticky sens
    exact setDeadzone_setAxisMapping_comm K g S joystickName axis v mapping inv nrm sticky
      sens h0 h1
  · intro g uri min max inv sticky sens isRemote
    exact setDeadzone_setAxisMappingProperty_comm K g S joystickName axis v uri min max inv
      sticky sens isRemote h0 h1

/-- C27, witness: on the empty coordinator, `setDeadzone("A", 0, 1/4)` followed by a
`setAxisMapping` and a `setAxisMappingProperty` call on axis 0 leaves deadzone 1/4. -/
theorem C27_deadzone_kept_witness :
    ∃ S1 S2, setDeadzone exampleK ⟨1, []⟩ "A" 0 (1 / 4) = Except.ok S1 ∧
      runCalls exampleK "A" 0
        [MappingCall.plain (exampleInputs 0) AxisType.OrbitX false false true 2,
          MappingCall.property (exampleInputs 1) "Scene.X" 10 20 false false 0 true]
        S1 = Except.ok S2 ∧
      deadzone exampleK S2 "A" 0 = Except.ok (1 / 4) :=
  (C27_deadzone_kept exampleK ⟨1, []⟩ "A" 0 (1 / 4) (by decide) (by decide)).1
    (Or.inr (by decide)) _

/-- C27, counterexample: under declarations with room for one joystick, the coordinator
that holds the one record `"A"`, as
`setAxisMapping("A", 0, OrbitX, no invert, no normalize, not sticky, 2)` leaves it on
the empty coordinator, is full; `setDeadzone("B", 0, 1/4)` is declined and
leaves it unchanged (lines 282-285), and `deadzone("B", 0)` then returns 0, not 1/4
(lines 291-294), with no `setAxisMapping` call in between.  On the known device `"A"`,
`setDeadzone("A", 8, 1/4)` with `MaxAxes = 8` indexes the array out of bounds (line 287)
and no deadzone is returned. -/
theorem C27_counterexample :
    setAxisMapping exampleK1 (exampleInputs 0) ⟨1, []⟩ "A" 0 AxisType.OrbitX false false
        false 2 = Except.ok ⟨1, [exampleCam exampleOrbitX]⟩ ∧
    setDeadzone exampleK1 ⟨1, [exampleCam exampleOrbitX]⟩ "B" 0 (1 / 4) =
      Except.ok ⟨1, [exampleCam exampleOrbitX]⟩ ∧
    runCalls exampleK1 "B" 0 [] ⟨1, [exampleCam exampleOrbitX]⟩ =
      Except.ok ⟨1, [exampleCam exampleOrbitX]⟩ ∧
    deadzone exampleK1 ⟨1, [exampleCam exampleOrbitX]⟩ "B" 0 = Except.ok 0 ∧
    deadzone exampleK1 ⟨1, [exampleCam exampleOrbitX]⟩ "B" 0 ≠ Except.ok (1 / 4) ∧
    setDeadzone exampleK ⟨1, [exampleCam exampleOrbitX]⟩ "A" 8 (1 / 4) =
      Except.error Fault.outOfBounds := by
  have hd : deadzone exampleK1 ⟨1, [exampleCam exampleOrbitX]⟩ "B" 0 = Except.ok 0 := rfl
  refine ⟨?_, rfl, rfl, hd, ?_, rfl⟩
  · simp [setAxisMapping, findOrAddJoystickCameraState, getJoystickCameraState,
      getJoystickCameraStateFrom, exampleK1, slot, writeAt, JoystickCameraState.fresh,
      exampleCam, exampleOrbitX, exampleAxis, exampleInputs]
    funext i
    by_cases h : i = 0 <;> simp [Function.update, h]
  rw [hd]
  intro h
  injection h with h
  norm_num at h

/-- C28 (as amended): for every `Property` axis with `minValue ≤ maxValue`, either invert
setting and an effective sensitivity factor of 1, whose pipeline input (the raw value,
or for a sticky axis the raw value minus the stored previous one) lies in `[-1, 1]` and
passes the deadzone, the value in the queued `setPropertyValue` script lies in the
closed interval `[minValue, maxValue]` (over exact arithmetic). -/
theorem C28_property_range (s : ℚ) (inp : JoystickInputStates) (name : String)
    (L : DeviceLoop) (i : Nat)
    (hP : (L.cam.axisMapping i).type = AxisType.Property)
    (hmm : (L.cam.axisMapping i).minValue ≤ (L.cam.axisMapping i).maxValue)
    (hf : sensitivityFactor (L.cam.axisMapping i) s = 1)
    (hlo : -1 ≤ stickyValue (L.cam.axisMapping i) (inp.axis name i) (L.cam.prevAxisValues i))
    (hhi : stickyValue (L.cam.axisMapping i) (inp.axis name i) (L.cam.prevAxisValues i) ≤ 1)
    (hd : ¬ |stickyValue (L.cam.axisMapping i) (inp.axis name i) (L.cam.prevAxisValues i)|
      ≤ (L.cam.axisMapping i).deadzone) :
    ∃ v : ℚ,
      (axisBody s inp name L i).queue =
        L.queue ++ [⟨Script.setPropertyValue (L.cam.axisMapping i).propertyUri v,
          (L.cam.axisMapping i).isRemote⟩] ∧
      (L.cam.axisMapping i).minValue ≤ v ∧ v ≤ (L.cam.axisMapping i).maxValue := by
  have hn : (L.cam.axisMapping i).type ≠ AxisType.None := by rw [hP]; decide
  refine ⟨preSensitivity (L.cam.axisMapping i)
    (stickyValue (L.cam.axisMapping i) (inp.axis name i) (L.cam.prevAxisValues i)), ?_,
    preSensitivity_property_range _ _ hP hmm hlo hhi⟩
  rw [axisBody_pass s inp name L i hn hd, applySensitivity_eq, hf, mul_one]
  simp [switchQueue, hP]

/-- C28, witness: the non-sticky `Property` example axis (range 10 .. 20) at raw value
1/2 under `_sensitivity = 1`. -/
theorem C28_property_range_witness :
    ∃ v : ℚ,
      (axisBody 1 (exampleInputs (1 / 2)) "A" (exampleLoop exampleProperty) 0).queue =
        [⟨Script.setPropertyValue "Scene.X" v, true⟩] ∧ 10 ≤ v ∧ v ≤ 20 :=
  C28_property_range 1 (exampleInputs (1 / 2)) "A" (exampleLoop exampleProperty) 0
    (by rfl)
    (by simp [exampleLoop, exampleCam, exampleProperty, exampleAxis]; norm_num)
    (by simp [sensitivityFactor, exampleLoop, exampleCam, exampleProperty, exampleAxis,
      epsilon])
    (by simp [stickyValue, exampleLoop, exampleCam, exampleProperty, exampleAxis,
      exampleInputs]; norm_num)
    (by simp [stickyValue, exampleLoop, exampleCam, exampleProperty, exampleAxis,
      exampleInputs]; norm_num)
    (by simp [stickyValue, exampleLoop, exampleCam, exampleProperty, exampleAxis,
      exampleInputs])

/-- C28, counterexample: on the empty coordinator,
`setAxisMappingProperty("A", 0, "Scene.X", 10, 20, invert = no, sticky = yes, 0, remote)`
while axis 0 reads -1 leaves the record `exampleStickyProperty`; in the next tick, with
`_sensitivity = 1` and axis 0 reading 1, which is in `[-1, 1]`, the delta 2 passes the
deadzone 0 and the script carries the value 25, outside `[10, 20]`. -/
theorem C28_counterexample :
    setAxisMappingProperty exampleK (exampleInputs (-1)) ⟨1, []⟩ "A" 0 "Scene.X" 10 20
        false true 0 true = Except.ok ⟨1, [exampleStickyProperty]⟩ ∧
    sensitivityFactor (exampleStickyProperty.axisMapping 0) 1 = 1 ∧
    (updateStateFromInput exampleK ⟨1, [exampleStickyProperty]⟩ (exampleInputs 1)
        (exampleInputs 1) 1).queue =
      [⟨Script.setPropertyValue "Scene.X" 25, true⟩] ∧
    ¬ ((25 : ℚ) ≤ (exampleStickyProperty.axisMapping 0).maxValue) := by
  refine ⟨rfl, ?_, ?_, ?_⟩
  · simp [sensitivityFactor, exampleStickyProperty, propertyWrite, epsilon]
  · rw [single_tick_queue 1 1 exampleStickyProperty (exampleInputs 1) (exampleInputs 1)
      rfl rfl (by
        intro i hi
        simp [exampleStickyProperty, propertyWrite, JoystickCameraState.fresh, exampleK,
          exampleAxis, Function.update, hi]) rfl]
    simp [axisBody, exampleStickyProperty, propertyWrite, JoystickCameraState.fresh,
      exampleK, exampleAxis, exampleInputs, stickyValue, stickyStore, preSensitivity,
      applySensitivity, switchQueue, epsilon]
    norm_num
  · simp [exampleStickyProperty, propertyWrite]
    norm_num

end OpenSpace
